import Mathlib

/-!
# cc2650LaunchPad: sensor utilities, I2C bus arbiter, sensor drivers and application task

A shallow embedding of `Board/Interfaces/sensor.c`, `Board/Interfaces/bsp_i2c.c`, the drivers
`Board/Devices/sensor_hdc1000.c`, `sensor_opt3001.c` and `sensor_mpu9250.c`, and the event
handling, message queue and advertising data of the application task in `SensorTag.c`.

Conventions of the embedding:

* `float` and `double` values are rationals (`ℚ`).  For a finite `float` input the
  products, halvings, comparisons and the rounding of `floatToSfloat` are exact in `double`
  arithmetic, so the rational model computes the same bits.  The decoder `sfloatToFloat`
  rounds: each of its `double` operations and its conversion to `float` is the exact result
  rounded to nearest, ties to even (`roundToPrecision`).
* `uint8_t` and `uint16_t` values are natural numbers; every place where the C code narrows
  a wider value carries an explicit `% 256` or `% 65536`.
* `int` is `ℤ`; a product that can leave the 32-bit range is wrapped with `wrapInt32`.
* static variables of a translation unit are the fields of a state record which every
  function receives and returns; calls into the RTOS and into other drivers are either
  recorded in the state or supplied as functions.
* a `uint8_t *` buffer is the memory behind the pointer, a function from offsets to bytes.
* a loop that always terminates is a total recursive function; the loop of `convertToLe`,
  whose 8-bit counter can wrap, takes a bound on the number of iterations and returns
  `none` when the bound is reached.
-/

namespace CC2650

/-! ## Value codec (`sensor.c`) -/

/-- The constant `PRECISION` (`#define PRECISION 100.0`). -/
def PRECISION : ℚ := 100

/-- The constant `IPRECISION` (`#define IPRECISION 100`). -/
def IPRECISION : ℤ := 100

/-- The C library function `round`: the nearest integer, halfway cases away from zero. -/
def cRound (q : ℚ) : ℤ :=
  if 0 ≤ q then ⌊q + 1 / 2⌋ else -⌊-q + 1 / 2⌋

/-- Conversion of an integer value to `uint16_t`. -/
def toUint16 (z : ℤ) : ℕ := (z % 65536).toNat

/-- Two's complement wrap of an integer to the 32-bit `int` range. -/
def wrapInt32 (z : ℤ) : ℤ := (z + 2147483648) % 4294967296 - 2147483648

/-- The exponent field of a short float: `(rawData & 0xF000) >> 12`. -/
def exponentField (rawData : ℕ) : ℕ := (rawData &&& 0xF000) >>> 12

/-- The mantissa field of a short float: `rawData & 0x0FFF`. -/
def mantissaField (rawData : ℕ) : ℕ := rawData &&& 0x0FFF

/-- The scaling loop of `floatToSfloat`: while the mantissa exceeds `0xFFF`, count one more
halving and divide by `2.0`.  Returns the scaled mantissa and the exponent. -/
def floatScale (mantissa : ℚ) (exponent : ℕ) : ℚ × ℕ :=
  if mantissa ≤ 0xFFF then (mantissa, exponent)
  else floatScale (mantissa / 2) (exponent + 1)
termination_by ⌈mantissa⌉.toNat
decreasing_by
  rename_i h
  simp only [not_le] at h
  have h1 : ⌈mantissa / 2⌉ < ⌈mantissa⌉ := by
    have ha : ((⌈mantissa / 2⌉ : ℤ) : ℚ) < mantissa / 2 + 1 := Int.ceil_lt_add_one _
    have hb : mantissa ≤ ((⌈mantissa⌉ : ℤ) : ℚ) := Int.le_ceil _
    have hc : ((⌈mantissa / 2⌉ : ℤ) : ℚ) < ((⌈mantissa⌉ : ℤ) : ℚ) := by
      linarith
    exact_mod_cast hc
  have h2 : 0 < ⌈mantissa⌉ := by
    rw [Int.ceil_pos]
    linarith
  omega

/-- The function `floatToSfloat` of `sensor.c`. -/
def floatToSfloat (data : ℚ) : ℕ :=
  let sgn : ℚ := if data > 0 then 1 else -1
  let scaled := floatScale (|data| * PRECISION) 0
  let mantissa := scaled.1
  let exponent := scaled.2
  let int_mantissa : ℕ := toUint16 (cRound (sgn * mantissa))
  (((exponent &&& 0xF) <<< 12) ||| (int_mantissa &&& 0xFFF)) % 65536

/-- The nearest integer, halfway cases to the even neighbour. -/
def roundHalfEven (q : ℚ) : ℤ :=
  if q - ⌊q⌋ < 1 / 2 then ⌊q⌋
  else if 1 / 2 < q - ⌊q⌋ then ⌊q⌋ + 1
  else if ⌊q⌋ % 2 = 0 then ⌊q⌋ else ⌊q⌋ + 1

/-- The rounding of IEEE 754 binary arithmetic (round to nearest, ties to even) to a format
with a significand of `p` bits: `q` is scaled by the power of two that brings its magnitude
into `[2 ^ (p - 1), 2 ^ p)`, rounded to an integer, and scaled back.  The exponent range is
not bounded; the values that `sfloatToFloat` computes are zero or lie between `2 ^ (-7)` and
`2 ^ 27`, in the normal range of both `double` and `float`. -/
def roundToPrecision (p : ℕ) (q : ℚ) : ℚ :=
  if q = 0 then 0
  else
    let e : ℤ := Int.log 2 |q| - ((p : ℤ) - 1)
    (roundHalfEven (q / 2 ^ e) : ℚ) * 2 ^ e

/-- The result of an operation in `double`: the exact result rounded to 53 bits. -/
def toDouble (q : ℚ) : ℚ := roundToPrecision 53 q

/-- The conversion of a `double` to `float`: the value rounded to 24 bits. -/
def toFloat (q : ℚ) : ℚ := roundToPrecision 24 q

/-- The function `sfloatToFloat` of `sensor.c`: `return m * exp2(e) * (1.0/PRECISION);`.  The
product `m * exp2(e)`, the quotient `1.0/PRECISION` and their product are computed in
`double`, and the result is converted to the return type `float`. -/
def sfloatToFloat (rawData : ℕ) : ℚ :=
  let m := rawData &&& 0x0FFF
  let e := (rawData &&& 0xF000) >>> 12
  toFloat (toDouble (toDouble ((m : ℚ) * 2 ^ e) * toDouble (1 / PRECISION)))

/-- The scaling loop of `intToSfloat`: while the mantissa exceeds `0xFFF`, count one more
halving and divide by `2` (C integer division, truncating). -/
def intScale (mantissa : ℤ) (exponent : ℕ) : ℤ × ℕ :=
  if mantissa ≤ 0xFFF then (mantissa, exponent)
  else intScale (mantissa.tdiv 2) (exponent + 1)
termination_by mantissa.toNat
decreasing_by
  rename_i h
  simp only [not_le] at h
  have h1 : mantissa.tdiv 2 = mantissa / 2 := Int.tdiv_eq_ediv (by omega) (by omega)
  rw [h1]
  omega

/-- The function `intToSfloat` of `sensor.c`. -/
def intToSfloat (data : ℤ) : ℕ :=
  let sgn : ℤ := if data > 0 then 1 else -1
  let scaled := intScale (wrapInt32 (data * IPRECISION)) 0
  let mantissa := scaled.1
  let exponent := scaled.2
  let int_mantissa : ℕ := toUint16 (wrapInt32 (sgn * mantissa))
  (((exponent &&& 0xF) <<< 12) ||| (int_mantissa &&& 0xFFF)) % 65536

/-! ## Endianness conversion (`sensor.c`) -/

/-- Memory seen through a `uint8_t *`: the byte stored at each offset from the pointer. -/
abbrev Bytes := ℕ → ℕ

/-- The `for` loop of `convertToLe`, entered with counter value `i`.  The counter is a
`uint8_t`, so `i += 2` wraps modulo 256.  `fuel` bounds the number of iterations; `none`
means that the bound was reached before the loop condition failed. -/
def convertToLeLoop : ℕ → Bytes → ℕ → ℕ → Option Bytes
  | 0, _, _, _ => none
  | fuel + 1, data, len, i =>
    if i < len then
      let tmp := data i
      let data1 := Function.update data i (data (i + 1))
      let data2 := Function.update data1 (i + 1) tmp
      convertToLeLoop fuel data2 len ((i + 2) % 256)
    else some data

/-- The function `convertToLe` of `sensor.c`; `len` is a `uint8_t`. -/
def convertToLe (fuel : ℕ) (data : Bytes) (len : ℕ) : Option Bytes :=
  convertToLeLoop fuel data len 0

/-! ## Self-test aggregation (`sensor.c`) -/

/-- The self-test routines that `sensorTestExecute` calls. -/
inductive SelfTest
  | sensorTmp007Test
  | sensorHdc1000Test
  | sensorSht21Test
  | sensorBmp280Test
  | sensorOpt3001Test
  | sensorMpu9250Test
  | sensorMpu9250MagTest
  | extFlashTest
  deriving DecidableEq, Repr

/-- The sensor bit masks `ST_...` of `sensor.h`.  That header is not among the sources at
hand, so the masks are parameters of the model. -/
structure SensorMasks where
  ST_IRTEMP : ℕ
  ST_HUMIDITY : ℕ
  ST_PRESSURE : ℕ
  ST_LIGHT : ℕ
  ST_MPU : ℕ
  ST_MAG : ℕ
  ST_FLASH : ℕ

/-- The static variable `selfTestResult` of `sensor.c`, together with a record of the
self-test routines called so far (oldest first). -/
structure SensorState where
  selfTestResult : ℕ
  calls : List SelfTest
  deriving DecidableEq, Repr

/-- One numbered block of `sensorTestExecute`:
`if (testMap & mask) { if (test()) { selfTestResult |= mask; } }`.
The outcome of the call is `run test`; `selfTestResult` is a `uint8_t`. -/
def testStep (run : SelfTest → Bool) (testMap mask : ℕ) (test : SelfTest)
    (s : SensorState) : SensorState :=
  if testMap &&& mask ≠ 0 then
    let s1 : SensorState := { s with calls := s.calls ++ [test] }
    if run test then { s1 with selfTestResult := (s1.selfTestResult ||| mask) % 256 }
    else s1
  else s

/-- The humidity self test selected at build time: `sensorHdc1000Test` when `CC2650ST_0120`
is defined, `sensorSht21Test` otherwise. -/
def humidityTest (cc2650st_0120 : Bool) : SelfTest :=
  if cc2650st_0120 then SelfTest.sensorHdc1000Test else SelfTest.sensorSht21Test

/-- The function `sensorTestExecute` of `sensor.c`.  Returns the returned bit mask and the
state on return. -/
def sensorTestExecute (M : SensorMasks) (cc2650st_0120 : Bool) (run : SelfTest → Bool)
    (testMap : ℕ) (s : SensorState) : ℕ × SensorState :=
  let s0 : SensorState := { s with selfTestResult := 0 }
  let s1 := testStep run testMap M.ST_IRTEMP SelfTest.sensorTmp007Test s0
  let s2 := testStep run testMap M.ST_HUMIDITY (humidityTest cc2650st_0120) s1
  let s3 := testStep run testMap M.ST_PRESSURE SelfTest.sensorBmp280Test s2
  let s4 := testStep run testMap M.ST_LIGHT SelfTest.sensorOpt3001Test s3
  let s5 := testStep run testMap M.ST_MPU SelfTest.sensorMpu9250Test s4
  let s6 := testStep run testMap M.ST_MAG SelfTest.sensorMpu9250MagTest s5
  let s7 := testStep run testMap M.ST_FLASH SelfTest.extFlashTest s6
  (s7.selfTestResult, s7)

/-- The function `sensorTestResult` of `sensor.c`.  Returns the returned value and the
(unchanged) state. -/
def sensorTestResult (s : SensorState) : ℕ × SensorState :=
  (s.selfTestResult, s)

/-- The state after `n` successive calls of `sensorTestResult`. -/
def afterQueries : ℕ → SensorState → SensorState
  | 0, s => s
  | n + 1, s => afterQueries n (sensorTestResult s).2

/-- The mask that selects a self-test routine in `testMap`. -/
def SensorMasks.maskOf (M : SensorMasks) : SelfTest → ℕ
  | SelfTest.sensorTmp007Test => M.ST_IRTEMP
  | SelfTest.sensorHdc1000Test => M.ST_HUMIDITY
  | SelfTest.sensorSht21Test => M.ST_HUMIDITY
  | SelfTest.sensorBmp280Test => M.ST_PRESSURE
  | SelfTest.sensorOpt3001Test => M.ST_LIGHT
  | SelfTest.sensorMpu9250Test => M.ST_MPU
  | SelfTest.sensorMpu9250MagTest => M.ST_MAG
  | SelfTest.extFlashTest => M.ST_FLASH

/-- The seven self tests of a build in the order IR temperature, humidity, pressure, light,
MPU, magnetometer, flash. -/
def testOrder (cc2650st_0120 : Bool) : List SelfTest :=
  [SelfTest.sensorTmp007Test, humidityTest cc2650st_0120, SelfTest.sensorBmp280Test,
    SelfTest.sensorOpt3001Test, SelfTest.sensorMpu9250Test, SelfTest.sensorMpu9250MagTest,
    SelfTest.extFlashTest]

/-- The seven masks are distinct single bits: mask number `i` is `2 ^ pos i` for an
injective assignment `pos` of bit positions. -/
def SensorMasks.DistinctBits (M : SensorMasks) (pos : Fin 7 → ℕ) : Prop :=
  Function.Injective pos ∧ M.ST_IRTEMP = 2 ^ pos 0 ∧ M.ST_HUMIDITY = 2 ^ pos 1 ∧
    M.ST_PRESSURE = 2 ^ pos 2 ∧ M.ST_LIGHT = 2 ^ pos 3 ∧ M.ST_MPU = 2 ^ pos 4 ∧
    M.ST_MAG = 2 ^ pos 5 ∧ M.ST_FLASH = 2 ^ pos 6

/-! ## I2C bus arbiter (`bsp_i2c.c`) -/

/-- The constant `BSP_I2C_INTERFACE_0` of `bsp_i2c.h`. -/
def BSP_I2C_INTERFACE_0 : ℕ := 0

/-- The constant `BSP_I2C_INTERFACE_1` of `bsp_i2c.h`. -/
def BSP_I2C_INTERFACE_1 : ℕ := 1

/-- Pin configurations that `i2cParams.custom` can point to; `bsp_i2c.c` defines one. -/
inductive PinCfg
  | pinCfg1
  deriving DecidableEq, Repr

/-- Bit rates of the TI I2C driver. -/
inductive I2C_BitRate
  | I2C_100kHz
  | I2C_400kHz
  deriving DecidableEq, Repr

/-- The fields of `I2C_Params` that `bsp_i2c.c` reads or writes; `custom = none` is `NULL`. -/
structure I2C_Params where
  bitRate : I2C_BitRate
  custom : Option PinCfg
  deriving DecidableEq, Repr

/-- The driver function `I2C_Params_init`: the driver defaults, 100 kHz and `custom = NULL`
(the source comment: sets custom to NULL, selects I2C interface 0). -/
def I2C_Params_init : I2C_Params :=
  { bitRate := I2C_BitRate.I2C_100kHz, custom := none }

/-- Calls into the RTOS I2C driver that change the transport. -/
inductive DriverCall
  | I2C_close (handle : Option ℕ)
  | I2C_open (params : I2C_Params)
  deriving DecidableEq, Repr

/-- The static variables of `bsp_i2c.c`: `slaveAddr`, `interface`, `i2cHandle`
(`none` is `NULL`), `i2cParams`, the count of the binary semaphore `mutex`, together with a
record of the driver calls made so far (oldest first). -/
structure BspI2c where
  slaveAddr : ℕ
  interface : ℕ
  i2cHandle : Option ℕ
  i2cParams : I2C_Params
  mutex : ℕ
  driverCalls : List DriverCall
  deriving DecidableEq, Repr

/-- The RTOS call `Semaphore_pend` with a finite timeout, seen from the calling context:
with a positive count it takes the semaphore and returns true; with count zero and no post
before the timeout expires it returns false and the count stays zero. -/
def Semaphore_pend (count : ℕ) : Bool × ℕ :=
  if count = 0 then (false, 0) else (true, count - 1)

/-- The RTOS call `Semaphore_post` on a binary semaphore: the count becomes one. -/
def Semaphore_post (_count : ℕ) : ℕ := 1

/-- The function `bspI2cSelect` of `bsp_i2c.c`.  `I2C_open` is the behaviour of the driver:
the handle (or `NULL`) it returns for the given parameters. -/
def bspI2cSelect (I2C_open : I2C_Params → Option ℕ) (newInterface address : ℕ)
    (s : BspI2c) : Bool × BspI2c :=
  if (Semaphore_pend s.mutex).1 = false then (false, s)
  else
    let s1 : BspI2c := { s with mutex := (Semaphore_pend s.mutex).2, slaveAddr := address }
    if newInterface ≠ s1.interface then
      let s2 : BspI2c := { s1 with interface := newInterface }
      let s3 : BspI2c :=
        { s2 with driverCalls := s2.driverCalls ++ [DriverCall.I2C_close s2.i2cHandle] }
      let s4 : BspI2c := { s3 with i2cParams := I2C_Params_init }
      let s5 : BspI2c :=
        if s4.interface = BSP_I2C_INTERFACE_1 then
          { s4 with i2cParams := { s4.i2cParams with custom := some PinCfg.pinCfg1 } }
        else s4
      let s6 : BspI2c :=
        { s5 with
          i2cHandle := I2C_open s5.i2cParams
          driverCalls := s5.driverCalls ++ [DriverCall.I2C_open s5.i2cParams] }
      (true, s6)
    else (true, s1)

/-- The function `bspI2cDeselect` of `bsp_i2c.c`. -/
def bspI2cDeselect (s : BspI2c) : BspI2c :=
  { s with mutex := Semaphore_post s.mutex }

/-- The transport parameters of a reconfiguration for interface `i`: the driver defaults,
with the interface-1 pin mapping exactly when `i = BSP_I2C_INTERFACE_1`. -/
def reconfigParams (i : ℕ) : I2C_Params :=
  { bitRate := I2C_BitRate.I2C_100kHz,
    custom := if i = BSP_I2C_INTERFACE_1 then some PinCfg.pinCfg1 else none }

/-! ## I2C bus arbiter: initialisation and contexts sharing the bus (`bsp_i2c.c`) -/

/-- How a call ends: it returns to its caller, or it ends the calling task (`Task_exit`,
which does not return).  The state is the state of the static variables at that point. -/
inductive CallEnd (σ : Type)
  | returned (s : σ)
  | taskExit (s : σ)
  deriving DecidableEq, Repr

/-- The transport parameters that `bspI2cInit` opens the driver with: the driver defaults
with `bitRate = I2C_400kHz`. -/
def initParams : I2C_Params :=
  { I2C_Params_init with bitRate := I2C_BitRate.I2C_400kHz }

/-- The function `bspI2cInit` of `bsp_i2c.c`.  `Semaphore_construct(&mutex, 1, ...)` creates
the binary semaphore with count 1; `HapiResetPeripheral` and `I2C_init` are not recorded. -/
def bspI2cInit (I2C_open : I2C_Params → Option ℕ) (s : BspI2c) : CallEnd BspI2c :=
  let s1 : BspI2c := { s with mutex := 1 }
  let s2 : BspI2c := { s1 with i2cParams := I2C_Params_init }
  let s3 : BspI2c := { s2 with i2cParams := { s2.i2cParams with bitRate := I2C_BitRate.I2C_400kHz } }
  let s4 : BspI2c :=
    { s3 with
      i2cHandle := I2C_open s3.i2cParams
      driverCalls := s3.driverCalls ++ [DriverCall.I2C_open s3.i2cParams] }
  let s5 : BspI2c := { s4 with slaveAddr := 0xFF }
  let s6 : BspI2c := { s5 with interface := BSP_I2C_INTERFACE_0 }
  if s6.i2cHandle = none then CallEnd.taskExit s6 else CallEnd.returned s6

/-- A call of the bus arbiter made by one of two execution contexts. -/
inductive BusEvent
  | select (context : Fin 2) (newInterface address : ℕ)
  | deselect (context : Fin 2)
  deriving DecidableEq, Repr

/-- Two contexts sharing the bus: the static variables of `bsp_i2c.c` and, for each context,
whether it holds the bus, that is, whether its last successful `bspI2cSelect` has not yet been
followed by a `bspI2cDeselect` of its own. -/
structure BusSys where
  bus : BspI2c
  holds0 : Bool
  holds1 : Bool
  deriving DecidableEq, Repr

/-- Whether context `c` holds the bus. -/
def BusSys.holds (sys : BusSys) (c : Fin 2) : Bool :=
  if c = 0 then sys.holds0 else sys.holds1

/-- Record whether context `c` holds the bus. -/
def BusSys.setHolds (sys : BusSys) (c : Fin 2) (b : Bool) : BusSys :=
  if c = 0 then { sys with holds0 := b } else { sys with holds1 := b }

/-- One call in an interleaving.  The calls themselves are atomic steps: a blocked
`bspI2cSelect` that later gets the semaphore is a call placed at that later point, one that
times out is a call placed where the count is zero. -/
def busStep (I2C_open : I2C_Params → Option ℕ) (sys : BusSys) : BusEvent → BusSys
  | BusEvent.select c i a =>
    let r := bspI2cSelect I2C_open i a sys.bus
    let sys1 : BusSys := { sys with bus := r.2 }
    if r.1 then sys1.setHolds c true else sys1
  | BusEvent.deselect c =>
    let sys1 : BusSys := { sys with bus := bspI2cDeselect sys.bus }
    sys1.setHolds c false

/-- An interleaving: the calls of the two contexts in the order in which they take effect. -/
def busRun (I2C_open : I2C_Params → Option ℕ) (sys : BusSys) : List BusEvent → BusSys
  | [] => sys
  | e :: rest => busRun I2C_open (busStep I2C_open sys e) rest

/-- The caller discipline: every `bspI2cDeselect` in the interleaving is made by a context
that holds the bus at that point. -/
def Disciplined (I2C_open : I2C_Params → Option ℕ) (sys : BusSys) : List BusEvent → Bool
  | [] => true
  | BusEvent.select c i a :: rest =>
    Disciplined I2C_open (busStep I2C_open sys (BusEvent.select c i a)) rest
  | BusEvent.deselect c :: rest =>
    sys.holds c && Disciplined I2C_open (busStep I2C_open sys (BusEvent.deselect c)) rest

/-- The system right after `bspI2cInit` has returned: nobody holds the bus. -/
def busStart (bus : BspI2c) : BusSys :=
  { bus := bus, holds0 := false, holds1 := false }

/-- The number of contexts that hold the bus. -/
def BusSys.holders (sys : BusSys) : ℕ :=
  (if sys.holds0 then 1 else 0) + (if sys.holds1 then 1 else 0)

/-! ## Application task (`SensorTag.c`)

The model covers a build without `FEATURE_OAD`.  Calls into other modules (profiles, GAP
role, PIN driver, utilities) are recorded, oldest first, in the field `calls`. -/

/-- The event bit `ST_STATE_CHANGE_EVT`. -/
def ST_STATE_CHANGE_EVT : ℕ := 0x0001

/-- The event bit `ST_CHAR_CHANGE_EVT`. -/
def ST_CHAR_CHANGE_EVT : ℕ := 0x0002

/-- The event bit `ST_PERIODIC_EVT`. -/
def ST_PERIODIC_EVT : ℕ := 0x0004

/-- The event bit `ST_USER_DEFINED_PERIODIC_EVT`. -/
def ST_USER_DEFINED_PERIODIC_EVT : ℕ := 0x0010

/-- The values of `gaprole_States_t` that `SensorTag.c` names.  The enumeration belongs to
the BLE stack, which is not among the sources at hand, so the values are parameters. -/
structure GapRole where
  GAPROLE_INIT : ℕ
  GAPROLE_STARTED : ℕ
  GAPROLE_ADVERTISING : ℕ
  GAPROLE_CONNECTED : ℕ
  GAPROLE_CONNECTED_ADV : ℕ
  GAPROLE_WAITING : ℕ
  GAPROLE_WAITING_AFTER_TIMEOUT : ℕ
  GAPROLE_ERROR : ℕ
  deriving DecidableEq, Repr

/-- The seven values used as `case` labels of the `switch` in
`SensorTag_processStateChangeEvt` are pairwise distinct, as C requires of case labels. -/
def GapRole.Distinct (G : GapRole) : Prop :=
  [G.GAPROLE_STARTED, G.GAPROLE_ADVERTISING, G.GAPROLE_CONNECTED, G.GAPROLE_CONNECTED_ADV,
    G.GAPROLE_WAITING, G.GAPROLE_WAITING_AFTER_TIMEOUT, G.GAPROLE_ERROR].Nodup

/-- Build options and environment of the application task: the GAP role values, whether
`PLUS_BROADCASTER` and `FEATURE_LCD` are defined, and the device address that
`GAPRole_GetParameter(GAPROLE_BD_ADDR, ...)` delivers. -/
structure AppCfg where
  G : GapRole
  PLUS_BROADCASTER : Bool
  FEATURE_LCD : Bool
  ownAddress : List ℕ

/-- The application message type `stEvt_t`. -/
structure stEvt_t where
  event : ℕ
  serviceID : ℕ
  paramID : ℕ
  deriving DecidableEq, Repr

/-- Output pins that the application drives. -/
inductive Pin
  | Board_LED1
  | Board_LED2
  | Board_BUZZER
  deriving DecidableEq, Repr

/-- Output levels, by their names in `Board.h`. -/
inductive PinValue
  | Board_LED_ON
  | Board_LED_OFF
  | Board_BUZZER_OFF
  deriving DecidableEq, Repr

/-- The texts passed to `LCD_WRITES_STATUS`. -/
inductive LcdStatus
  | Initialized
  | Advertising
  | Connected
  | Waiting
  | Error
  deriving DecidableEq, Repr

/-- Calls that the modelled functions of `SensorTag.c` make; `SensorTag_processAppMsg` is
recorded on entry. -/
inductive AppCall
  | SensorTag_processStackMsg (pMsg : Option ℕ)
  | ICall_freeMsg
  | SensorTag_processAppMsg (pMsg : stEvt_t)
  | ICall_free (pMsg : stEvt_t)
  | SensorTag_processCharValueChangeEvt (serviceID paramID : ℕ)
  | DevInfo_SetParameter_SYSTEM_ID (systemId : List ℕ)
  | LCD_WRITES_STATUS (text : LcdStatus)
  | Util_startClock_periodicClock
  | sensorTag_updateAdvertisingData (keyStatus : ℕ)
  | PIN_setOutputValue (pin : Pin) (value : PinValue)
  | GAPRole_SetParameter_ADVERT_ENABLED (value : Bool)
  | SensorTag_resetAllSensors
  | SensorTag_performPeriodicTask
  | SensorTag_blinkLed (led : Pin) (nBlinks : ℕ)
  | MysensorTag_updateAdvertisingData
  | SensorTag_displayBatteryVoltage
  | SensorTagKeys_processEvent
  | SensorTagOpt_processSensorEvent
  | SensorTagMov_processSensorEvent
  | Semaphore_post_sem
  deriving DecidableEq, Repr

/-- The variables of `SensorTag.c` that the modelled functions read or write:
`gapProfileState`, `events` (a `uint16_t`), the messages in `appMsgQueue` (head first),
whether `periodicClock` is active, the static `firstConnFlag`, and the record of calls. -/
structure AppState where
  gapProfileState : ℕ
  events : ℕ
  appMsgQueue : List stEvt_t
  periodicClockActive : Bool
  firstConnFlag : Bool
  calls : List AppCall
  deriving DecidableEq, Repr

/-- Record calls. -/
def AppState.call (s : AppState) (cs : List AppCall) : AppState :=
  { s with calls := s.calls ++ cs }

/-- The call `Util_startClock(&periodicClock)`: the clock is active afterwards. -/
def Util_startClock_periodicClock (s : AppState) : AppState :=
  { s with periodicClockActive := true, calls := s.calls ++ [AppCall.Util_startClock_periodicClock] }

/-- The function `SensorTag_clockHandler` of `SensorTag.c`. -/
def SensorTag_clockHandler (arg : ℕ) (s : AppState) : AppState :=
  { s with events := (s.events ||| arg) % 65536, calls := s.calls ++ [AppCall.Semaphore_post_sem] }

/-- Modelled from the spec: the helper `Util_enqueueMsg(appMsgQueue, sem, pMsg)`, whose
source is not at hand.  The spec says of an enqueue that it appends the message to a FIFO
and wakes the scheduler by signalling its wait primitive: the message goes to the tail of
the queue and the semaphore of the application is posted. -/
def Util_enqueueMsg (pMsg : stEvt_t) (s : AppState) : AppState :=
  { s with
    appMsgQueue := s.appMsgQueue ++ [pMsg]
    calls := s.calls ++ [AppCall.Semaphore_post_sem] }

/-- The function `SensorTag_enqueueMsg` of `SensorTag.c`; `mallocOk` tells whether
`ICall_malloc` returned a message.  The three arguments are `uint8_t` values. -/
def SensorTag_enqueueMsg (mallocOk : Bool) (event serviceID paramID : ℕ)
    (s : AppState) : AppState :=
  if mallocOk then
    Util_enqueueMsg
      { event := event % 256, serviceID := serviceID % 256, paramID := paramID % 256 } s
  else s

/-- The function `SensorTag_stateChangeCB` of `SensorTag.c`. -/
def SensorTag_stateChangeCB (mallocOk : Bool) (newState : ℕ) (s : AppState) : AppState :=
  SensorTag_enqueueMsg mallocOk ST_STATE_CHANGE_EVT newState 0 s

/-- The system identifier that the `GAPROLE_STARTED` case derives from the device address. -/
def systemIdOf (ownAddress : List ℕ) : List ℕ :=
  [ownAddress.getD 0 0, ownAddress.getD 1 0, ownAddress.getD 2 0, 0x00, 0x00,
    ownAddress.getD 3 0, ownAddress.getD 4 0, ownAddress.getD 5 0]

/-- The function `SensorTag_processStateChangeEvt` of `SensorTag.c`. -/
def SensorTag_processStateChangeEvt (C : AppCfg) (newState : ℕ) (s : AppState) : AppState :=
  let s1 : AppState :=
    if newState = C.G.GAPROLE_STARTED then
      s.call [AppCall.DevInfo_SetParameter_SYSTEM_ID (systemIdOf C.ownAddress),
        AppCall.LCD_WRITES_STATUS LcdStatus.Initialized]
    else if newState = C.G.GAPROLE_ADVERTISING then
      let a := if s.periodicClockActive = false then Util_startClock_periodicClock s else s
      a.call [AppCall.sensorTag_updateAdvertisingData 0,
        AppCall.LCD_WRITES_STATUS LcdStatus.Advertising]
    else if newState = C.G.GAPROLE_CONNECTED then
      let a := if s.periodicClockActive = false then Util_startClock_periodicClock s else s
      let b := a.call [AppCall.PIN_setOutputValue Pin.Board_LED1 PinValue.Board_LED_OFF,
        AppCall.PIN_setOutputValue Pin.Board_LED2 PinValue.Board_LED_OFF,
        AppCall.PIN_setOutputValue Pin.Board_BUZZER PinValue.Board_BUZZER_OFF]
      let c : AppState :=
        if C.PLUS_BROADCASTER then
          if b.firstConnFlag = false then
            { b.call [AppCall.GAPRole_SetParameter_ADVERT_ENABLED true] with
              firstConnFlag := true }
          else b
        else b
      c.call [AppCall.LCD_WRITES_STATUS LcdStatus.Connected]
    else if newState = C.G.GAPROLE_CONNECTED_ADV then s
    else if newState = C.G.GAPROLE_WAITING ∨ newState = C.G.GAPROLE_WAITING_AFTER_TIMEOUT then
      s.call [AppCall.SensorTag_resetAllSensors, AppCall.LCD_WRITES_STATUS LcdStatus.Waiting]
    else if newState = C.G.GAPROLE_ERROR then
      s.call [AppCall.SensorTag_resetAllSensors,
        AppCall.PIN_setOutputValue Pin.Board_LED1 PinValue.Board_LED_ON,
        AppCall.LCD_WRITES_STATUS LcdStatus.Error]
    else s
  { s1 with gapProfileState := newState }

/-- The function `SensorTag_processAppMsg` of `SensorTag.c`. -/
def SensorTag_processAppMsg (C : AppCfg) (pMsg : stEvt_t) (s : AppState) : AppState :=
  let s1 := s.call [AppCall.SensorTag_processAppMsg pMsg]
  if pMsg.event = ST_STATE_CHANGE_EVT then
    SensorTag_processStateChangeEvt C pMsg.serviceID s1
  else if pMsg.event = ST_CHAR_CHANGE_EVT then
    s1.call [AppCall.SensorTag_processCharValueChangeEvt pMsg.serviceID pMsg.paramID]
  else s1

/-- One iteration of `while (!Queue_empty(appMsgQueue))` in `SensorTag_taskFxn`:
`Util_dequeueMsg` takes the head of the queue, the message is processed and freed. -/
def drainStep (C : AppCfg) (pMsg : stEvt_t) (rest : List stEvt_t) (s : AppState) : AppState :=
  let s1 : AppState := { s with appMsgQueue := rest }
  let s2 := SensorTag_processAppMsg C pMsg s1
  s2.call [AppCall.ICall_free pMsg]

/-- The loop `while (!Queue_empty(appMsgQueue))` of `SensorTag_taskFxn`.  `fuel` bounds the
number of iterations; `none` means that the bound was reached with the queue not empty. -/
def drainAppMsgQueue (C : AppCfg) : ℕ → AppState → Option AppState
  | 0, _ => none
  | fuel + 1, s =>
    match s.appMsgQueue with
    | [] => some s
    | pMsg :: rest => drainAppMsgQueue C fuel (drainStep C pMsg rest s)

/-- What `ICall_fetchServiceMsg` delivered when it returned success: whether the message is
from the BLE stack for this application, and the message pointer (`none` is `NULL`, otherwise
the event code in the message header). -/
structure FetchedMsg where
  fromStackToSelf : Bool
  pMsg : Option ℕ
  deriving DecidableEq, Repr

/-- The first part of an iteration of the task loop of `SensorTag_taskFxn` (the body of
`if (errno == ICALL_ERRNO_SUCCESS)`): the stack message, the application messages, the
sensor events. -/
def taskMessages (C : AppCfg) (fuel : ℕ) (fetched : Option FetchedMsg)
    (s : AppState) : Option AppState :=
  let s1 : AppState :=
    match fetched with
    | none => s
    | some f =>
      let a := if f.fromStackToSelf then s.call [AppCall.SensorTag_processStackMsg f.pMsg] else s
      if f.pMsg ≠ none then a.call [AppCall.ICall_freeMsg] else a
  match drainAppMsgQueue C fuel s1 with
  | none => none
  | some s2 =>
    some (s2.call [AppCall.SensorTagKeys_processEvent, AppCall.SensorTagOpt_processSensorEvent,
      AppCall.SensorTagMov_processSensorEvent])

/-- The statement `events &= ~mask` on the `uint16_t` variable `events`; the operand `~mask`
is a 32-bit `int`. -/
def clearEvent (events mask : ℕ) : ℕ :=
  (events &&& (2 ^ 32 - (mask + 1))) % 65536

/-- The second part of an iteration of the task loop of `SensorTag_taskFxn`: the periodic
event, else the user-defined periodic event. -/
def taskEvents (C : AppCfg) (s : AppState) : AppState :=
  if s.events &&& ST_PERIODIC_EVT ≠ 0 then
    let s1 : AppState := { s with events := clearEvent s.events ST_PERIODIC_EVT }
    let s2 :=
      if s1.gapProfileState = C.G.GAPROLE_CONNECTED ∨
          s1.gapProfileState = C.G.GAPROLE_ADVERTISING then
        Util_startClock_periodicClock s1
      else s1
    let s3 :=
      if s2.gapProfileState = C.G.GAPROLE_CONNECTED then
        s2.call [AppCall.SensorTag_performPeriodicTask]
      else s2
    if s3.gapProfileState = C.G.GAPROLE_ADVERTISING then
      let s4 := s3.call [AppCall.SensorTag_blinkLed Pin.Board_LED2 1,
        AppCall.SensorTag_blinkLed Pin.Board_LED1 10, AppCall.MysensorTag_updateAdvertisingData]
      if C.FEATURE_LCD then s4.call [AppCall.SensorTag_displayBatteryVoltage] else s4
    else s3
  else if s.events &&& ST_USER_DEFINED_PERIODIC_EVT ≠ 0 then
    { s with events := clearEvent s.events ST_USER_DEFINED_PERIODIC_EVT }
  else s

/-- One iteration of the task loop of `SensorTag_taskFxn`, from the return of `ICall_wait`
(`waitOk` tells whether it returned `ICALL_ERRNO_SUCCESS`) to the next `ICall_wait`. -/
def taskCycle (C : AppCfg) (fuel : ℕ) (waitOk : Bool) (fetched : Option FetchedMsg)
    (s : AppState) : Option AppState :=
  if waitOk then
    match taskMessages C fuel fetched s with
    | none => none
    | some s1 => some (taskEvents C s1)
  else some (taskEvents C s)

/-- The state after a sequence of state notifications, each handled by
`SensorTag_processStateChangeEvt`. -/
def notifyAll (C : AppCfg) : List ℕ → AppState → AppState
  | [], s => s
  | newState :: rest, s => notifyAll C rest (SensorTag_processStateChangeEvt C newState s)

/-- The calls to `SensorTag_processAppMsg` and `ICall_free` among recorded calls. -/
def msgCalls (calls : List AppCall) : List AppCall :=
  calls.filter (fun c =>
    match c with
    | AppCall.SensorTag_processAppMsg _ => true
    | AppCall.ICall_free _ => true
    | _ => false)

/-! ## Sensor drivers: common parts

The drivers `sensor_hdc1000.c`, `sensor_opt3001.c` and `sensor_mpu9250.c` work on the bus
arbiter, on the I2C transfer functions of `bsp_i2c.c` and `sensor.c`, and on their own
static variables.  Every I2C transfer and every call of `bspI2cSelect` or `bspI2cDeselect`
is recorded. -/

/-- The parts of `sensor.h` that the drivers use.  The header is not among the sources at
hand, so they are parameters: the macro `SWAP`, the byte `ST_ERROR_DATA`, and whether the
macros `ST_ASSERT` and `ST_ASSERT_V` call `bspI2cDeselect` before they return from the
enclosing function (they return `false`, or nothing, when their condition is false). -/
structure SensorH where
  SWAP : ℕ → ℕ
  ST_ERROR_DATA : ℕ
  ST_ASSERT_deselects : Bool

/-- The parts of `sensor_mpu9250.h` and `Board.h` that `sensor_mpu9250.c` uses, as
parameters: the range codes, the axis bit of the magnetometer, the magnetometer status
codes, and whether the level that `PIN_open` drives on `Board_MPU_POWER` (`PIN_GPIO_HIGH`)
is `Board_MPU_POWER_ON`. -/
structure Mpu9250H where
  ACC_RANGE_4G : ℕ
  ACC_RANGE_INVALID : ℕ
  MPU_AX_MAG : ℕ
  MAG_STATUS_OK : ℕ
  MAG_READ_ST_ERR : ℕ
  MAG_DATA_NOT_RDY : ℕ
  MAG_OVERFLOW : ℕ
  MAG_READ_DATA_ERR : ℕ
  MAG_BYPASS_FAIL : ℕ
  MAG_NO_POWER : ℕ
  MpuPinTable_power_on : Bool
  deriving DecidableEq, Repr

/-- The transaction passed to `I2C_transfer`; `writeCount` is the length of `writeBuf`. -/
structure I2C_Transaction where
  writeBuf : List ℕ
  readCount : ℕ
  slaveAddress : ℕ
  deriving DecidableEq, Repr

/-- The environment of the drivers: the handle that `I2C_open` returns, and, for the
transfer number `n` (counting all earlier transfers) with a given transaction, whether
`I2C_transfer` succeeds and which bytes it delivers into the read buffer. -/
structure DriverEnv where
  I2C_open : I2C_Params → Option ℕ
  I2C_transfer : ℕ → I2C_Transaction → Bool × List ℕ

/-- A recorded call of the bus arbiter. -/
inductive LockCall
  | bspI2cSelect (result : Bool)
  | bspI2cDeselect
  deriving DecidableEq, Repr

/-- The static variables `success` and `data` of `sensor_hdc1000.c`. -/
structure Hdc1000 where
  success : Bool
  temp : ℕ
  hum : ℕ
  deriving DecidableEq, Repr

/-- The static variables of `sensor_mpu9250.c` that the modelled functions use, including
the function-level statics `first` (of `sensorMpu9250Test`) and `rawData` (of
`sensorMagInit`). -/
structure Mpu9250 where
  mpuConfig : ℕ
  magStatus : ℕ
  accRange : ℕ
  accRangeReg : ℕ
  val : ℕ
  calX : ℤ
  calY : ℤ
  calZ : ℤ
  first : Bool
  rawData : List ℕ
  deriving DecidableEq, Repr

/-- The state that the drivers work on: the bus arbiter, the record of I2C transfers and of
arbiter calls (oldest first), whether the MPU power pin is at `Board_MPU_POWER_ON`, whether
the MPU interrupt pin is enabled, and the static variables of the drivers. -/
structure World where
  bus : BspI2c
  transfers : List I2C_Transaction
  lockCalls : List LockCall
  mpuPower : Bool
  mpuInterrupt : Bool
  hdc : Hdc1000
  mpu : Mpu9250
  deriving DecidableEq, Repr

/-- The bytes of a `uint16_t` in memory (little endian). -/
def leBytes16 (v : ℕ) : List ℕ := [v % 256, v / 256 % 256]

/-- The `uint16_t` stored in two bytes of memory (little endian). -/
def ofLeBytes16 (b : List ℕ) : ℕ := b.getD 0 0 % 256 + 256 * (b.getD 1 0 % 256)

/-- The content of a read buffer holding `old` after a transfer of `n` bytes that delivered
the bytes `rd`: delivered bytes replace the old ones, the others stay. -/
def readInto (old rd : List ℕ) (n : ℕ) : List ℕ :=
  (List.range old.length).map
    (fun i => if i < n ∧ i < rd.length then rd.getD i 0 % 256 else old.getD i 0)

/-- Conversion of an integer value to `int16_t`. -/
def toInt16 (z : ℤ) : ℤ := (z + 32768) % 65536 - 32768

/-- The call `bspI2cSelect(newInterface, address)` made by a driver. -/
def selectBus (E : DriverEnv) (newInterface address : ℕ) (w : World) : Bool × World :=
  let r := bspI2cSelect E.I2C_open newInterface address w.bus
  (r.1, { w with bus := r.2, lockCalls := w.lockCalls ++ [LockCall.bspI2cSelect r.1] })

/-- The call `bspI2cDeselect()` made by a driver. -/
def deselectBus (w : World) : World :=
  { w with bus := bspI2cDeselect w.bus, lockCalls := w.lockCalls ++ [LockCall.bspI2cDeselect] }

/-- The driver call `I2C_transfer(i2cHandle, &masterTransaction)`. -/
def I2C_transfer (E : DriverEnv) (t : I2C_Transaction) (w : World) :
    (Bool × List ℕ) × World :=
  (E.I2C_transfer w.transfers.length t, { w with transfers := w.transfers ++ [t] })

/-- The function `bspI2cWrite` of `bsp_i2c.c`. -/
def bspI2cWrite (E : DriverEnv) (data : List ℕ) (w : World) : Bool × World :=
  let r := I2C_transfer E
    { writeBuf := data, readCount := 0, slaveAddress := w.bus.slaveAddr } w
  (r.1.1, r.2)

/-- The function `bspI2cWriteSingle` of `bsp_i2c.c`. -/
def bspI2cWriteSingle (E : DriverEnv) (data : ℕ) (w : World) : Bool × World :=
  bspI2cWrite E [data] w

/-- The function `bspI2cRead` of `bsp_i2c.c`; returns the result and the delivered bytes. -/
def bspI2cRead (E : DriverEnv) (len : ℕ) (w : World) : (Bool × List ℕ) × World :=
  I2C_transfer E { writeBuf := [], readCount := len, slaveAddress := w.bus.slaveAddr } w

/-- The function `bspI2cWriteRead` of `bsp_i2c.c`; returns the result and the delivered
bytes. -/
def bspI2cWriteRead (E : DriverEnv) (wdata : List ℕ) (rlen : ℕ) (w : World) :
    (Bool × List ℕ) × World :=
  I2C_transfer E { writeBuf := wdata, readCount := rlen, slaveAddress := w.bus.slaveAddr } w

/-- The function `sensorReadReg` of `sensor.c`. -/
def sensorReadReg (E : DriverEnv) (addr nBytes : ℕ) (w : World) : (Bool × List ℕ) × World :=
  bspI2cWriteRead E [addr] nBytes w

/-- The function `sensorWriteReg` of `sensor.c`; `pBuf` holds the `nBytes` bytes to write,
which the function sends after the register address. -/
def sensorWriteReg (E : DriverEnv) (addr : ℕ) (pBuf : List ℕ) (w : World) : Bool × World :=
  bspI2cWrite E (addr :: pBuf) w

/-- The function `sensorSetErrorData` of `sensor.c`: the `n` bytes it writes. -/
def sensorSetErrorData (H : SensorH) (n : ℕ) : List ℕ :=
  List.replicate n (H.ST_ERROR_DATA % 256)

/-- The effect of a failing `ST_ASSERT` or `ST_ASSERT_V` before it returns. -/
def stAssertFail (H : SensorH) (w : World) : World :=
  if H.ST_ASSERT_deselects then deselectBus w else w

/-- The function `convertToLe` applied to a buffer given as a list of bytes. -/
def convertToLeBuf (data : List ℕ) (len : ℕ) : List ℕ :=
  match convertToLe (len / 2 + 1) (fun i => data.getD i 0) len with
  | some out => (List.range data.length).map out
  | none => data

/-! ## HDC1000 humidity sensor (`sensor_hdc1000.c`) -/

namespace Hdc1000

/-- The I2C address of the sensor. -/
def SENSOR_I2C_ADDRESS : ℕ := 0x43

/-- Register `HDC1000_REG_TEMP`. -/
def HDC1000_REG_TEMP : ℕ := 0x00

/-- Register `HDC1000_REG_CONFIG`. -/
def HDC1000_REG_CONFIG : ℕ := 0x02

/-- Register `HDC1000_REG_MANF_ID`. -/
def HDC1000_REG_MANF_ID : ℕ := 0xFE

/-- Register `HDC1000_REG_DEV_ID`. -/
def HDC1000_REG_DEV_ID : ℕ := 0xFF

/-- The value `HDC1000_VAL_MANF_ID`. -/
def HDC1000_VAL_MANF_ID : ℕ := 0x5449

/-- The value `HDC1000_VAL_DEV_ID`. -/
def HDC1000_VAL_DEV_ID : ℕ := 0x1000

/-- The value `HDC1000_VAL_CONFIG`. -/
def HDC1000_VAL_CONFIG : ℕ := 0x1000

/-- The macro `SENSOR_SELECT()` of `sensor_hdc1000.c`. -/
def SENSOR_SELECT (E : DriverEnv) (w : World) : Bool × World :=
  selectBus E BSP_I2C_INTERFACE_0 SENSOR_I2C_ADDRESS w

end Hdc1000

/-- The function `sensorHdc1000Init`. -/
def sensorHdc1000Init (H : SensorH) (E : DriverEnv) (w : World) : Bool × World :=
  let r := Hdc1000.SENSOR_SELECT E w
  if r.1 = false then (false, r.2)
  else
    let val := H.SWAP Hdc1000.HDC1000_VAL_CONFIG % 65536
    let t := sensorWriteReg E Hdc1000.HDC1000_REG_CONFIG (leBytes16 val) r.2
    let w1 : World := { t.2 with hdc := { t.2.hdc with success := t.1 } }
    let w2 := deselectBus w1
    (w2.hdc.success, w2)

/-- The function `sensorHdc1000Start`. -/
def sensorHdc1000Start (E : DriverEnv) (w : World) : World :=
  if w.hdc.success then
    let r := Hdc1000.SENSOR_SELECT E w
    if r.1 = false then r.2
    else
      let t := bspI2cWriteSingle E Hdc1000.HDC1000_REG_TEMP r.2
      let w1 : World := { t.2 with hdc := { t.2.hdc with success := t.1 } }
      deselectBus w1
  else w

/-- The function `sensorHdc1000Read`; `rawTemp` and `rawHum` are the values behind the two
pointers on entry, and the result carries the values behind them on return. -/
def sensorHdc1000Read (H : SensorH) (E : DriverEnv) (rawTemp rawHum : ℕ) (w : World) :
    (Bool × ℕ × ℕ) × World :=
  if w.hdc.success then
    let r := Hdc1000.SENSOR_SELECT E w
    if r.1 = false then ((false, rawTemp, rawHum), r.2)
    else
      let t := bspI2cRead E 4 r.2
      let bytes := readInto (leBytes16 t.2.hdc.temp ++ leBytes16 t.2.hdc.hum) t.1.2 4
      let w1 : World :=
        { t.2 with
          hdc :=
            { success := t.1.1, temp := ofLeBytes16 (bytes.take 2),
              hum := ofLeBytes16 (bytes.drop 2) } }
      let w2 := deselectBus w1
      let rawTemp1 := H.SWAP w2.hdc.temp % 65536
      let rawHum1 := H.SWAP w2.hdc.hum % 65536
      let valid := w2.hdc.success
      ((valid, rawTemp1, rawHum1), { w2 with hdc := { w2.hdc with success := true } })
  else
    let valid := w.hdc.success
    ((valid, rawTemp, rawHum), { w with hdc := { w.hdc with success := true } })

/-- The function `sensorHdc1000Test`.  The result of `SENSOR_SELECT()` is not used.  The
local `val` is not initialised; its bytes before the first read are taken as zero (they are
used only after a successful read). -/
def sensorHdc1000Test (H : SensorH) (E : DriverEnv) (w : World) : Bool × World :=
  let r := Hdc1000.SENSOR_SELECT E w
  let t1 := sensorReadReg E Hdc1000.HDC1000_REG_MANF_ID 2 r.2
  if t1.1.1 = false then (false, stAssertFail H t1.2)
  else
    let val1 := H.SWAP (ofLeBytes16 (readInto [0, 0] t1.1.2 2)) % 65536
    if ¬ val1 = Hdc1000.HDC1000_VAL_MANF_ID then (false, stAssertFail H t1.2)
    else
      let t2 := sensorReadReg E Hdc1000.HDC1000_REG_DEV_ID 2 t1.2
      if t2.1.1 = false then (false, stAssertFail H t2.2)
      else
        let val2 := H.SWAP (ofLeBytes16 (readInto (leBytes16 val1) t2.1.2 2)) % 65536
        if ¬ val2 = Hdc1000.HDC1000_VAL_DEV_ID then (false, stAssertFail H t2.2)
        else (true, deselectBus t2.2)

/-! ## OPT3001 light sensor (`sensor_opt3001.c`) -/

namespace Opt3001

/-- The I2C address of the sensor. -/
def SENSOR_I2C_ADDRESS : ℕ := 0x45

/-- Register `REG_RESULT`. -/
def REG_RESULT : ℕ := 0x00

/-- Register `REG_CONFIGURATION`. -/
def REG_CONFIGURATION : ℕ := 0x01

/-- Register `REG_MANUFACTURER_ID`. -/
def REG_MANUFACTURER_ID : ℕ := 0x7E

/-- Register `REG_DEVICE_ID`. -/
def REG_DEVICE_ID : ℕ := 0x7F

/-- The value `MANUFACTURER_ID`. -/
def MANUFACTURER_ID : ℕ := 0x4954

/-- The value `DEVICE_ID`. -/
def DEVICE_ID : ℕ := 0x0130

/-- The value `CONFIG_ENABLE`. -/
def CONFIG_ENABLE : ℕ := 0x10C4

/-- The value `CONFIG_DISABLE`. -/
def CONFIG_DISABLE : ℕ := 0x10C0

/-- The bit `DATA_RDY_BIT`. -/
def DATA_RDY_BIT : ℕ := 0x8000

/-- The macro `SENSOR_SELECT()` of `sensor_opt3001.c`. -/
def SENSOR_SELECT (E : DriverEnv) (w : World) : Bool × World :=
  selectBus E BSP_I2C_INTERFACE_0 SENSOR_I2C_ADDRESS w

end Opt3001

/-- The function `sensorOpt3001Enable`. -/
def sensorOpt3001Enable (E : DriverEnv) (enable : Bool) (w : World) : World :=
  let r := Opt3001.SENSOR_SELECT E w
  if r.1 = false then r.2
  else
    let val := if enable then Opt3001.CONFIG_ENABLE else Opt3001.CONFIG_DISABLE
    let t := sensorWriteReg E Opt3001.REG_CONFIGURATION (leBytes16 val) r.2
    deselectBus t.2

/-- The function `sensorOpt3001Init`. -/
def sensorOpt3001Init (E : DriverEnv) (w : World) : Bool × World :=
  (true, sensorOpt3001Enable E false w)

/-- The function `sensorOpt3001Read`; `rawData` is the value behind the pointer on entry,
and the result carries the value behind it on return. -/
def sensorOpt3001Read (H : SensorH) (E : DriverEnv) (rawData : ℕ) (w : World) :
    (Bool × ℕ) × World :=
  let r := Opt3001.SENSOR_SELECT E w
  if r.1 = false then ((false, rawData), r.2)
  else
    let t1 := sensorReadReg E Opt3001.REG_CONFIGURATION 2 r.2
    let val1 := ofLeBytes16 (readInto [0, 0] t1.1.2 2)
    let success1 := t1.1.1
    let success2 :=
      if success1 then decide (val1 &&& Opt3001.DATA_RDY_BIT = Opt3001.DATA_RDY_BIT)
      else success1
    let t2 : (Bool × ℕ) × World :=
      if success2 then
        let t := sensorReadReg E Opt3001.REG_RESULT 2 t1.2
        ((t.1.1, ofLeBytes16 (readInto (leBytes16 val1) t.1.2 2)), t.2)
      else ((success2, val1), t1.2)
    let val := t2.1.2
    let rawData1 :=
      if t2.1.1 then ((val <<< 8) ||| ((val >>> 8) &&& 0xFF)) % 65536
      else ofLeBytes16 (sensorSetErrorData H 2)
    let w1 := deselectBus t2.2
    ((t2.1.1, rawData1), w1)

/-- The function `sensorOpt3001Test`. -/
def sensorOpt3001Test (H : SensorH) (E : DriverEnv) (w : World) : Bool × World :=
  let r := Opt3001.SENSOR_SELECT E w
  if r.1 = false then (false, r.2)
  else
    let t1 := sensorReadReg E Opt3001.REG_MANUFACTURER_ID 2 r.2
    if t1.1.1 = false then (false, stAssertFail H t1.2)
    else
      let val1 := ofLeBytes16 (readInto [0, 0] t1.1.2 2)
      if ¬ val1 = Opt3001.MANUFACTURER_ID then (false, stAssertFail H t1.2)
      else
        let t2 := sensorReadReg E Opt3001.REG_DEVICE_ID 2 t1.2
        if t2.1.1 = false then (false, stAssertFail H t2.2)
        else
          let val2 := ofLeBytes16 (readInto (leBytes16 val1) t2.1.2 2)
          if ¬ val2 = Opt3001.DEVICE_ID then (false, stAssertFail H t2.2)
          else (true, deselectBus t2.2)

/-! ## MPU9250 motion sensor (`sensor_mpu9250.c`) -/

namespace Mpu9250

/-- The I2C address of the gyroscope and accelerometer. -/
def SENSOR_I2C_ADDRESS : ℕ := 0x68

/-- The I2C address of the magnetometer. -/
def SENSOR_MAG_I2_ADDRESS : ℕ := 0x0C

/-- Register `ACCEL_CONFIG`. -/
def ACCEL_CONFIG : ℕ := 0x1C

/-- Register `ACCEL_CONFIG_2`. -/
def ACCEL_CONFIG_2 : ℕ := 0x1D

/-- Register `LP_ACCEL_ODR`. -/
def LP_ACCEL_ODR : ℕ := 0x1E

/-- Register `WOM_THR`. -/
def WOM_THR : ℕ := 0x1F

/-- Register `INT_PIN_CFG`. -/
def INT_PIN_CFG : ℕ := 0x37

/-- Register `INT_ENABLE`. -/
def INT_ENABLE : ℕ := 0x38

/-- Register `INT_STATUS`. -/
def INT_STATUS : ℕ := 0x3A

/-- Register `ACCEL_XOUT_H`. -/
def ACCEL_XOUT_H : ℕ := 0x3B

/-- Register `GYRO_XOUT_H`. -/
def GYRO_XOUT_H : ℕ := 0x43

/-- Register `ACCEL_INTEL_CTRL`. -/
def ACCEL_INTEL_CTRL : ℕ := 0x69

/-- Register `PWR_MGMT_1`. -/
def PWR_MGMT_1 : ℕ := 0x6B

/-- Register `PWR_MGMT_2`. -/
def PWR_MGMT_2 : ℕ := 0x6C

/-- Register `WHO_AM_I`. -/
def WHO_AM_I : ℕ := 0x75

/-- The value `MPU_SLEEP`. -/
def MPU_SLEEP : ℕ := 0x4F

/-- The value `MPU_WAKE_UP`. -/
def MPU_WAKE_UP : ℕ := 0x09

/-- The value `ALL_AXES`. -/
def ALL_AXES : ℕ := 0x3F

/-- The size `DATA_SIZE`. -/
def DATA_SIZE : ℕ := 6

/-- The rate `INV_LPA_20HZ`. -/
def INV_LPA_20HZ : ℕ := 6

/-- The bit `BIT_WOM_EN`. -/
def BIT_WOM_EN : ℕ := 0x40

/-- The bit `BIT_LATCH_EN`. -/
def BIT_LATCH_EN : ℕ := 0x20

/-- The bit `BIT_BYPASS_EN`. -/
def BIT_BYPASS_EN : ℕ := 0x02

/-- Register `MAG_WHO_AM_I`. -/
def MAG_WHO_AM_I : ℕ := 0x00

/-- Register `MAG_ST1`. -/
def MAG_ST1 : ℕ := 0x02

/-- Register `MAG_XOUT_L`. -/
def MAG_XOUT_L : ℕ := 0x03

/-- Register `MAG_CNTL1`. -/
def MAG_CNTL1 : ℕ := 0x0A

/-- Register `MAG_CNTL2`. -/
def MAG_CNTL2 : ℕ := 0x0B

/-- Register `MAG_ASAX`. -/
def MAG_ASAX : ℕ := 0x10

/-- The value `MAG_DEVICE_ID`. -/
def MAG_DEVICE_ID : ℕ := 0x48

/-- The mode `MAG_MODE_SINGLE`. -/
def MAG_MODE_SINGLE : ℕ := 0x01

/-- The mode `MAG_MODE_FUSE`. -/
def MAG_MODE_FUSE : ℕ := 0x0F

/-- The resolution `MFS_16BITS`. -/
def MFS_16BITS : ℕ := 1

/-- The static variable `scale`, which is never assigned after its initialisation. -/
def scale : ℕ := MFS_16BITS

/-- The static variable `mode`, which is never assigned after its initialisation. -/
def mode : ℕ := MAG_MODE_SINGLE

/-- The macro `SENSOR_SELECT()` of `sensor_mpu9250.c`. -/
def SENSOR_SELECT (E : DriverEnv) (w : World) : Bool × World :=
  selectBus E BSP_I2C_INTERFACE_1 SENSOR_I2C_ADDRESS w

/-- The macro `SENSOR_SELECT_MAG()` of `sensor_mpu9250.c`. -/
def SENSOR_SELECT_MAG (E : DriverEnv) (w : World) : Bool × World :=
  selectBus E BSP_I2C_INTERFACE_1 SENSOR_MAG_I2_ADDRESS w

/-- The statements `val = v; sensorWriteReg(reg, &val, 1)` on the static `val`. -/
def writeVal (E : DriverEnv) (reg v : ℕ) (w : World) : Bool × World :=
  let w1 : World := { w with mpu := { w.mpu with val := v % 256 } }
  sensorWriteReg E reg [w1.mpu.val] w1

/-- The call `sensorReadReg(reg, &val, 1)` on the static `val`. -/
def readVal (E : DriverEnv) (reg : ℕ) (w : World) : Bool × World :=
  let t := sensorReadReg E reg 1 w
  (t.1.1, { t.2 with mpu := { t.2.mpu with val := (readInto [w.mpu.val] t.1.2 1).getD 0 0 } })

/-- A run of statements `val = v; ST_ASSERT(sensorWriteReg(reg, &val, 1));`, one for each
pair `(reg, v)`: the result is `false` when one of the assertions has failed, which ends
the enclosing function. -/
def assertWrites (H : SensorH) (E : DriverEnv) : List (ℕ × ℕ) → World → Bool × World
  | [], w => (true, w)
  | (reg, v) :: rest, w =>
    let t := writeVal E reg v w
    if t.1 = false then (false, stAssertFail H t.2) else assertWrites H E rest t.2

end Mpu9250

/-- The function `sensorMpu9250PowerIsOn`. -/
def sensorMpu9250PowerIsOn (w : World) : Bool := w.mpuPower

/-- The function `sensorMpu9250Test`. -/
def sensorMpu9250Test (H : SensorH) (E : DriverEnv) (w : World) : Bool × World :=
  if sensorMpu9250PowerIsOn w = false then (false, stAssertFail H w)
  else
    let r := Mpu9250.SENSOR_SELECT E w
    if r.1 = false then (false, r.2)
    else
      let w1 : World := if r.2.mpu.first then { r.2 with mpu := { r.2.mpu with first := false } }
        else r.2
      let t := Mpu9250.readVal E Mpu9250.WHO_AM_I w1
      if t.1 = false then (false, stAssertFail H t.2)
      else if ¬ t.2.mpu.val = 0x71 then (false, stAssertFail H t.2)
      else (true, deselectBus t.2)

/-- The function `sensorMpu9250AccSetRange`. -/
def sensorMpu9250AccSetRange (H : SensorH) (E : DriverEnv) (newRange : ℕ) (w : World) :
    Bool × World :=
  if newRange = w.mpu.accRange then (true, w)
  else if sensorMpu9250PowerIsOn w = false then (false, stAssertFail H w)
  else
    let r := Mpu9250.SENSOR_SELECT E w
    if r.1 = false then (false, r.2)
    else
      let w1 : World := { r.2 with mpu := { r.2.mpu with accRangeReg := (newRange <<< 3) % 256 } }
      let t := sensorWriteReg E Mpu9250.ACCEL_CONFIG [w1.mpu.accRangeReg] w1
      let w2 := deselectBus t.2
      let w3 : World := if t.1 then { w2 with mpu := { w2.mpu with accRange := newRange } } else w2
      (t.1, w3)

/-- The function `sensorMpu9250AccReadRange`; a `false` returned as `uint8_t` is 0. -/
def sensorMpu9250AccReadRange (H : SensorH) (E : DriverEnv) (w : World) : ℕ × World :=
  if sensorMpu9250PowerIsOn w = false then (0, stAssertFail H w)
  else
    let r := Mpu9250.SENSOR_SELECT E w
    if r.1 = false then (0, r.2)
    else
      let t := sensorReadReg E Mpu9250.ACCEL_CONFIG 1 r.2
      let w1 : World :=
        { t.2 with
          mpu := { t.2.mpu with accRangeReg := (readInto [r.2.mpu.accRangeReg] t.1.2 1).getD 0 0 } }
      let w2 := deselectBus w1
      let w3 : World :=
        { w2 with mpu := { w2.mpu with accRange := (w2.mpu.accRangeReg >>> 3) &&& 3 } }
      (w3.mpu.accRange, w3)

/-- The common body of `sensorMpu9250AccRead` and `sensorMpu9250GyroRead`, which differ in
the register they read; `data` holds the bytes of the caller's buffer. -/
def Mpu9250.burstRead (H : SensorH) (E : DriverEnv) (reg : ℕ) (data : List ℕ) (w : World) :
    (Bool × List ℕ) × World :=
  if sensorMpu9250PowerIsOn w = false then ((false, data), stAssertFail H w)
  else
    let r := Mpu9250.SENSOR_SELECT E w
    if r.1 = false then ((false, data), r.2)
    else
      let t := sensorReadReg E reg Mpu9250.DATA_SIZE r.2
      let data1 := readInto data t.1.2 Mpu9250.DATA_SIZE
      let w1 := deselectBus t.2
      let data2 := if t.1.1 then convertToLeBuf data1 Mpu9250.DATA_SIZE else data1
      ((t.1.1, data2), w1)

/-- The function `sensorMpu9250AccRead`. -/
def sensorMpu9250AccRead (H : SensorH) (E : DriverEnv) (data : List ℕ) (w : World) :
    (Bool × List ℕ) × World :=
  Mpu9250.burstRead H E Mpu9250.ACCEL_XOUT_H data w

/-- The function `sensorMpu9250GyroRead`. -/
def sensorMpu9250GyroRead (H : SensorH) (E : DriverEnv) (data : List ℕ) (w : World) :
    (Bool × List ℕ) × World :=
  Mpu9250.burstRead H E Mpu9250.GYRO_XOUT_H data w

/-- The function `sensorMpuSleep`. -/
def sensorMpuSleep (H : SensorH) (E : DriverEnv) (w : World) : World :=
  if sensorMpu9250PowerIsOn w = false then stAssertFail H w
  else
    let r := Mpu9250.SENSOR_SELECT E w
    if r.1 = false then r.2
    else
      let t1 := Mpu9250.writeVal E Mpu9250.PWR_MGMT_2 Mpu9250.ALL_AXES r.2
      let t2 := if t1.1 then Mpu9250.writeVal E Mpu9250.PWR_MGMT_1 Mpu9250.MPU_SLEEP t1.2 else t1
      deselectBus t2.2

/-- The function `sensorMpu9250WakeUp`. -/
def sensorMpu9250WakeUp (H : SensorH) (E : DriverEnv) (w : World) : World :=
  if sensorMpu9250PowerIsOn w = false then stAssertFail H w
  else
    let r := Mpu9250.SENSOR_SELECT E w
    if r.1 = false then r.2
    else
      let t1 := Mpu9250.writeVal E Mpu9250.PWR_MGMT_1 Mpu9250.MPU_WAKE_UP r.2
      let t2 : Bool × World :=
        if t1.1 then
          let t := Mpu9250.writeVal E Mpu9250.PWR_MGMT_2 Mpu9250.ALL_AXES t1.2
          (t.1, { t.2 with mpu := { t.2.mpu with mpuConfig := 0 } })
        else t1
      let t3 : Bool × World :=
        if t2.1 then
          let t := sensorWriteReg E Mpu9250.ACCEL_CONFIG [t2.2.mpu.accRangeReg] t2.2
          if t.1 then Mpu9250.readVal E Mpu9250.INT_STATUS t.2 else t
        else t2
      deselectBus t3.2

/-- The function `sensorMpu9250SetBypass`. -/
def sensorMpu9250SetBypass (E : DriverEnv) (w : World) : Bool × World :=
  let r := Mpu9250.SENSOR_SELECT E w
  if r.1 then
    let t := Mpu9250.writeVal E Mpu9250.INT_PIN_CFG
      (Mpu9250.BIT_BYPASS_EN ||| Mpu9250.BIT_LATCH_EN) r.2
    (t.1, deselectBus t.2)
  else (false, r.2)

/-- The function `sensorMagEnable`; its `val` is a local variable. -/
def sensorMagEnable (H : SensorH) (E : DriverEnv) (enable : Bool) (w : World) : World :=
  if sensorMpu9250PowerIsOn w = false then stAssertFail H w
  else
    let b := sensorMpu9250SetBypass E w
    if b.1 = false then b.2
    else
      let r := Mpu9250.SENSOR_SELECT_MAG E b.2
      if r.1 then
        let val := if enable then ((Mpu9250.scale <<< 4) ||| Mpu9250.mode) % 256 else 0x00
        let t := sensorWriteReg E Mpu9250.MAG_CNTL1 [val] r.2
        deselectBus t.2
      else r.2

/-- The function `sensorMpu9250SelectAxes`. -/
def sensorMpu9250SelectAxes (H : SensorH) (M : Mpu9250H) (E : DriverEnv) (w : World) : World :=
  let w1 : World := { w with mpu := { w.mpu with val := 255 - w.mpu.mpuConfig % 256 } }
  let r := Mpu9250.SENSOR_SELECT E w1
  if r.1 = false then r.2
  else
    let t := sensorWriteReg E Mpu9250.PWR_MGMT_2 [r.2.mpu.val] r.2
    let w2 := deselectBus t.2
    sensorMagEnable H E (decide (w2.mpu.mpuConfig &&& M.MPU_AX_MAG ≠ 0)) w2

/-- The function `sensorMpu9250Enable`. -/
def sensorMpu9250Enable (H : SensorH) (M : Mpu9250H) (E : DriverEnv) (axes : ℕ) (w : World) :
    World :=
  if sensorMpu9250PowerIsOn w = false then stAssertFail H w
  else
    let w1 := if w.mpu.mpuConfig = 0 ∧ axes % 65536 ≠ 0 then sensorMpu9250WakeUp H E w else w
    let w2 : World := { w1 with mpu := { w1.mpu with mpuConfig := axes % 256 } }
    if w2.mpu.mpuConfig ≠ 0 then sensorMpu9250SelectAxes H M E w2
    else if w2.mpu.mpuConfig = 0 then sensorMpuSleep H E w2
    else w2

/-- The function `sensorMagInit`. -/
def sensorMagInit (H : SensorH) (E : DriverEnv) (w : World) : World :=
  if sensorMpu9250PowerIsOn w = false then stAssertFail H w
  else
    let b := sensorMpu9250SetBypass E w
    if b.1 = false then b.2
    else
      let r := Mpu9250.SENSOR_SELECT_MAG E b.2
      if r.1 then
        let t1 := Mpu9250.writeVal E Mpu9250.MAG_CNTL1 Mpu9250.MAG_MODE_FUSE r.2
        let t2 := sensorReadReg E Mpu9250.MAG_ASAX 3 t1.2
        let raw := readInto ((t2.2.mpu.rawData ++ [0, 0, 0]).take 3) t2.1.2 3
        let w1 : World := { t2.2 with mpu := { t2.2.mpu with rawData := raw } }
        let w2 : World :=
          if t2.1.1 then
            { w1 with
              mpu :=
                { w1.mpu with
                  calX := (raw.getD 0 0 : ℤ) + 128, calY := (raw.getD 1 0 : ℤ) + 128,
                  calZ := (raw.getD 2 0 : ℤ) + 128 } }
          else w1
        let t3 := Mpu9250.writeVal E Mpu9250.MAG_CNTL2 0x01 w2
        deselectBus t3.2
      else r.2

/-- The function `sensorMpu9250MagReset`. -/
def sensorMpu9250MagReset (H : SensorH) (M : Mpu9250H) (E : DriverEnv) (w : World) : World :=
  if sensorMpu9250PowerIsOn w = false then stAssertFail H w
  else
    let b := sensorMpu9250SetBypass E w
    if b.1 then
      let r := Mpu9250.SENSOR_SELECT_MAG E b.2
      if r.1 then
        let t1 := Mpu9250.writeVal E Mpu9250.MAG_CNTL2 0x01 r.2
        let t2 :=
          if t1.2.mpu.mpuConfig &&& M.MPU_AX_MAG ≠ 0 then
            Mpu9250.writeVal E Mpu9250.MAG_CNTL1 ((Mpu9250.scale <<< 4) ||| Mpu9250.mode) t1.2
          else t1
        deselectBus t2.2
      else r.2
    else b.2

/-- The function `sensorMpu9250MagTest`.  The results of `sensorMpu9250SetBypass()` and of
`SENSOR_SELECT_MAG()` are not used. -/
def sensorMpu9250MagTest (H : SensorH) (E : DriverEnv) (w : World) : Bool × World :=
  if sensorMpu9250PowerIsOn w = false then (false, stAssertFail H w)
  else
    let b := sensorMpu9250SetBypass E w
    let r := Mpu9250.SENSOR_SELECT_MAG E b.2
    let w1 : World := { r.2 with mpu := { r.2.mpu with val := 0xFF } }
    let t := Mpu9250.readVal E Mpu9250.MAG_WHO_AM_I w1
    if t.1 = false then (false, stAssertFail H t.2)
    else if ¬ t.2.mpu.val = Mpu9250.MAG_DEVICE_ID then (false, stAssertFail H t.2)
    else (true, deselectBus t.2)

/-- The function `sensorMpu9250MagRead`; `data` holds the three `int16_t` values behind the
pointer on entry, and the result carries the returned status (a `false` is 0) and the
values behind the pointer on return.  The results of `SENSOR_SELECT()` and of
`SENSOR_SELECT_MAG()` are not used; `val` and `rawData` are local variables. -/
def sensorMpu9250MagRead (H : SensorH) (M : Mpu9250H) (E : DriverEnv) (data : List ℤ)
    (w : World) : (ℕ × List ℤ) × World :=
  let w0 : World := { w with mpu := { w.mpu with magStatus := M.MAG_NO_POWER % 256 } }
  if sensorMpu9250PowerIsOn w0 = false then ((0, data), stAssertFail H w0)
  else
    let w1 : World := { w0 with mpu := { w0.mpu with magStatus := M.MAG_STATUS_OK % 256 } }
    let r := Mpu9250.SENSOR_SELECT E w1
    let val0 := Mpu9250.BIT_BYPASS_EN ||| Mpu9250.BIT_LATCH_EN
    let t := sensorWriteReg E Mpu9250.INT_PIN_CFG [val0] r.2
    let w2 : World :=
      if t.1 = false then { t.2 with mpu := { t.2.mpu with magStatus := M.MAG_BYPASS_FAIL % 256 } }
      else t.2
    let w3 := deselectBus w2
    if w3.mpu.magStatus ≠ M.MAG_STATUS_OK then ((0, data), w3)
    else
      let r2 := Mpu9250.SENSOR_SELECT_MAG E w3
      let t1 := sensorReadReg E Mpu9250.MAG_ST1 1 r2.2
      let val1 := (readInto [val0] t1.1.2 1).getD 0 0
      let res : List ℤ × World :=
        if t1.1.1 then
          if val1 &&& 0x01 ≠ 0 then
            let t2 := sensorReadReg E Mpu9250.MAG_XOUT_L 7 t1.2
            let rawData := readInto (List.replicate 7 0) t2.1.2 7
            if t2.1.1 then
              let val2 := rawData.getD 6 0
              if val2 &&& 0x08 = 0 then
                let d0 := toInt16 ((rawData.getD 1 0 : ℤ) * 256 + (rawData.getD 0 0 : ℤ))
                let d1 := toInt16 ((rawData.getD 3 0 : ℤ) * 256 + (rawData.getD 2 0 : ℤ))
                let d2 := toInt16 ((rawData.getD 5 0 : ℤ) * 256 + (rawData.getD 4 0 : ℤ))
                ([toInt16 (d0 * t2.2.mpu.calX / 256), toInt16 (d1 * t2.2.mpu.calY / 256),
                  toInt16 (d2 * t2.2.mpu.calZ / 256)] ++ data.drop 3, t2.2)
              else (data, { t2.2 with mpu := { t2.2.mpu with magStatus := M.MAG_OVERFLOW % 256 } })
            else
              (data, { t2.2 with mpu := { t2.2.mpu with magStatus := M.MAG_READ_DATA_ERR % 256 } })
          else (data, { t1.2 with mpu := { t1.2.mpu with magStatus := M.MAG_DATA_NOT_RDY % 256 } })
        else (data, { t1.2 with mpu := { t1.2.mpu with magStatus := M.MAG_READ_ST_ERR % 256 } })
      let t3 := sensorWriteReg E Mpu9250.MAG_CNTL1
        [((Mpu9250.scale <<< 4) ||| Mpu9250.mode) % 256] res.2
      let w4 := deselectBus t3.2
      ((w4.mpu.magStatus, res.1), w4)

/-- The function `sensorMpu9250MagStatus`. -/
def sensorMpu9250MagStatus (w : World) : ℕ := w.mpu.magStatus

/-- The function `sensorMpu9250IntStatus`; a `false` returned as `uint8_t` is 0. -/
def sensorMpu9250IntStatus (H : SensorH) (E : DriverEnv) (w : World) : ℕ × World :=
  if sensorMpu9250PowerIsOn w = false then (0, stAssertFail H w)
  else
    let r := Mpu9250.SENSOR_SELECT E w
    if r.1 then
      let t := sensorReadReg E Mpu9250.INT_STATUS 1 r.2
      let v := (readInto [0] t.1.2 1).getD 0 0
      let intStatus := if t.1.1 = false then 0 else v
      (intStatus, deselectBus t.2)
    else (0, r.2)

/-- The function `sensorMpu9250WomEnable`. -/
def sensorMpu9250WomEnable (H : SensorH) (E : DriverEnv) (threshold : ℕ) (w : World) :
    Bool × World :=
  if sensorMpu9250PowerIsOn w = false then (false, stAssertFail H w)
  else
    let r := Mpu9250.SENSOR_SELECT E w
    if r.1 = false then (false, r.2)
    else
      let a := Mpu9250.assertWrites H E
        [(Mpu9250.PWR_MGMT_1, 0x09), (Mpu9250.PWR_MGMT_2, 0x07), (Mpu9250.ACCEL_CONFIG_2, 0x01),
          (Mpu9250.INT_ENABLE, Mpu9250.BIT_WOM_EN), (Mpu9250.ACCEL_INTEL_CTRL, 0xC0),
          (Mpu9250.WOM_THR, threshold), (Mpu9250.LP_ACCEL_ODR, Mpu9250.INV_LPA_20HZ),
          (Mpu9250.PWR_MGMT_1, 0x29)] r.2
      if a.1 = false then (false, a.2)
      else
        let t := sensorWriteReg E Mpu9250.ACCEL_CONFIG [a.2.mpu.accRangeReg] a.2
        if t.1 = false then (false, stAssertFail H t.2)
        else
          let c := Mpu9250.readVal E Mpu9250.INT_STATUS t.2
          let w1 := deselectBus c.2
          (true, { w1 with mpu := { w1.mpu with mpuConfig := 0 }, mpuInterrupt := true })

/-- The function `sensorMpu9250Reset`. -/
def sensorMpu9250Reset (H : SensorH) (M : Mpu9250H) (E : DriverEnv) (w : World) :
    Bool × World :=
  let w1 : World :=
    { w with
      mpuInterrupt := false,
      mpu := { w.mpu with accRange := M.ACC_RANGE_INVALID % 256, mpuConfig := 0, magStatus := 0 } }
  let r := Mpu9250.SENSOR_SELECT E w1
  if r.1 = false then (false, r.2)
  else
    let t := Mpu9250.writeVal E Mpu9250.PWR_MGMT_1 0x80 r.2
    let w2 := deselectBus t.2
    let ret := sensorMpu9250Test H E w2
    if ret.1 then
      let a := sensorMpu9250AccSetRange H E (M.ACC_RANGE_4G % 256) ret.2
      let b := sensorMagInit H E a.2
      (ret.1, sensorMpuSleep H E b)
    else (ret.1, ret.2)

/-- The function `sensorMpu9250Init`. -/
def sensorMpu9250Init (H : SensorH) (M : Mpu9250H) (E : DriverEnv) (w : World) :
    Bool × World :=
  sensorMpu9250Reset H M E { w with mpuPower := M.MpuPinTable_power_on, mpuInterrupt := false }

/-- The function `sensorMpu9250PowerOn`. -/
def sensorMpu9250PowerOn (H : SensorH) (M : Mpu9250H) (E : DriverEnv) (w : World) : World :=
  (sensorMpu9250Reset H M E { w with mpuPower := true }).2

/-- The function `sensorMpu9250PowerOff`. -/
def sensorMpu9250PowerOff (H : SensorH) (E : DriverEnv) (w : World) : World :=
  (sensorOpt3001Test H E { w with mpuInterrupt := false, mpuPower := false }).2

/-! ## The public operations of the three drivers -/

/-- The public functions of the three drivers that work on the bus, with their arguments
(for a pointer argument, the content of the caller's buffer on entry). -/
inductive DriverOp
  | sensorHdc1000Init
  | sensorHdc1000Start
  | sensorHdc1000Read (rawTemp rawHum : ℕ)
  | sensorHdc1000Test
  | sensorOpt3001Init
  | sensorOpt3001Enable (enable : Bool)
  | sensorOpt3001Read (rawData : ℕ)
  | sensorOpt3001Test
  | sensorMpu9250Init
  | sensorMpu9250Reset
  | sensorMpu9250PowerOn
  | sensorMpu9250PowerOff
  | sensorMpu9250WomEnable (threshold : ℕ)
  | sensorMpu9250IntStatus
  | sensorMpu9250Enable (axes : ℕ)
  | sensorMpu9250AccSetRange (newRange : ℕ)
  | sensorMpu9250AccReadRange
  | sensorMpu9250AccRead (data : List ℕ)
  | sensorMpu9250GyroRead (data : List ℕ)
  | sensorMpu9250Test
  | sensorMpu9250MagReset
  | sensorMpu9250MagTest
  | sensorMpu9250MagRead (data : List ℤ)
  deriving DecidableEq, Repr

/-- A C `bool` as the number it is. -/
def boolValue (b : Bool) : ℕ := if b then 1 else 0

/-- One call of a public driver function: the value it returns to its caller (`none` for a
`void` function, a `bool` as 0 or 1) and the state it leaves. -/
def runOp (H : SensorH) (M : Mpu9250H) (E : DriverEnv) (op : DriverOp) (w : World) :
    Option ℕ × World :=
  match op with
  | DriverOp.sensorHdc1000Init =>
    let r := sensorHdc1000Init H E w
    (some (boolValue r.1), r.2)
  | DriverOp.sensorHdc1000Start => (none, sensorHdc1000Start E w)
  | DriverOp.sensorHdc1000Read rawTemp rawHum =>
    let r := sensorHdc1000Read H E rawTemp rawHum w
    (some (boolValue r.1.1), r.2)
  | DriverOp.sensorHdc1000Test =>
    let r := sensorHdc1000Test H E w
    (some (boolValue r.1), r.2)
  | DriverOp.sensorOpt3001Init =>
    let r := sensorOpt3001Init E w
    (some (boolValue r.1), r.2)
  | DriverOp.sensorOpt3001Enable enable => (none, sensorOpt3001Enable E enable w)
  | DriverOp.sensorOpt3001Read rawData =>
    let r := sensorOpt3001Read H E rawData w
    (some (boolValue r.1.1), r.2)
  | DriverOp.sensorOpt3001Test =>
    let r := sensorOpt3001Test H E w
    (some (boolValue r.1), r.2)
  | DriverOp.sensorMpu9250Init =>
    let r := sensorMpu9250Init H M E w
    (some (boolValue r.1), r.2)
  | DriverOp.sensorMpu9250Reset =>
    let r := sensorMpu9250Reset H M E w
    (some (boolValue r.1), r.2)
  | DriverOp.sensorMpu9250PowerOn => (none, sensorMpu9250PowerOn H M E w)
  | DriverOp.sensorMpu9250PowerOff => (none, sensorMpu9250PowerOff H E w)
  | DriverOp.sensorMpu9250WomEnable threshold =>
    let r := sensorMpu9250WomEnable H E threshold w
    (some (boolValue r.1), r.2)
  | DriverOp.sensorMpu9250IntStatus =>
    let r := sensorMpu9250IntStatus H E w
    (some r.1, r.2)
  | DriverOp.sensorMpu9250Enable axes => (none, sensorMpu9250Enable H M E axes w)
  | DriverOp.sensorMpu9250AccSetRange newRange =>
    let r := sensorMpu9250AccSetRange H E newRange w
    (some (boolValue r.1), r.2)
  | DriverOp.sensorMpu9250AccReadRange =>
    let r := sensorMpu9250AccReadRange H E w
    (some r.1, r.2)
  | DriverOp.sensorMpu9250AccRead data =>
    let r := sensorMpu9250AccRead H E data w
    (some (boolValue r.1.1), r.2)
  | DriverOp.sensorMpu9250GyroRead data =>
    let r := sensorMpu9250GyroRead H E data w
    (some (boolValue r.1.1), r.2)
  | DriverOp.sensorMpu9250Test =>
    let r := sensorMpu9250Test H E w
    (some (boolValue r.1), r.2)
  | DriverOp.sensorMpu9250MagReset => (none, sensorMpu9250MagReset H M E w)
  | DriverOp.sensorMpu9250MagTest =>
    let r := sensorMpu9250MagTest H E w
    (some (boolValue r.1), r.2)
  | DriverOp.sensorMpu9250MagRead data =>
    let r := sensorMpu9250MagRead H M E data w
    (some r.1.1, r.2)

/-- Whether the function tests the result of every `bspI2cSelect` it calls: all do, except
`sensorHdc1000Test`, `sensorMpu9250MagTest` and `sensorMpu9250MagRead`. -/
def DriverOp.checksSelect : DriverOp → Bool
  | DriverOp.sensorHdc1000Test => false
  | DriverOp.sensorMpu9250MagTest => false
  | DriverOp.sensorMpu9250MagRead _ => false
  | _ => true

/-- What a function that tests the result of `bspI2cSelect` returns to its caller on the
path where the select has failed: nothing for a `void` function, `true` for
`sensorOpt3001Init`, and `false` (or 0) for the others. -/
def DriverOp.selectFailureValue : DriverOp → Option ℕ
  | DriverOp.sensorHdc1000Start => none
  | DriverOp.sensorOpt3001Enable _ => none
  | DriverOp.sensorMpu9250PowerOn => none
  | DriverOp.sensorMpu9250PowerOff => none
  | DriverOp.sensorMpu9250Enable _ => none
  | DriverOp.sensorMpu9250MagReset => none
  | DriverOp.sensorOpt3001Init => some 1
  | _ => some 0

/-- The arbiter calls recorded between the state `w` and the later state `w1`. -/
def newLockCalls (w w1 : World) : List LockCall := w1.lockCalls.drop w.lockCalls.length

/-- Whether a record of arbiter calls is balanced from a free bus: every
`bspI2cDeselect` follows a successful `bspI2cSelect` that has not been released yet, and
`held` tells whether such a select is outstanding. -/
def lockBalanced : Bool → List LockCall → Bool
  | held, [] => !held
  | held, LockCall.bspI2cSelect true :: rest => !held && lockBalanced true rest
  | held, LockCall.bspI2cSelect false :: rest => lockBalanced held rest
  | held, LockCall.bspI2cDeselect :: rest => held && lockBalanced false rest

/-! ## I2C bus arbiter: reset (`bsp_i2c.c`) -/

/-- The function `bspI2cReset` of `bsp_i2c.c`; `HapiResetPeripheral` is not recorded.  The
driver is opened again with `i2cParams` as they are. -/
def bspI2cReset (I2C_open : I2C_Params → Option ℕ) (s : BspI2c) : BspI2c :=
  if (Semaphore_pend s.mutex).1 = false then s
  else
    let s1 : BspI2c := { s with mutex := (Semaphore_pend s.mutex).2 }
    let s2 : BspI2c :=
      { s1 with driverCalls := s1.driverCalls ++ [DriverCall.I2C_close s1.i2cHandle] }
    let s3 : BspI2c := { s2 with slaveAddr := 0xFF }
    let s4 : BspI2c := { s3 with interface := BSP_I2C_INTERFACE_0 }
    let s5 : BspI2c :=
      { s4 with
        i2cHandle := I2C_open s4.i2cParams
        driverCalls := s4.driverCalls ++ [DriverCall.I2C_open s4.i2cParams] }
    { s5 with mutex := Semaphore_post s5.mutex }

/-- The recorded interface agrees with the pin mapping of the open transport: `interface` is
`BSP_I2C_INTERFACE_1` exactly when `i2cParams.custom` points to `pinCfg1`. -/
def BspI2c.PinsMatch (s : BspI2c) : Bool :=
  decide (s.interface = BSP_I2C_INTERFACE_1 ↔ s.i2cParams.custom = some PinCfg.pinCfg1)

/-! ## Unit conversions (`sensor_hdc1000.c`, `sensor_mpu9250.c`)

The conversions compute in `double` and return `float`.  The model gives the exact rational
value of the C expression.  For `sensorHdc1000Convert` every intermediate value and the
result is a multiple of `1 / 65536` of magnitude below `256`, which `double` and `float`
hold exactly, so the model is the returned value.  For `sensorMpu9250GyroConvert` the
returned `float` is the model value rounded; rounding is monotone and keeps the values that
`float` holds exactly, so a strict bound by such a value carries over as a bound. -/

/-- The function `sensorHdc1000Convert` of `sensor_hdc1000.c`: the values stored to `*temp`
and `*hum`.  The raw temperature goes through the cast `(int16_t)rawTemp`. -/
def sensorHdc1000Convert (rawTemp rawHum : ℕ) : ℚ × ℚ :=
  ((toInt16 (rawTemp : ℤ) : ℚ) / 65536 * 165 - 40, (rawHum : ℚ) / 65536 * 100)

/-- The function `sensorMpu9250GyroConvert` of `sensor_mpu9250.c`:
`(data * 1.0) / (65536 / 500)`, where `65536 / 500` is a division of two `int` constants. -/
def sensorMpu9250GyroConvert (data : ℤ) : ℚ :=
  ((data : ℚ) * 1) / (((65536 : ℤ).tdiv 500 : ℤ) : ℚ)

/-! ## Advertising data (`SensorTag.c`) -/

/-- The constant `KEY_STATE_OFFSET` of `SensorTag.c`. -/
def KEY_STATE_OFFSET : ℕ := 13

/-- The variables of `SensorTag.c` that `MysensorTag_updateAdvertisingData` writes: the
array `advertData`, its statics `HumRawData`, `MovRawData`, `adcRange` and `i` (all
`uint8_t`), and the record of the payloads passed to
`GAPRole_SetParameter(GAPROLE_ADVERT_DATA, ...)`, oldest first. -/
structure AdvertState where
  advertData : List ℕ
  HumRawData : List ℕ
  MovRawData : List ℕ
  adcRange : ℕ
  i : ℕ
  advertSet : List (List ℕ)
  deriving DecidableEq, Repr

/-- The function `MysensorTag_updateAdvertisingData` of `SensorTag.c`.  `humData` and
`movData` are the contents of `HumRawData` (4 bytes) and `MovRawData` (18 bytes) after the
calls `Humidity_getParameter(SENSOR_DATA, ...)` and `Movement_getParameter(SENSOR_DATA, ...)`
of this call.  The locals `RawTemperature`, `RawAccZ`, `temperature`, `humidity` and `accZ`
are computed by the source and never used; they are left out, and with them the call of
the pure function `sensorHdc1000Convert`. -/
def MysensorTag_updateAdvertisingData (H : SensorH) (E : DriverEnv) (humData movData : List ℕ)
    (a : AdvertState) (w : World) : AdvertState × World :=
  let HumRawData := humData
  let MovRawData := movData
  let RawHumidity :=
    ((HumRawData.getD 2 0 % 256) ||| ((HumRawData.getD 3 0 % 256) <<< 8)) % 65536
  let r := sensorMpu9250AccReadRange H E w
  let adcRange := (r.1 * 4) % 256
  let i := (a.i + 1) % 256
  let ad1 := a.advertData.set (KEY_STATE_OFFSET + 1) (MovRawData.getD 6 0 % 256)
  let ad2 := ad1.set (KEY_STATE_OFFSET + 2) (MovRawData.getD 7 0 % 256)
  let ad3 := ad2.set (KEY_STATE_OFFSET + 3) (MovRawData.getD 8 0 % 256)
  let ad4 := ad3.set (KEY_STATE_OFFSET + 4) (MovRawData.getD 9 0 % 256)
  let ad5 := ad4.set (KEY_STATE_OFFSET + 5) i
  let ad6 := ad5.set (KEY_STATE_OFFSET + 6) (RawHumidity % 256)
  ({ advertData := ad6, HumRawData := HumRawData, MovRawData := MovRawData,
     adcRange := adcRange, i := i, advertSet := a.advertSet ++ [ad6] }, r.2)

/-! ## Concrete inputs used to instantiate the theorems -/

/-- A mask assignment with the seven sensors on bits 0 to 6. -/
def exampleMasks : SensorMasks :=
  { ST_IRTEMP := 1, ST_HUMIDITY := 2, ST_PRESSURE := 4, ST_LIGHT := 8, ST_MPU := 16,
    ST_MAG := 32, ST_FLASH := 64 }

/-- Test outcomes in which only the pressure sensor fails. -/
def exampleRun : SelfTest → Bool := fun t => decide (t ≠ SelfTest.sensorBmp280Test)

/-- A stale self-test state: all bits set by an earlier run. -/
def exampleSensorState : SensorState := { selfTestResult := 0xFF, calls := [] }

/-- The bus state that `bspI2cInit` leaves behind: interface 0, 400 kHz, mutex available. -/
def exampleBus : BspI2c :=
  { slaveAddr := 0xFF, interface := BSP_I2C_INTERFACE_0, i2cHandle := some 1,
    i2cParams := { bitRate := I2C_BitRate.I2C_400kHz, custom := none }, mutex := 1,
    driverCalls := [] }

/-- A driver whose `I2C_open` always succeeds with handle 2. -/
def exampleOpen : I2C_Params → Option ℕ := fun _ => some 2

/-- A buffer holding the byte `10 + i` at offset `i`. -/
def exampleBytes : Bytes := fun i => 10 + i


/-- The values of `gaprole_States_t` in the TI BLE stack. -/
def exampleGapRole : GapRole :=
  { GAPROLE_INIT := 0, GAPROLE_STARTED := 1, GAPROLE_ADVERTISING := 2, GAPROLE_WAITING := 4,
    GAPROLE_WAITING_AFTER_TIMEOUT := 5, GAPROLE_CONNECTED := 6, GAPROLE_CONNECTED_ADV := 7,
    GAPROLE_ERROR := 8 }

/-- A build with `PLUS_BROADCASTER` and without `FEATURE_LCD`. -/
def exampleCfg : AppCfg :=
  { G := exampleGapRole, PLUS_BROADCASTER := true, FEATURE_LCD := false,
    ownAddress := [0x11, 0x22, 0x33, 0x44, 0x55, 0x66] }

/-- The application state after initialisation, with both periodic events pending and two
messages queued. -/
def exampleApp : AppState :=
  { gapProfileState := 0, events := 0x0014,
    appMsgQueue := [{ event := 1, serviceID := 2, paramID := 0 },
      { event := 2, serviceID := 3, paramID := 1 }],
    periodicClockActive := false, firstConnFlag := false, calls := [] }

/-- The `SWAP` macro as a byte swap of a 16-bit value, the error byte `0xCC`, and
assertion macros that call `bspI2cDeselect` before they return. -/
def exampleSensorH : SensorH :=
  { SWAP := fun v => (v % 256) * 256 + v / 256 % 256, ST_ERROR_DATA := 0xCC,
    ST_ASSERT_deselects := true }

/-- The same header with assertion macros that only return. -/
def exampleSensorHPlain : SensorH :=
  { SWAP := fun v => (v % 256) * 256 + v / 256 % 256, ST_ERROR_DATA := 0xCC,
    ST_ASSERT_deselects := false }

/-- Values for the constants of `sensor_mpu9250.h`. -/
def exampleMpu9250H : Mpu9250H :=
  { ACC_RANGE_4G := 1, ACC_RANGE_INVALID := 0xFF, MPU_AX_MAG := 0x40, MAG_STATUS_OK := 0,
    MAG_READ_ST_ERR := 1, MAG_DATA_NOT_RDY := 2, MAG_OVERFLOW := 3, MAG_READ_DATA_ERR := 4,
    MAG_BYPASS_FAIL := 5, MAG_NO_POWER := 6, MpuPinTable_power_on := true }

/-- A bus on which every transfer succeeds and the HDC1000 identification registers answer
with the expected values (most significant byte first). -/
def exampleDriverEnv : DriverEnv :=
  { I2C_open := exampleOpen,
    I2C_transfer := fun _ t =>
      if t.writeBuf = [0xFE] then (true, [0x54, 0x49])
      else if t.writeBuf = [0xFF] then (true, [0x10, 0x00])
      else (true, List.replicate t.readCount 0) }

/-- A state in which another context holds the bus (the count of the mutex is zero), the
MPU is powered, and nothing has been recorded yet. -/
def exampleWorld : World :=
  { bus := { exampleBus with mutex := 0 }, transfers := [], lockCalls := [], mpuPower := true,
    mpuInterrupt := false, hdc := { success := true, temp := 0, hum := 0 },
    mpu :=
      { mpuConfig := 0, magStatus := 0, accRange := 0xFF, accRangeReg := 0, val := 0, calX := 0,
        calY := 0, calZ := 0, first := true, rawData := [0, 0, 0] } }

/-- A bus left by `bspI2cSelect(BSP_I2C_INTERFACE_1, 0x68)` and `bspI2cDeselect()`: the
transport is open with the interface-1 pin mapping and the bus is free. -/
def exampleBusOne : BspI2c :=
  { slaveAddr := 0x68, interface := BSP_I2C_INTERFACE_1, i2cHandle := some 2,
    i2cParams := { bitRate := I2C_BitRate.I2C_100kHz, custom := some PinCfg.pinCfg1 },
    mutex := 1, driverCalls := [] }

/-- A bus on which every transfer fails. -/
def failingDriverEnv : DriverEnv :=
  { I2C_open := exampleOpen, I2C_transfer := fun _ _ => (false, []) }

/-- A state in which the bus is free, the MPU is powered and set to the range 1 (4 G),
with the matching register image `1 << 3`. -/
def exampleWorldFree : World :=
  { exampleWorld with
    bus := exampleBus
    mpu := { exampleWorld.mpu with accRange := 1, accRangeReg := 8 } }

/-- An advertising payload of 20 bytes with the key state at offset 13, followed by the six
data bytes, and a repetition counter at 0. -/
def exampleAdvert : AdvertState :=
  { advertData := [0x02, 0x01, 0x05, 0x03, 0x02, 0x80, 0xAA, 0x0C, 0xFF, 0x0D, 0x00, 0x03,
      0x00, 0x00, 0xFF, 0xFF, 0xFF, 0xFF, 0xFF, 0xFF],
    HumRawData := [0, 0, 0, 0], MovRawData := List.replicate 18 0, adcRange := 0, i := 0,
    advertSet := [] }

/-- Movement data whose byte at offset `k` is `0x40 + k`. -/
def exampleMovData : List ℕ := (List.range 18).map (fun k => 0x40 + k)

/-- Humidity data: temperature bytes `0x11 0x22`, humidity bytes `0x33 0x44`. -/
def exampleHumData : List ℕ := [0x11, 0x22, 0x33, 0x44]

/-! ## Theorems: value codec -/

theorem exponentField_eq (s : ℕ) : exponentField s = s / 4096 % 16 := by
  unfold exponentField
  have h : (s &&& 0xF000) >>> 12 = (s >>> 12) &&& (2 ^ 4 - 1) := by
    apply Nat.eq_of_testBit_eq
    intro i
    have h2 : (0xF000 : ℕ) = (2 ^ 4 - 1) <<< 12 := by decide
    rw [Nat.testBit_shiftRight, Nat.testBit_and, Nat.testBit_and, Nat.testBit_shiftRight, h2,
      Nat.testBit_shiftLeft]
    simp
  rw [h, Nat.and_pow_two_sub_one_eq_mod, Nat.shiftRight_eq_div_pow]

theorem mantissaField_eq (s : ℕ) : mantissaField s = s % 4096 := by
  unfold mantissaField
  exact Nat.and_pow_two_sub_one_eq_mod s 12

theorem pack_eq (e m : ℕ) :
    (((e &&& 0xF) <<< 12) ||| (m &&& 0xFFF)) % 65536 = (e % 16) * 4096 + m % 4096 := by
  have h1 : e &&& 0xF = e % 16 := Nat.and_pow_two_sub_one_eq_mod e 4
  have h2 : m &&& 0xFFF = m % 4096 := Nat.and_pow_two_sub_one_eq_mod m 12
  have h3 : m % 4096 < 2 ^ 12 := Nat.mod_lt _ (by norm_num)
  rw [h1, h2, Nat.shiftLeft_eq, Nat.mul_comm, ← Nat.mul_add_lt_is_or h3]
  have h4 : e % 16 < 16 := Nat.mod_lt _ (by norm_num)
  omega


theorem floatScale_of_le (m : ℚ) (e : ℕ) (h : m ≤ 4095) : floatScale m e = (m, e) := by
  rw [floatScale]
  norm_num [h]

theorem floatScale_of_gt (m : ℚ) (e : ℕ) (h : 4095 < m) :
    floatScale m e = floatScale (m / 2) (e + 1) := by
  rw [floatScale]
  have h1 : ¬ m ≤ 4095 := not_le.mpr h
  norm_num [h1]

/-- The loop halves exactly `k` times when `k` is the first count that brings the mantissa
down to `0xFFF`. -/
theorem floatScale_eq (k : ℕ) : ∀ (m : ℚ) (e : ℕ), m / 2 ^ k ≤ 4095 →
    (∀ j < k, 4095 < m / 2 ^ j) → floatScale m e = (m / 2 ^ k, e + k) := by
  induction k with
  | zero =>
    intro m e h _
    rw [floatScale_of_le m e (by simpa using h)]
    simp
  | succ k ih =>
    intro m e h hlt
    have h0 : 4095 < m := by simpa using hlt 0 (Nat.succ_pos k)
    rw [floatScale_of_gt m e h0, ih (m / 2) (e + 1)]
    · rw [div_div, ← pow_succ', Nat.add_assoc, Nat.add_comm 1 k]
    · rw [div_div, ← pow_succ']
      exact h
    · intro j hj
      rw [div_div, ← pow_succ']
      exact hlt (j + 1) (Nat.succ_lt_succ hj)

/-- Every mantissa is brought down to `0xFFF` by a least number of halvings, which is at
most `n` when the mantissa is at most `0xFFF * 2 ^ n`. -/
theorem exists_halvings (n : ℕ) : ∀ (m : ℚ), m ≤ 4095 * 2 ^ n →
    ∃ k, k ≤ n ∧ m / 2 ^ k ≤ 4095 ∧ ∀ j < k, 4095 < m / 2 ^ j := by
  induction n with
  | zero =>
    intro m h
    exact ⟨0, le_refl 0, by simpa using h, fun j hj => absurd hj (Nat.not_lt_zero j)⟩
  | succ n ih =>
    intro m h
    by_cases hm : m ≤ 4095
    · exact ⟨0, Nat.zero_le _, by simpa using hm, fun j hj => absurd hj (Nat.not_lt_zero j)⟩
    · have h2 : m / 2 ≤ 4095 * 2 ^ n := by
        rw [pow_succ] at h
        linarith
      obtain ⟨k, hk, hle, hlt⟩ := ih (m / 2) h2
      refine ⟨k + 1, Nat.succ_le_succ hk, ?_, ?_⟩
      · rw [pow_succ', ← div_div]
        exact hle
      · intro j hj
        cases j with
        | zero => simpa using not_le.mp hm
        | succ j =>
          rw [pow_succ', ← div_div]
          exact hlt j (Nat.lt_of_succ_lt_succ hj)

theorem cRound_nonneg_bounds (q : ℚ) (h : 0 ≤ q) :
    0 ≤ cRound q ∧ |((cRound q : ℤ) : ℚ) - q| ≤ 1 / 2 := by
  unfold cRound
  rw [if_pos h]
  have h1 : ((⌊q + 1 / 2⌋ : ℤ) : ℚ) ≤ q + 1 / 2 := Int.floor_le _
  have h2 : q + 1 / 2 < ((⌊q + 1 / 2⌋ : ℤ) : ℚ) + 1 := Int.lt_floor_add_one _
  refine ⟨Int.floor_nonneg.mpr (by linarith), ?_⟩
  rw [abs_le]
  constructor <;> linarith

theorem cRound_le (q : ℚ) (n : ℤ) (h0 : 0 ≤ q) (h : q ≤ n) : cRound q ≤ n := by
  unfold cRound
  rw [if_pos h0]
  have h3 : ⌊q + 1 / 2⌋ < n + 1 := by
    rw [Int.floor_lt]
    push_cast
    linarith
  omega


/-- A rational strictly within one half of an integer rounds to that integer. -/
theorem roundHalfEven_eq (q : ℚ) (n : ℤ) (h1 : (n : ℚ) - 1 / 2 < q) (h2 : q < n + 1 / 2) :
    roundHalfEven q = n := by
  unfold roundHalfEven
  by_cases hq : (n : ℚ) ≤ q
  · have hf : ⌊q⌋ = n := by
      rw [Int.floor_eq_iff]
      constructor <;> linarith
    rw [hf, if_pos (by linarith)]
  · push_neg at hq
    have hf : ⌊q⌋ = n - 1 := by
      rw [Int.floor_eq_iff]
      push_cast
      constructor <;> linarith
    rw [hf]
    push_cast
    rw [if_neg (by linarith), if_pos (by linarith)]
    ring

/-- Rounding to an integer moves a value by at most one half. -/
theorem roundHalfEven_bounds (q : ℚ) :
    (roundHalfEven q : ℚ) - 1 / 2 ≤ q ∧ q ≤ roundHalfEven q + 1 / 2 := by
  have h1 : ((⌊q⌋ : ℤ) : ℚ) ≤ q := Int.floor_le q
  have h2 : q < ((⌊q⌋ : ℤ) : ℚ) + 1 := Int.lt_floor_add_one q
  unfold roundHalfEven
  split_ifs <;> push_cast <;> constructor <;> linarith

/-- The binary logarithm of a value in `[2 ^ k, 2 ^ (k + 1))` is `k`. -/
theorem log_two_eq (q : ℚ) (k : ℤ) (h1 : (2 : ℚ) ^ k ≤ q) (h2 : q < 2 ^ (k + 1)) :
    Int.log 2 q = k := by
  have hq : 0 < q := lt_of_lt_of_le (by positivity) h1
  have ha : k ≤ Int.log 2 q := (Int.zpow_le_iff_le_log (by norm_num) hq).mp (by exact_mod_cast h1)
  have hb : Int.log 2 q < k + 1 := (Int.lt_zpow_iff_log_lt (by norm_num) hq).mp (by exact_mod_cast h2)
  omega

/-- Rounding to `p` bits when the binade of the value is known: with `e` the exponent of
the last place, the value is scaled by `2 ^ e`, rounded to an integer and scaled back. -/
theorem roundToPrecision_of_binade (p : ℕ) (q : ℚ) (e : ℤ)
    (h1 : (2 : ℚ) ^ (e + ((p : ℤ) - 1)) ≤ |q|) (h2 : |q| < 2 ^ (e + ((p : ℤ) - 1) + 1)) :
    roundToPrecision p q = (roundHalfEven (q / 2 ^ e) : ℚ) * 2 ^ e := by
  have hq : q ≠ 0 := by
    intro h
    rw [h, abs_zero] at h1
    have : (0 : ℚ) < 2 ^ (e + ((p : ℤ) - 1)) := by positivity
    linarith
  have hl := log_two_eq |q| _ h1 h2
  unfold roundToPrecision
  rw [if_neg hq]
  simp only [hl]
  have : e + ((p : ℤ) - 1) - ((p : ℤ) - 1) = e := by ring
  rw [this]


/-- Rounding a non-negative value to `p` bits changes it by at most the fraction `2 ^ (-p)`
of the value. -/
theorem roundToPrecision_bounds (p : ℕ) (q : ℚ) (hq : 0 ≤ q) :
    q * (1 - 1 / 2 ^ p) ≤ roundToPrecision p q ∧ roundToPrecision p q ≤ q * (1 + 1 / 2 ^ p) := by
  rcases eq_or_lt_of_le hq with h0 | hpos
  · rw [← h0]
    simp [roundToPrecision]
  · have hne : q ≠ 0 := ne_of_gt hpos
    have habs : |q| = q := abs_of_pos hpos
    have hlog : (2 : ℚ) ^ Int.log 2 q ≤ q := by
      have h := Int.zpow_log_le_self (b := 2) (r := q) (by norm_num) hpos
      exact_mod_cast h
    obtain ⟨hb1, hb2⟩ := roundHalfEven_bounds (q / 2 ^ (Int.log 2 q - ((p : ℤ) - 1)))
    have he : (0 : ℚ) < 2 ^ (Int.log 2 q - ((p : ℤ) - 1)) := by positivity
    have hpp : (0 : ℚ) < 2 ^ p := by positivity
    have hmul : (2 : ℚ) ^ (Int.log 2 q - ((p : ℤ) - 1)) * 2 ^ p = 2 * 2 ^ Int.log 2 q := by
      rw [← zpow_natCast (2 : ℚ) p, ← zpow_add₀ (by norm_num : (2 : ℚ) ≠ 0)]
      have : Int.log 2 q - ((p : ℤ) - 1) + (p : ℤ) = 1 + Int.log 2 q := by ring
      rw [this, zpow_add₀ (by norm_num : (2 : ℚ) ≠ 0), zpow_one]
    have hhalf : (2 : ℚ) ^ (Int.log 2 q - ((p : ℤ) - 1)) / 2 ≤ q / 2 ^ p := by
      rw [div_le_div_iff₀ (by norm_num) hpp]
      nlinarith
    unfold roundToPrecision
    rw [if_neg hne]
    simp only [habs]
    rw [le_div_iff₀ he] at hb1
    rw [div_le_iff₀ he] at hb2
    have e1 : q * (1 - 1 / 2 ^ p) = q - q / 2 ^ p := by ring
    have e2 : q * (1 + 1 / 2 ^ p) = q + q / 2 ^ p := by ring
    rw [e1, e2]
    constructor <;> linarith

/-- Rounding a non-negative value gives a non-negative value. -/
theorem roundToPrecision_nonneg (p : ℕ) (q : ℚ) (hq : 0 ≤ q) : 0 ≤ roundToPrecision p q := by
  have h := (roundToPrecision_bounds p q hq).1
  have h1 : (1 : ℚ) / 2 ^ p ≤ 1 := by
    rw [div_le_one (by positivity)]
    exact one_le_pow₀ (by norm_num)
  have h2 : 0 ≤ q * (1 - 1 / 2 ^ p) := mul_nonneg hq (by linarith)
  linarith

/-- Rounding to `p` bits worked out: the value lies in the binade with last place `2 ^ e`
and within one half of `n` after scaling. -/
theorem roundToPrecision_eval (p : ℕ) (q : ℚ) (e n : ℤ)
    (h1 : (2 : ℚ) ^ (e + ((p : ℤ) - 1)) ≤ |q|) (h2 : |q| < 2 ^ (e + ((p : ℤ) - 1) + 1))
    (h3 : (n : ℚ) - 1 / 2 < q / 2 ^ e) (h4 : q / 2 ^ e < n + 1 / 2) :
    roundToPrecision p q = (n : ℚ) * 2 ^ e := by
  rw [roundToPrecision_of_binade p q e h1 h2, roundHalfEven_eq _ n h3 h4]

/-- The double nearest to `1.0 / 100`. -/
theorem toDouble_hundredth : toDouble (1 / PRECISION) = 5764607523034235 / 2 ^ 59 := by
  unfold toDouble
  rw [roundToPrecision_eval 53 _ (-59) 5764607523034235 (by norm_num [PRECISION, abs_of_pos])
    (by norm_num [PRECISION, abs_of_pos]) (by norm_num [PRECISION]) (by norm_num [PRECISION])]
  norm_num

/-- The value returned by `sfloatToFloat` differs from the exact `m * 2 ^ e / 100` by at most
the fraction `2 ^ (-24) + 2 ^ (-51)` of it: three roundings to `double` and one to `float`. -/
theorem sfloatToFloat_bounds (s : ℕ) :
    (mantissaField s : ℚ) * 2 ^ exponentField s / 100 * (1 - (1 / 2 ^ 24 + 1 / 2 ^ 51)) ≤
        sfloatToFloat s ∧
      sfloatToFloat s ≤
        (mantissaField s : ℚ) * 2 ^ exponentField s / 100 * (1 + (1 / 2 ^ 24 + 1 / 2 ^ 51)) := by
  unfold sfloatToFloat mantissaField exponentField toFloat toDouble
  simp only []
  have hA : (0 : ℚ) ≤ ((s &&& 0x0FFF : ℕ) : ℚ) * 2 ^ ((s &&& 0xF000) >>> 12) := by positivity
  generalize ((s &&& 0x0FFF : ℕ) : ℚ) * 2 ^ ((s &&& 0xF000) >>> 12) = A at hA ⊢
  have hC : (0 : ℚ) ≤ 1 / PRECISION := by norm_num [PRECISION]
  have hCv : (1 : ℚ) / PRECISION = 1 / 100 := by norm_num [PRECISION]
  obtain ⟨ha1, ha2⟩ := roundToPrecision_bounds 53 A hA
  have ha0 := roundToPrecision_nonneg 53 A hA
  obtain ⟨hc1, hc2⟩ := roundToPrecision_bounds 53 (1 / PRECISION) hC
  have hc0 := roundToPrecision_nonneg 53 (1 / PRECISION) hC
  have hac0 : 0 ≤ roundToPrecision 53 A * roundToPrecision 53 (1 / PRECISION) :=
    mul_nonneg ha0 hc0
  obtain ⟨hb1, hb2⟩ := roundToPrecision_bounds 53 _ hac0
  have hb0 := roundToPrecision_nonneg 53 _ hac0
  obtain ⟨hr1, hr2⟩ := roundToPrecision_bounds 24 _ hb0
  generalize roundToPrecision 24
    (roundToPrecision 53 (roundToPrecision 53 A * roundToPrecision 53 (1 / PRECISION))) = r
    at hr1 hr2 ⊢
  generalize roundToPrecision 53 (roundToPrecision 53 A * roundToPrecision 53 (1 / PRECISION)) = b
    at hb1 hb2 hb0 hr1 hr2
  generalize roundToPrecision 53 A = a at ha1 ha2 ha0 hac0 hb1 hb2
  generalize roundToPrecision 53 (1 / PRECISION) = c at hc1 hc2 hc0 hac0 hb1 hb2
  rw [hCv] at hc1 hc2
  have hac2 : a * c ≤ A * (1 + 1 / 2 ^ 53) * (1 / 100 * (1 + 1 / 2 ^ 53)) :=
    mul_le_mul ha2 hc2 hc0 (le_trans ha0 ha2)
  have hac1 : A * (1 - 1 / 2 ^ 53) * (1 / 100 * (1 - 1 / 2 ^ 53)) ≤ a * c :=
    mul_le_mul ha1 hc1 (by norm_num) ha0
  have hb2' : b ≤ A * (1 + 1 / 2 ^ 53) * (1 / 100 * (1 + 1 / 2 ^ 53)) * (1 + 1 / 2 ^ 53) :=
    le_trans hb2 (mul_le_mul_of_nonneg_right hac2 (by norm_num))
  have hb1' : A * (1 - 1 / 2 ^ 53) * (1 / 100 * (1 - 1 / 2 ^ 53)) * (1 - 1 / 2 ^ 53) ≤ b :=
    le_trans (mul_le_mul_of_nonneg_right hac1 (by norm_num)) hb1
  have hr2' : r ≤ A * (1 + 1 / 2 ^ 53) * (1 / 100 * (1 + 1 / 2 ^ 53)) * (1 + 1 / 2 ^ 53) *
      (1 + 1 / 2 ^ 24) :=
    le_trans hr2 (mul_le_mul_of_nonneg_right hb2' (by norm_num))
  have hr1' : A * (1 - 1 / 2 ^ 53) * (1 / 100 * (1 - 1 / 2 ^ 53)) * (1 - 1 / 2 ^ 53) *
      (1 - 1 / 2 ^ 24) ≤ r :=
    le_trans (mul_le_mul_of_nonneg_right hb1' (by norm_num)) hr1
  constructor
  · refine le_trans ?_ hr1'
    have e1 : A * (1 - 1 / 2 ^ 53) * (1 / 100 * (1 - 1 / 2 ^ 53)) * (1 - 1 / 2 ^ 53) *
        (1 - 1 / 2 ^ 24) = A * ((1 - 1 / 2 ^ 53) ^ 3 * (1 - 1 / 2 ^ 24) / 100) := by ring
    have e2 : A / 100 * (1 - (1 / 2 ^ 24 + 1 / 2 ^ 51)) =
        A * ((1 - (1 / 2 ^ 24 + 1 / 2 ^ 51)) / 100) := by ring
    rw [e1, e2]
    exact mul_le_mul_of_nonneg_left (by norm_num) hA
  · refine le_trans hr2' ?_
    have e1 : A * (1 + 1 / 2 ^ 53) * (1 / 100 * (1 + 1 / 2 ^ 53)) * (1 + 1 / 2 ^ 53) *
        (1 + 1 / 2 ^ 24) = A * ((1 + 1 / 2 ^ 53) ^ 3 * (1 + 1 / 2 ^ 24) / 100) := by ring
    have e2 : A / 100 * (1 + (1 / 2 ^ 24 + 1 / 2 ^ 51)) =
        A * ((1 + (1 / 2 ^ 24 + 1 / 2 ^ 51)) / 100) := by ring
    rw [e1, e2]
    exact mul_le_mul_of_nonneg_left (by norm_num) hA

/-- The fields produced by `floatToSfloat` for a non-negative input, in terms of the number
`k` of halvings the scaling loop performs. -/
theorem floatToSfloat_fields (x : ℚ) (h0 : 0 ≤ x) (k : ℕ) (hk : 100 * x / 2 ^ k ≤ 4095)
    (hlt : ∀ j < k, 4095 < 100 * x / 2 ^ j) :
    exponentField (floatToSfloat x) = k % 16 ∧
      ((mantissaField (floatToSfloat x) : ℕ) : ℤ) = cRound (100 * x / 2 ^ k) := by
  have hs : floatScale (|x| * PRECISION) 0 = (100 * x / 2 ^ k, 0 + k) := by
    rw [abs_of_nonneg h0, PRECISION, mul_comm]
    exact floatScale_eq k (100 * x) 0 hk hlt
  have hq0 : 0 ≤ 100 * x / 2 ^ k := by positivity
  have hsgn : (if x > 0 then (1 : ℚ) else -1) * (100 * x / 2 ^ k) = 100 * x / 2 ^ k := by
    by_cases hx : x > 0
    · rw [if_pos hx, one_mul]
    · have hx0 : x = 0 := le_antisymm (not_lt.mp hx) h0
      rw [hx0]
      simp
  obtain ⟨hr0, -⟩ := cRound_nonneg_bounds _ hq0
  have hr1 : cRound (100 * x / 2 ^ k) ≤ 4095 := cRound_le _ 4095 hq0 (by exact_mod_cast hk)
  have hfl : floatToSfloat x
      = (k % 16) * 4096 + (toUint16 (cRound (100 * x / 2 ^ k))) % 4096 := by
    unfold floatToSfloat
    simp only [hs, hsgn, Nat.zero_add]
    exact pack_eq _ _
  have hu : ((toUint16 (cRound (100 * x / 2 ^ k)) : ℕ) : ℤ) = cRound (100 * x / 2 ^ k) := by
    unfold toUint16
    omega
  rw [exponentField_eq, mantissaField_eq, hfl]
  have hk16 : k % 16 < 16 := Nat.mod_lt _ (by norm_num)
  constructor
  · omega
  · omega

/-- The quantisation error of the encoder: for `x ≥ 0` in range, the exact value
`m * 2 ^ e / 100` of the encoding differs from `x` by at most `2 ^ e / 200`. -/
theorem floatToSfloat_quantization (x : ℚ) (h0 : 0 ≤ x) (h : 100 * x ≤ 0xFFF * 2 ^ 15) :
    |(mantissaField (floatToSfloat x) : ℚ) * 2 ^ exponentField (floatToSfloat x) / 100 - x| ≤
      2 ^ exponentField (floatToSfloat x) / 200 := by
  obtain ⟨k, hk15, hk, hlt⟩ := exists_halvings 15 (100 * x) (by norm_num at h ⊢; linarith)
  obtain ⟨he, hm⟩ := floatToSfloat_fields x h0 k hk hlt
  have hq0 : 0 ≤ 100 * x / 2 ^ k := by positivity
  obtain ⟨-, hr⟩ := cRound_nonneg_bounds _ hq0
  have hek : exponentField (floatToSfloat x) = k := by
    rw [he]
    omega
  have hmq : ((mantissaField (floatToSfloat x) : ℕ) : ℚ) = ((cRound (100 * x / 2 ^ k) : ℤ) : ℚ) := by
    exact_mod_cast hm
  rw [hek, hmq]
  have hp : (0 : ℚ) < 2 ^ k := by positivity
  have hd : ((cRound (100 * x / 2 ^ k) : ℤ) : ℚ) * 2 ^ k / 100 - x
      = (((cRound (100 * x / 2 ^ k) : ℤ) : ℚ) - 100 * x / 2 ^ k) * (2 ^ k / 100) := by
    field_simp
  rw [hd, abs_mul, abs_of_pos (by positivity : (0 : ℚ) < 2 ^ k / 100)]
  calc |((cRound (100 * x / 2 ^ k) : ℤ) : ℚ) - 100 * x / 2 ^ k| * (2 ^ k / 100)
      ≤ 1 / 2 * (2 ^ k / 100) := by
        apply mul_le_mul_of_nonneg_right hr
        positivity
    _ = 2 ^ k / 200 := by ring

/-- The value that `sfloatToFloat` returns for the raw value `0x00D5`. -/
theorem sfloatToFloat_213 : sfloatToFloat 0x00D5 = 2233467 / 1048576 := by
  have hm : (0x00D5 &&& 0x0FFF : ℕ) = 213 := by decide
  have he : ((0x00D5 &&& 0xF000) >>> 12 : ℕ) = 0 := by decide
  have ha : toDouble ((213 : ℚ) * 2 ^ 0) = 213 := by
    unfold toDouble
    rw [roundToPrecision_eval 53 _ (-45) 7494271254921216 (by norm_num [abs_of_pos])
      (by norm_num [abs_of_pos]) (by norm_num) (by norm_num)]
    norm_num
  have hb : toDouble ((213 : ℚ) * (5764607523034235 / 2 ^ 59)) = 4796333603149578 / 2 ^ 51 := by
    unfold toDouble
    rw [roundToPrecision_eval 53 _ (-51) 4796333603149578 (by norm_num [abs_of_pos])
      (by norm_num [abs_of_pos]) (by norm_num) (by norm_num)]
    norm_num
  have hr : toFloat ((4796333603149578 : ℚ) / 2 ^ 51) = 2233467 / 1048576 := by
    unfold toFloat
    rw [roundToPrecision_eval 24 _ (-22) 8933868 (by norm_num [abs_of_pos])
      (by norm_num [abs_of_pos]) (by norm_num) (by norm_num)]
    norm_num
  unfold sfloatToFloat
  simp only [hm, he, Nat.cast_ofNat, toDouble_hundredth, ha, hb, hr]

/-- The value that `sfloatToFloat` returns for the raw value `0x0F9C`. -/
theorem sfloatToFloat_3996 : sfloatToFloat 0x0F9C = 5237637 / 131072 := by
  have hm : (0x0F9C &&& 0x0FFF : ℕ) = 3996 := by decide
  have he : ((0x0F9C &&& 0xF000) >>> 12 : ℕ) = 0 := by decide
  have ha : toDouble ((3996 : ℚ) * 2 ^ 0) = 3996 := by
    unfold toDouble
    rw [roundToPrecision_eval 53 _ (-41) 8787296929185792 (by norm_num [abs_of_pos])
      (by norm_num [abs_of_pos]) (by norm_num) (by norm_num)]
    norm_num
  have hb : toDouble ((3996 : ℚ) * (5764607523034235 / 2 ^ 59)) = 5623870034678907 / 2 ^ 47 := by
    unfold toDouble
    rw [roundToPrecision_eval 53 _ (-47) 5623870034678907 (by norm_num [abs_of_pos])
      (by norm_num [abs_of_pos]) (by norm_num) (by norm_num)]
    norm_num
  have hr : toFloat ((5623870034678907 : ℚ) / 2 ^ 47) = 5237637 / 131072 := by
    unfold toFloat
    rw [roundToPrecision_eval 24 _ (-18) 10475274 (by norm_num [abs_of_pos])
      (by norm_num [abs_of_pos]) (by norm_num) (by norm_num)]
    norm_num
  unfold sfloatToFloat
  simp only [hm, he, Nat.cast_ofNat, toDouble_hundredth, ha, hb, hr]

/-- The encoding of `2.125`. -/
theorem floatToSfloat_17_8 : floatToSfloat (17 / 8) = 0x00D5 := by
  unfold floatToSfloat
  have hs : floatScale (|(17 / 8 : ℚ)| * PRECISION) 0 = (425 / 2, 0) := by
    rw [floatScale_of_le _ _ (by norm_num [PRECISION, abs_of_pos])]
    norm_num [PRECISION, abs_of_pos]
  have hr : cRound ((if (17 / 8 : ℚ) > 0 then 1 else -1) * (425 / 2 : ℚ)) = 213 := by
    norm_num [cRound]
  simp only [hs, hr]
  decide

/-- C1 (as stated, refuted). The input `2.125` is encoded as `0x00D5` (mantissa 213,
exponent 0).  The decoder multiplies by the `double` nearest to `0.01` and returns a `float`:
it returns `2233467 / 2 ^ 20 = 2.130000114...`, which is not `213 * 2 ^ 0 / 100`, and its
distance from `2.125` exceeds `2 ^ 0 / 200`. -/
theorem floatToSfloat_roundtrip_not_exact :
    (0 : ℚ) ≤ 17 / 8 ∧ 100 * (17 / 8 : ℚ) ≤ 0xFFF * 2 ^ 15 ∧
      floatToSfloat (17 / 8) = 0x00D5 ∧
      sfloatToFloat (floatToSfloat (17 / 8)) = 2233467 / 1048576 ∧
      sfloatToFloat (floatToSfloat (17 / 8)) ≠
        (mantissaField (floatToSfloat (17 / 8)) : ℚ) *
          2 ^ exponentField (floatToSfloat (17 / 8)) / 100 ∧
      ¬ |sfloatToFloat (floatToSfloat (17 / 8)) - 17 / 8| ≤
          2 ^ exponentField (floatToSfloat (17 / 8)) / 200 := by
  have hm : mantissaField 0x00D5 = 213 := by decide
  have he : exponentField 0x00D5 = 0 := by decide
  refine ⟨by norm_num, by norm_num, floatToSfloat_17_8, ?_, ?_, ?_⟩
  · rw [floatToSfloat_17_8, sfloatToFloat_213]
  · rw [floatToSfloat_17_8, sfloatToFloat_213, hm, he]
    norm_num
  · rw [floatToSfloat_17_8, sfloatToFloat_213, he]
    norm_num [abs_of_pos]

/-- C1 (amended). For every `x ≥ 0` with `100 * x ≤ 0xFFF * 2 ^ 15`, with `m` and `e` the
mantissa and exponent fields of `floatToSfloat x`: the decoded value differs from
`m * 2 ^ e / 100` by at most the fraction `2 ^ (-24) + 2 ^ (-51)` of it (the roundings of the
`double` arithmetic and of the conversion to `float`), and from `x` by at most
`2 ^ e / 200` plus that amount. -/
theorem floatToSfloat_roundtrip (x : ℚ) (h0 : 0 ≤ x) (h : 100 * x ≤ 0xFFF * 2 ^ 15) :
    |sfloatToFloat (floatToSfloat x) -
        (mantissaField (floatToSfloat x) : ℚ) * 2 ^ exponentField (floatToSfloat x) / 100| ≤
        (mantissaField (floatToSfloat x) : ℚ) * 2 ^ exponentField (floatToSfloat x) / 100 *
          (1 / 2 ^ 24 + 1 / 2 ^ 51) ∧
      |sfloatToFloat (floatToSfloat x) - x| ≤
        2 ^ exponentField (floatToSfloat x) / 200 +
          (mantissaField (floatToSfloat x) : ℚ) * 2 ^ exponentField (floatToSfloat x) / 100 *
            (1 / 2 ^ 24 + 1 / 2 ^ 51) := by
  obtain ⟨hb1, hb2⟩ := sfloatToFloat_bounds (floatToSfloat x)
  have hq := floatToSfloat_quantization x h0 h
  have hd : |sfloatToFloat (floatToSfloat x) -
      (mantissaField (floatToSfloat x) : ℚ) * 2 ^ exponentField (floatToSfloat x) / 100| ≤
      (mantissaField (floatToSfloat x) : ℚ) * 2 ^ exponentField (floatToSfloat x) / 100 *
        (1 / 2 ^ 24 + 1 / 2 ^ 51) := by
    rw [abs_le]
    constructor <;> linarith
  refine ⟨hd, ?_⟩
  have ht := abs_add (sfloatToFloat (floatToSfloat x) -
      (mantissaField (floatToSfloat x) : ℚ) * 2 ^ exponentField (floatToSfloat x) / 100)
    ((mantissaField (floatToSfloat x) : ℚ) * 2 ^ exponentField (floatToSfloat x) / 100 - x)
  rw [sub_add_sub_cancel] at ht
  linarith

/-- C1 (amended) at the input `2.125`. -/
theorem floatToSfloat_roundtrip_witness :
    (0 : ℚ) ≤ 17 / 8 ∧ 100 * (17 / 8 : ℚ) ≤ 0xFFF * 2 ^ 15 ∧
      |sfloatToFloat (floatToSfloat (17 / 8)) -
          (mantissaField (floatToSfloat (17 / 8)) : ℚ) *
            2 ^ exponentField (floatToSfloat (17 / 8)) / 100| ≤
          (mantissaField (floatToSfloat (17 / 8)) : ℚ) *
            2 ^ exponentField (floatToSfloat (17 / 8)) / 100 * (1 / 2 ^ 24 + 1 / 2 ^ 51) ∧
        |sfloatToFloat (floatToSfloat (17 / 8)) - 17 / 8| ≤
          2 ^ exponentField (floatToSfloat (17 / 8)) / 200 +
            (mantissaField (floatToSfloat (17 / 8)) : ℚ) *
              2 ^ exponentField (floatToSfloat (17 / 8)) / 100 * (1 / 2 ^ 24 + 1 / 2 ^ 51) :=
  ⟨by norm_num, by norm_num, floatToSfloat_roundtrip (17 / 8) (by norm_num) (by norm_num)⟩


theorem int_div_two_div (a : ℤ) (k : ℕ) (ha : 0 ≤ a) : a / 2 / 2 ^ k = a / 2 ^ (k + 1) := by
  lift a to ℕ using ha
  norm_cast
  rw [Nat.div_div_eq_div_mul, pow_succ']

theorem intScale_of_le (m : ℤ) (e : ℕ) (h : m ≤ 4095) : intScale m e = (m, e) := by
  rw [intScale]
  norm_num [h]

theorem intScale_of_gt (m : ℤ) (e : ℕ) (h : 4095 < m) :
    intScale m e = intScale (m / 2) (e + 1) := by
  rw [intScale]
  have h1 : ¬ m ≤ 4095 := not_le.mpr h
  have h2 : m.tdiv 2 = m / 2 := Int.tdiv_eq_ediv (by omega) (by omega)
  norm_num [h1, h2]

/-- Repeated truncating halving equals one floor division by `2 ^ k`, where `k` is the first
count that brings the mantissa down to `0xFFF`. -/
theorem intScale_eq (k : ℕ) : ∀ (m : ℤ) (e : ℕ), 0 ≤ m → m / 2 ^ k ≤ 4095 →
    (∀ j < k, 4095 < m / 2 ^ j) → intScale m e = (m / 2 ^ k, e + k) := by
  induction k with
  | zero =>
    intro m e _ h _
    rw [intScale_of_le m e (by simpa using h)]
    simp
  | succ k ih =>
    intro m e hm h hlt
    have h0 : 4095 < m := by simpa using hlt 0 (Nat.succ_pos k)
    rw [intScale_of_gt m e h0, ih (m / 2) (e + 1) (by omega)]
    · rw [int_div_two_div m k hm, Nat.add_assoc, Nat.add_comm 1 k]
    · rw [int_div_two_div m k hm]
      exact h
    · intro j hj
      rw [int_div_two_div m j hm]
      exact hlt (j + 1) (Nat.succ_lt_succ hj)

theorem exists_halvings_int (n : ℕ) : ∀ (m : ℤ), 0 ≤ m → m ≤ 4095 * 2 ^ n →
    ∃ k, k ≤ n ∧ m / 2 ^ k ≤ 4095 ∧ ∀ j < k, 4095 < m / 2 ^ j := by
  induction n with
  | zero =>
    intro m _ h
    exact ⟨0, le_refl 0, by simpa using h, fun j hj => absurd hj (Nat.not_lt_zero j)⟩
  | succ n ih =>
    intro m hm h
    by_cases hm4 : m ≤ 4095
    · exact ⟨0, Nat.zero_le _, by simpa using hm4, fun j hj => absurd hj (Nat.not_lt_zero j)⟩
    · have h2 : m / 2 ≤ 4095 * 2 ^ n := by
        rw [pow_succ] at h
        omega
      obtain ⟨k, hk, hle, hlt⟩ := ih (m / 2) (by omega) h2
      refine ⟨k + 1, Nat.succ_le_succ hk, ?_, ?_⟩
      · rw [← int_div_two_div m k hm]
        exact hle
      · intro j hj
        cases j with
        | zero => simpa using not_le.mp hm4
        | succ j =>
          rw [← int_div_two_div m j hm]
          exact hlt j (Nat.lt_of_succ_lt_succ hj)

/-- The value produced by `intToSfloat` for a non-negative input whose product with
`IPRECISION` fits an `int`, in terms of the number `k` of halvings of the scaling loop. -/
theorem intToSfloat_value (n : ℤ) (h0 : 0 ≤ n) (hmax : 100 * n ≤ 2147483647) (k : ℕ)
    (hk : 100 * n / 2 ^ k ≤ 4095) (hlt : ∀ j < k, 4095 < 100 * n / 2 ^ j) :
    intToSfloat n = (k % 16) * 4096 + (100 * n / 2 ^ k).toNat := by
  have hw : wrapInt32 (n * IPRECISION) = 100 * n := by
    unfold wrapInt32 IPRECISION
    omega
  have hs : intScale (wrapInt32 (n * IPRECISION)) 0 = (100 * n / 2 ^ k, 0 + k) := by
    rw [hw]
    exact intScale_eq k (100 * n) 0 (by omega) hk hlt
  have hq0 : 0 ≤ 100 * n / 2 ^ k := Int.ediv_nonneg (by omega) (by positivity)
  have hsgn : (if n > 0 then (1 : ℤ) else -1) * (100 * n / 2 ^ k) = 100 * n / 2 ^ k := by
    by_cases hn : n > 0
    · rw [if_pos hn, one_mul]
    · have hn0 : n = 0 := le_antisymm (not_lt.mp hn) h0
      rw [hn0]
      simp
  have hw2 : wrapInt32 (100 * n / 2 ^ k) = 100 * n / 2 ^ k := by
    unfold wrapInt32
    omega
  have hu : toUint16 (100 * n / 2 ^ k) = (100 * n / 2 ^ k).toNat := by
    unfold toUint16
    omega
  unfold intToSfloat
  simp only [hs, hsgn, hw2, hu, Nat.zero_add]
  rw [pack_eq]
  omega


/-- C2. At the negative input `-1` the encoder stores the two's complement mantissa `0xF9C`
with exponent `0`, and the decoder reads the mantissa field as unsigned: the round trip
yields the `float` nearest to `39.96` (`5237637 / 2 ^ 17`), which is not negative and not
within `2 ^ e / 100` of `-1`. -/
theorem floatToSfloat_negative_roundtrip :
    floatToSfloat (-1) = 0x0F9C ∧ sfloatToFloat (floatToSfloat (-1)) = 5237637 / 131072 ∧
      ¬ sfloatToFloat (floatToSfloat (-1)) < 0 ∧
      ¬ |sfloatToFloat (floatToSfloat (-1)) - (-1)|
          ≤ 2 ^ exponentField (floatToSfloat (-1)) / 100 := by
  have h : floatToSfloat (-1) = 0x0F9C := by
    unfold floatToSfloat
    have hs : floatScale (|(-1 : ℚ)| * PRECISION) 0 = (100, 0) := by
      rw [floatScale_of_le _ _ (by norm_num [PRECISION])]
      norm_num [PRECISION]
    have hr : cRound ((if (-1 : ℚ) > 0 then 1 else -1) * (100 : ℚ)) = -100 := by
      norm_num [cRound]
    simp only [hs, hr]
    decide
  have he : exponentField 0x0F9C = 0 := by
    rw [exponentField_eq]
  refine ⟨h, ?_, ?_, ?_⟩
  · rw [h, sfloatToFloat_3996]
  · rw [h, sfloatToFloat_3996]
    norm_num
  · rw [h, sfloatToFloat_3996, he]
    norm_num [abs_of_pos]

/-- The decoder `sfloatToFloat` never returns a negative value. -/
theorem sfloatToFloat_nonneg (rawData : ℕ) : 0 ≤ sfloatToFloat rawData := by
  unfold sfloatToFloat toFloat toDouble
  exact roundToPrecision_nonneg _ _ (roundToPrecision_nonneg _ _
    (mul_nonneg (roundToPrecision_nonneg _ _ (by positivity))
      (roundToPrecision_nonneg _ _ (by norm_num [PRECISION]))))

/-- C3 (as stated, refuted). The input `1342178` satisfies `100 * x > 0xFFF * 2 ^ 15`, both
as a float and as an integer, and needs sixteen halvings; the exponent field of both
encodings is `0`, not `15`. -/
theorem exponent_field_not_saturating :
    100 * (1342178 : ℚ) > 0xFFF * 2 ^ 15 ∧ exponentField (floatToSfloat 1342178) ≠ 15 ∧
      100 * (1342178 : ℤ) > 0xFFF * 2 ^ 15 ∧ exponentField (intToSfloat 1342178) ≠ 15 := by
  have hf : exponentField (floatToSfloat 1342178) = 16 % 16 := by
    refine (floatToSfloat_fields 1342178 (by norm_num) 16 (by norm_num) ?_).1
    intro j hj
    interval_cases j <;> norm_num
  have hi : intToSfloat 1342178 = 2048 := by
    rw [intToSfloat_value 1342178 (by norm_num) (by norm_num) 16 (by norm_num) ?_]
    · norm_num
      rfl
    · intro j hj
      interval_cases j <;> norm_num
  refine ⟨by norm_num, ?_, by norm_num, ?_⟩
  · rw [hf]
    decide
  · rw [hi]
    decide

/-- C3 (amended). The exponent field is the halving count reduced modulo 16.  For every `x`
with `100 * x > 0xFFF * 2 ^ 15` the scaling loop of `floatToSfloat` performs a least number
`k > 15` of halvings and the exponent field is `k % 16`; for every integer `n` with
`0xFFF * 2 ^ 15 < 100 * n ≤ INT_MAX` the loop of `intToSfloat` performs a least number
`k ≥ 15` of truncating halvings and the exponent field is `k % 16`. -/
theorem exponent_field_mod_sixteen (x : ℚ) (n : ℤ) (hx : 100 * x > 0xFFF * 2 ^ 15)
    (hn : 100 * n > 0xFFF * 2 ^ 15) (hmax : 100 * n ≤ 2147483647) :
    (∃ k : ℕ, 15 < k ∧ 100 * x / 2 ^ k ≤ 0xFFF ∧ (∀ j < k, 0xFFF < 100 * x / 2 ^ j) ∧
        exponentField (floatToSfloat x) = k % 16) ∧
      (∃ k : ℕ, 15 ≤ k ∧ 100 * n / 2 ^ k ≤ 0xFFF ∧ (∀ j < k, 0xFFF < 100 * n / 2 ^ j) ∧
        exponentField (intToSfloat n) = k % 16) := by
  constructor
  · have hx0 : 0 ≤ x := by
      norm_num at hx
      linarith
    obtain ⟨N, hN⟩ := exists_nat_gt (100 * x)
    have hN2 : (N : ℚ) < 2 ^ N := by exact_mod_cast Nat.lt_two_pow N
    have hb : 100 * x ≤ 4095 * 2 ^ N := by
      have hp : (0 : ℚ) < 2 ^ N := by positivity
      linarith
    obtain ⟨k, -, hk, hlt⟩ := exists_halvings N (100 * x) hb
    refine ⟨k, ?_, by simpa using hk, by simpa using hlt, (floatToSfloat_fields x hx0 k hk hlt).1⟩
    by_contra hcon
    have hk15 : k ≤ 15 := not_lt.mp hcon
    have hp : (0 : ℚ) < 2 ^ k := by positivity
    have h1 : 100 * x ≤ 4095 * 2 ^ k := by
      rwa [div_le_iff₀ hp] at hk
    have h2 : (2 : ℚ) ^ k ≤ 2 ^ 15 := pow_le_pow_right₀ (by norm_num) hk15
    norm_num at hx h2
    linarith
  · have hn0 : 0 ≤ n := by omega
    obtain ⟨k, -, hk, hlt⟩ := exists_halvings_int 20 (100 * n) (by omega) (by norm_num; omega)
    have hv := intToSfloat_value n hn0 hmax k hk hlt
    have hq0 : 0 ≤ 100 * n / 2 ^ k := Int.ediv_nonneg (by omega) (by positivity)
    refine ⟨k, ?_, by simpa using hk, by simpa using hlt, ?_⟩
    · by_contra hcon
      have hk14 : k ≤ 14 := by omega
      have hp : (0 : ℤ) < 2 ^ k := by positivity
      have h1 : 100 * n < 4096 * 2 ^ k := Int.lt_mul_of_ediv_lt hp (by omega)
      have h2 : (2 : ℤ) ^ k ≤ 2 ^ 14 := pow_le_pow_right₀ (by norm_num) hk14
      norm_num at hn h2
      omega
    · rw [exponentField_eq, hv]
      have hk16 : k % 16 < 16 := Nat.mod_lt _ (by norm_num)
      omega

theorem exponent_field_mod_sixteen_witness :
    (∃ k : ℕ, 15 < k ∧ 100 * (1342178 : ℚ) / 2 ^ k ≤ 0xFFF ∧
        (∀ j < k, 0xFFF < 100 * (1342178 : ℚ) / 2 ^ j) ∧
        exponentField (floatToSfloat 1342178) = k % 16) ∧
      (∃ k : ℕ, 15 ≤ k ∧ 100 * (1342178 : ℤ) / 2 ^ k ≤ 0xFFF ∧
        (∀ j < k, 0xFFF < 100 * (1342178 : ℤ) / 2 ^ j) ∧
        exponentField (intToSfloat 1342178) = k % 16) :=
  exponent_field_mod_sixteen 1342178 1342178 (by norm_num) (by norm_num) (by norm_num)


theorem floor_div_two_pow (a : ℤ) (j : ℕ) : ⌊(a : ℚ) / 2 ^ j⌋ = a / 2 ^ j := by
  have h := Rat.floor_intCast_div_natCast a (2 ^ j)
  push_cast at h
  exact h

/-- C4. For every integer `n ≥ 0` with `100 * n ≤ 0xFFF * 2 ^ 15`, `intToSfloat n` is
`(e << 12) | m` where `e` is the least natural number with `⌊100 * n / 2 ^ e⌋ ≤ 0xFFF` and
`m = ⌊100 * n / 2 ^ e⌋`; hence `0 ≤ n - m * 2 ^ e / 100 < 2 ^ e / 100`. -/
theorem intToSfloat_floor_division (n : ℤ) (h0 : 0 ≤ n) (h : 100 * n ≤ 0xFFF * 2 ^ 15) :
    ∃ e m : ℕ, ⌊(100 * n : ℚ) / 2 ^ e⌋ ≤ 0xFFF ∧
      (∀ j < e, 0xFFF < ⌊(100 * n : ℚ) / 2 ^ j⌋) ∧
      (m : ℤ) = ⌊(100 * n : ℚ) / 2 ^ e⌋ ∧
      intToSfloat n = (e <<< 12) ||| m ∧
      0 ≤ (n : ℚ) - m * 2 ^ e / 100 ∧ (n : ℚ) - m * 2 ^ e / 100 < 2 ^ e / 100 := by
  have hfl : ∀ j : ℕ, ⌊(100 * n : ℚ) / 2 ^ j⌋ = 100 * n / 2 ^ j := by
    intro j
    have h1 := floor_div_two_pow (100 * n) j
    push_cast at h1
    exact h1
  obtain ⟨k, hk15, hk, hlt⟩ := exists_halvings_int 15 (100 * n) (by omega) (by norm_num at h ⊢; omega)
  have hv := intToSfloat_value n h0 (by norm_num at h; omega) k hk hlt
  have hq0 : 0 ≤ 100 * n / 2 ^ k := Int.ediv_nonneg (by omega) (by positivity)
  have hp : (0 : ℤ) < 2 ^ k := by positivity
  have hlo : 100 * n / 2 ^ k * 2 ^ k ≤ 100 * n := Int.ediv_mul_le _ (ne_of_gt hp)
  have hhi : 100 * n < (100 * n / 2 ^ k + 1) * 2 ^ k := Int.lt_ediv_add_one_mul_self _ hp
  have hm : (((100 * n / 2 ^ k).toNat : ℕ) : ℤ) = 100 * n / 2 ^ k := Int.toNat_of_nonneg hq0
  refine ⟨k, (100 * n / 2 ^ k).toNat, ?_, ?_, ?_, ?_, ?_, ?_⟩
  · rw [hfl]
    simpa using hk
  · intro j hj
    rw [hfl]
    simpa using hlt j hj
  · rw [hfl, hm]
  · have hm12 : (100 * n / 2 ^ k).toNat < 2 ^ 12 := by
      norm_num
      omega
    rw [hv, Nat.mod_eq_of_lt (by omega), Nat.shiftLeft_eq, Nat.mul_comm k]
    exact Nat.mul_add_lt_is_or hm12 k
  · have hlo' : (((100 * n / 2 ^ k).toNat : ℕ) : ℚ) * 2 ^ k ≤ 100 * (n : ℚ) := by
      rw [← hm] at hlo
      exact_mod_cast hlo
    have : (((100 * n / 2 ^ k).toNat : ℕ) : ℚ) * 2 ^ k / 100 ≤ n := by
      rw [div_le_iff₀ (by norm_num)]
      linarith
    linarith
  · have hhi' : 100 * (n : ℚ) < ((((100 * n / 2 ^ k).toNat : ℕ) : ℚ) + 1) * 2 ^ k := by
      rw [← hm] at hhi
      exact_mod_cast hhi
    have : (n : ℚ) < ((((100 * n / 2 ^ k).toNat : ℕ) : ℚ) + 1) * 2 ^ k / 100 := by
      rw [lt_div_iff₀ (by norm_num)]
      linarith
    have e2 : ((((100 * n / 2 ^ k).toNat : ℕ) : ℚ) + 1) * 2 ^ k / 100
        = (((100 * n / 2 ^ k).toNat : ℕ) : ℚ) * 2 ^ k / 100 + 2 ^ k / 100 := by ring
    linarith

theorem intToSfloat_floor_division_witness :
    (0 : ℤ) ≤ 5000 ∧ 100 * (5000 : ℤ) ≤ 0xFFF * 2 ^ 15 ∧
      ∃ e m : ℕ, ⌊(100 * ((5000 : ℤ) : ℚ)) / 2 ^ e⌋ ≤ 0xFFF ∧
        (∀ j < e, 0xFFF < ⌊(100 * ((5000 : ℤ) : ℚ)) / 2 ^ j⌋) ∧
        (m : ℤ) = ⌊(100 * ((5000 : ℤ) : ℚ)) / 2 ^ e⌋ ∧
        intToSfloat 5000 = (e <<< 12) ||| m ∧
        0 ≤ ((5000 : ℤ) : ℚ) - m * 2 ^ e / 100 ∧
        ((5000 : ℤ) : ℚ) - m * 2 ^ e / 100 < 2 ^ e / 100 :=
  ⟨by norm_num, by norm_num, intToSfloat_floor_division 5000 (by norm_num) (by norm_num)⟩


/-! ## Theorems: endianness conversion -/

/-- The buffer after swapping the byte pairs that start at the even offsets from `i` up to
`len`. -/
theorem convertToLeLoop_even (fuel : ℕ) : ∀ (data : Bytes) (len i : ℕ), len < 256 →
    len % 2 = 0 → i % 2 = 0 → i ≤ len → (len - i) / 2 < fuel →
    ∃ out, convertToLeLoop fuel data len i = some out ∧
      ∀ j, out j = if i ≤ j ∧ j < len then (if j % 2 = 0 then data (j + 1) else data (j - 1))
        else data j := by
  induction fuel with
  | zero =>
    intro data len i _ _ _ _ hf
    exact absurd hf (Nat.not_lt_zero _)
  | succ fuel ih =>
    intro data len i hlen heven hi hle hf
    by_cases hlt : i < len
    · have hwrap : (i + 2) % 256 = i + 2 := Nat.mod_eq_of_lt (by omega)
      obtain ⟨out, hout, hspec⟩ := ih
        (Function.update (Function.update data i (data (i + 1))) (i + 1) (data i))
        len (i + 2) hlen heven (by omega) (by omega) (by omega)
      refine ⟨out, ?_, ?_⟩
      · rw [convertToLeLoop, if_pos hlt]
        simp only [hwrap]
        exact hout
      · intro j
        rw [hspec j]
        simp only [Function.update_apply]
        split_ifs <;> first | rfl | omega | (congr 1; omega)
    · refine ⟨data, ?_, ?_⟩
      · rw [convertToLeLoop, if_neg hlt]
      · intro j
        rw [if_neg (by omega)]

/-- C5. For every buffer and every even `len` (a `uint8_t`), `convertToLe` returns, given at
least `len / 2 + 1` loop iterations, a buffer in which each byte pair below `len` is swapped
and every byte at an index `≥ len` is unchanged. -/
theorem convertToLe_swaps_pairs (data : Bytes) (len : ℕ) (hlen : len < 256)
    (heven : len % 2 = 0) :
    ∃ out, (∀ fuel, len / 2 < fuel → convertToLe fuel data len = some out) ∧
      (∀ k, k < len / 2 → out (2 * k) = data (2 * k + 1) ∧ out (2 * k + 1) = data (2 * k)) ∧
      ∀ j, len ≤ j → out j = data j := by
  obtain ⟨out, hout, hspec⟩ :=
    convertToLeLoop_even (len / 2 + 1) data len 0 hlen heven rfl (Nat.zero_le _) (by omega)
  refine ⟨out, ?_, ?_, ?_⟩
  · intro fuel hf
    obtain ⟨out2, hout2, hspec2⟩ :=
      convertToLeLoop_even fuel data len 0 hlen heven rfl (Nat.zero_le _) (by omega)
    have : out2 = out := by
      funext j
      rw [hspec j, hspec2 j]
    rw [convertToLe, hout2, this]
  · intro k hk
    constructor
    · rw [hspec, if_pos (by omega), if_pos (by omega)]
    · rw [hspec, if_pos (by omega), if_neg (by omega)]
      congr 1
  · intro j hj
    rw [hspec, if_neg (by omega)]

theorem convertToLe_swaps_pairs_witness :
    (4 : ℕ) < 256 ∧ 4 % 2 = 0 ∧
      ∃ out, (∀ fuel, 4 / 2 < fuel → convertToLe fuel exampleBytes 4 = some out) ∧
        (∀ k, k < 4 / 2 → out (2 * k) = exampleBytes (2 * k + 1) ∧
          out (2 * k + 1) = exampleBytes (2 * k)) ∧
        ∀ j, 4 ≤ j → out j = exampleBytes j :=
  ⟨by decide, by decide, convertToLe_swaps_pairs exampleBytes 4 (by decide) (by decide)⟩


/-- The model of `convertToLe` run on a concrete buffer with `len = 4`. -/
theorem convertToLe_eval :
    (convertToLe 3 exampleBytes 4).map (fun f => [f 0, f 1, f 2, f 3, f 4])
      = some [11, 10, 13, 12, 14] := by
  decide

/-! ## Theorems: self-test aggregation -/

theorem and_two_pow_ne_zero_iff (n p : ℕ) : n &&& 2 ^ p ≠ 0 ↔ n.testBit p = true := by
  rw [Nat.and_two_pow]
  cases h : n.testBit p
  · simp
  · simp

theorem testBit_lt_of_lt_256 (n i : ℕ) (hn : n < 256) (h : n.testBit i = true) : i < 8 := by
  by_contra hcon
  have h1 : 2 ^ i ≤ n := Nat.testBit_implies_ge h
  have h2 : 2 ^ 8 ≤ 2 ^ i := Nat.pow_le_pow_right (by norm_num) (by omega)
  omega

theorem testStep_calls (run : SelfTest → Bool) (testMap mask : ℕ) (test : SelfTest)
    (s : SensorState) :
    (testStep run testMap mask test s).calls
      = s.calls ++ (if testMap &&& mask ≠ 0 then [test] else []) := by
  unfold testStep
  by_cases h : testMap &&& mask ≠ 0
  · by_cases hr : run test = true <;> simp [h, hr]
  · simp [h]

theorem testStep_testBit (run : SelfTest → Bool) (testMap p : ℕ) (test : SelfTest)
    (s : SensorState) (htm : testMap < 256) (hs : s.selfTestResult < 256) :
    (testStep run testMap (2 ^ p) test s).selfTestResult < 256 ∧
      ∀ i, (testStep run testMap (2 ^ p) test s).selfTestResult.testBit i
        = (s.selfTestResult.testBit i || (testMap.testBit p && run test && decide (p = i))) := by
  unfold testStep
  by_cases h : testMap &&& 2 ^ p ≠ 0
  · have hb : testMap.testBit p = true := (and_two_pow_ne_zero_iff _ _).mp h
    have hp8 : p < 8 := testBit_lt_of_lt_256 _ _ htm hb
    by_cases hr : run test = true
    · rw [if_pos h]
      simp only [hr, if_true, hb]
      refine ⟨Nat.mod_lt _ (by norm_num : 0 < 256), ?_⟩
      intro i
      have h256 : (256 : ℕ) = 2 ^ 8 := by norm_num
      rw [h256, Nat.testBit_mod_two_pow, Nat.testBit_or, Nat.testBit_two_pow]
      by_cases hi : i < 8
      · simp [hi]
      · have h1 : s.selfTestResult.testBit i = false := by
          by_contra hcon
          exact hi (testBit_lt_of_lt_256 _ _ hs (by simpa using hcon))
        have h2 : ¬ p = i := by omega
        simp [hi, h1, h2]
    · simp [h, hr, hs]
  · have hb : testMap.testBit p = false := by
      by_contra hcon
      exact h ((and_two_pow_ne_zero_iff _ _).mpr (by simpa using hcon))
    simp [h, hb, hs]


/-- Bit `i` of the result of `sensorTestExecute` when the masks are distinct single bits. -/
theorem sensorTestExecute_testBit (M : SensorMasks) (pos : Fin 7 → ℕ)
    (hM : M.DistinctBits pos) (cc2650st_0120 : Bool) (run : SelfTest → Bool) (testMap : ℕ)
    (htm : testMap < 256) (s : SensorState) (i : ℕ) :
    (sensorTestExecute M cc2650st_0120 run testMap s).1.testBit i
      = ((testMap.testBit (pos 0) && run SelfTest.sensorTmp007Test && decide (pos 0 = i))
        || (testMap.testBit (pos 1) && run (humidityTest cc2650st_0120) && decide (pos 1 = i))
        || (testMap.testBit (pos 2) && run SelfTest.sensorBmp280Test && decide (pos 2 = i))
        || (testMap.testBit (pos 3) && run SelfTest.sensorOpt3001Test && decide (pos 3 = i))
        || (testMap.testBit (pos 4) && run SelfTest.sensorMpu9250Test && decide (pos 4 = i))
        || (testMap.testBit (pos 5) && run SelfTest.sensorMpu9250MagTest && decide (pos 5 = i))
        || (testMap.testBit (pos 6) && run SelfTest.extFlashTest && decide (pos 6 = i))) := by
  obtain ⟨-, h0, h1, h2, h3, h4, h5, h6⟩ := hM
  unfold sensorTestExecute
  simp only [h0, h1, h2, h3, h4, h5, h6]
  have hz : ({ s with selfTestResult := 0 } : SensorState).selfTestResult < 256 := by
    simp
  obtain ⟨b1, e1⟩ := testStep_testBit run testMap (pos 0) SelfTest.sensorTmp007Test _ htm hz
  obtain ⟨b2, e2⟩ := testStep_testBit run testMap (pos 1) (humidityTest cc2650st_0120) _ htm b1
  obtain ⟨b3, e3⟩ := testStep_testBit run testMap (pos 2) SelfTest.sensorBmp280Test _ htm b2
  obtain ⟨b4, e4⟩ := testStep_testBit run testMap (pos 3) SelfTest.sensorOpt3001Test _ htm b3
  obtain ⟨b5, e5⟩ := testStep_testBit run testMap (pos 4) SelfTest.sensorMpu9250Test _ htm b4
  obtain ⟨b6, e6⟩ := testStep_testBit run testMap (pos 5) SelfTest.sensorMpu9250MagTest _ htm b5
  obtain ⟨-, e7⟩ := testStep_testBit run testMap (pos 6) SelfTest.extFlashTest _ htm b6
  rw [e7, e6, e5, e4, e3, e2, e1]
  simp

/-- C6. With the seven masks distinct single bits, each sensor bit is set in the result of
`sensorTestExecute` iff it is set in `testMap` and that sensor's self test returned true;
the result has no bit outside `testMap`. -/
theorem sensorTestExecute_result_bits (M : SensorMasks) (pos : Fin 7 → ℕ)
    (hM : M.DistinctBits pos) (cc2650st_0120 : Bool) (run : SelfTest → Bool) (testMap : ℕ)
    (htm : testMap < 256) (s : SensorState) :
    ((sensorTestExecute M cc2650st_0120 run testMap s).1 &&& M.ST_IRTEMP ≠ 0 ↔
        (testMap &&& M.ST_IRTEMP ≠ 0 ∧ run SelfTest.sensorTmp007Test = true)) ∧
      ((sensorTestExecute M cc2650st_0120 run testMap s).1 &&& M.ST_HUMIDITY ≠ 0 ↔
        (testMap &&& M.ST_HUMIDITY ≠ 0 ∧ run (humidityTest cc2650st_0120) = true)) ∧
      ((sensorTestExecute M cc2650st_0120 run testMap s).1 &&& M.ST_PRESSURE ≠ 0 ↔
        (testMap &&& M.ST_PRESSURE ≠ 0 ∧ run SelfTest.sensorBmp280Test = true)) ∧
      ((sensorTestExecute M cc2650st_0120 run testMap s).1 &&& M.ST_LIGHT ≠ 0 ↔
        (testMap &&& M.ST_LIGHT ≠ 0 ∧ run SelfTest.sensorOpt3001Test = true)) ∧
      ((sensorTestExecute M cc2650st_0120 run testMap s).1 &&& M.ST_MPU ≠ 0 ↔
        (testMap &&& M.ST_MPU ≠ 0 ∧ run SelfTest.sensorMpu9250Test = true)) ∧
      ((sensorTestExecute M cc2650st_0120 run testMap s).1 &&& M.ST_MAG ≠ 0 ↔
        (testMap &&& M.ST_MAG ≠ 0 ∧ run SelfTest.sensorMpu9250MagTest = true)) ∧
      ((sensorTestExecute M cc2650st_0120 run testMap s).1 &&& M.ST_FLASH ≠ 0 ↔
        (testMap &&& M.ST_FLASH ≠ 0 ∧ run SelfTest.extFlashTest = true)) ∧
      (sensorTestExecute M cc2650st_0120 run testMap s).1 &&& testMap
        = (sensorTestExecute M cc2650st_0120 run testMap s).1 := by
  have hbit := sensorTestExecute_testBit M pos hM cc2650st_0120 run testMap htm s
  obtain ⟨hinj, h0, h1, h2, h3, h4, h5, h6⟩ := hM
  have hne : ∀ a b : Fin 7, a ≠ b → ¬ pos a = pos b := fun a b hab h => hab (hinj h)
  rw [h0, h1, h2, h3, h4, h5, h6]
  simp only [and_two_pow_ne_zero_iff, hbit]
  refine ⟨?_, ?_, ?_, ?_, ?_, ?_, ?_, ?_⟩
  · simp [hne 1 0 (by decide), hne 2 0 (by decide), hne 3 0 (by decide), hne 4 0 (by decide),
      hne 5 0 (by decide), hne 6 0 (by decide)]
  · simp [hne 0 1 (by decide), hne 2 1 (by decide), hne 3 1 (by decide), hne 4 1 (by decide),
      hne 5 1 (by decide), hne 6 1 (by decide)]
  · simp [hne 0 2 (by decide), hne 1 2 (by decide), hne 3 2 (by decide), hne 4 2 (by decide),
      hne 5 2 (by decide), hne 6 2 (by decide)]
  · simp [hne 0 3 (by decide), hne 1 3 (by decide), hne 2 3 (by decide), hne 4 3 (by decide),
      hne 5 3 (by decide), hne 6 3 (by decide)]
  · simp [hne 0 4 (by decide), hne 1 4 (by decide), hne 2 4 (by decide), hne 3 4 (by decide),
      hne 5 4 (by decide), hne 6 4 (by decide)]
  · simp [hne 0 5 (by decide), hne 1 5 (by decide), hne 2 5 (by decide), hne 3 5 (by decide),
      hne 4 5 (by decide), hne 6 5 (by decide)]
  · simp [hne 0 6 (by decide), hne 1 6 (by decide), hne 2 6 (by decide), hne 3 6 (by decide),
      hne 4 6 (by decide), hne 5 6 (by decide)]
  · apply Nat.eq_of_testBit_eq
    intro i
    rw [Nat.testBit_and]
    cases hr : (sensorTestExecute M cc2650st_0120 run testMap s).1.testBit i
    · simp
    · rw [hbit] at hr
      simp only [Bool.or_eq_true, Bool.and_eq_true, decide_eq_true_eq] at hr
      have ht : testMap.testBit i = true := by
        rcases hr with ((((((h | h) | h) | h) | h) | h) | h) <;>
          (obtain ⟨⟨hb, -⟩, e⟩ := h; rw [← e]; exact hb)
      simp [ht]


theorem exampleMasks_distinctBits : exampleMasks.DistinctBits (fun i => (i : ℕ)) := by
  refine ⟨Fin.val_injective, ?_, ?_, ?_, ?_, ?_, ?_, ?_⟩ <;> rfl

/-- The model of `sensorTestExecute` run on a concrete input: IR temperature, humidity,
pressure and flash selected, the pressure test failing, stale bits in the stored result. -/
theorem sensorTestExecute_eval :
    sensorTestExecute exampleMasks true exampleRun 0x47 exampleSensorState
      = (0x43, { selfTestResult := 0x43, calls := [SelfTest.sensorTmp007Test,
          SelfTest.sensorHdc1000Test, SelfTest.sensorBmp280Test, SelfTest.extFlashTest] }) := by
  decide

theorem sensorTestExecute_result_bits_witness :
    exampleMasks.DistinctBits (fun i => (i : ℕ)) ∧ (0x47 : ℕ) < 256 ∧
      (((sensorTestExecute exampleMasks true exampleRun 0x47 exampleSensorState).1 &&& exampleMasks.ST_IRTEMP ≠ 0 ↔
        (0x47 &&& exampleMasks.ST_IRTEMP ≠ 0 ∧ exampleRun SelfTest.sensorTmp007Test = true)) ∧
      ((sensorTestExecute exampleMasks true exampleRun 0x47 exampleSensorState).1 &&& exampleMasks.ST_HUMIDITY ≠ 0 ↔
        (0x47 &&& exampleMasks.ST_HUMIDITY ≠ 0 ∧ exampleRun (humidityTest true) = true)) ∧
      ((sensorTestExecute exampleMasks true exampleRun 0x47 exampleSensorState).1 &&& exampleMasks.ST_PRESSURE ≠ 0 ↔
        (0x47 &&& exampleMasks.ST_PRESSURE ≠ 0 ∧ exampleRun SelfTest.sensorBmp280Test = true)) ∧
      ((sensorTestExecute exampleMasks true exampleRun 0x47 exampleSensorState).1 &&& exampleMasks.ST_LIGHT ≠ 0 ↔
        (0x47 &&& exampleMasks.ST_LIGHT ≠ 0 ∧ exampleRun SelfTest.sensorOpt3001Test = true)) ∧
      ((sensorTestExecute exampleMasks true exampleRun 0x47 exampleSensorState).1 &&& exampleMasks.ST_MPU ≠ 0 ↔
        (0x47 &&& exampleMasks.ST_MPU ≠ 0 ∧ exampleRun SelfTest.sensorMpu9250Test = true)) ∧
      ((sensorTestExecute exampleMasks true exampleRun 0x47 exampleSensorState).1 &&& exampleMasks.ST_MAG ≠ 0 ↔
        (0x47 &&& exampleMasks.ST_MAG ≠ 0 ∧ exampleRun SelfTest.sensorMpu9250MagTest = true)) ∧
      ((sensorTestExecute exampleMasks true exampleRun 0x47 exampleSensorState).1 &&& exampleMasks.ST_FLASH ≠ 0 ↔
        (0x47 &&& exampleMasks.ST_FLASH ≠ 0 ∧ exampleRun SelfTest.extFlashTest = true)) ∧
      (sensorTestExecute exampleMasks true exampleRun 0x47 exampleSensorState).1 &&& 0x47
        = (sensorTestExecute exampleMasks true exampleRun 0x47 exampleSensorState).1) :=
  ⟨exampleMasks_distinctBits, by decide,
    sensorTestExecute_result_bits exampleMasks (fun i => (i : ℕ)) exampleMasks_distinctBits true
      exampleRun 0x47 (by decide) exampleSensorState⟩

/-- C7. `sensorTestExecute` calls exactly the self tests selected by `testMap`, each once, in
the order IR temperature, humidity, pressure, light, MPU, magnetometer, flash, whatever the
outcomes of the tests are. -/
theorem sensorTestExecute_calls (M : SensorMasks) (cc2650st_0120 : Bool)
    (run : SelfTest → Bool) (testMap : ℕ) (s : SensorState) :
    (sensorTestExecute M cc2650st_0120 run testMap s).2.calls
      = s.calls ++ (testOrder cc2650st_0120).filter (fun t => testMap &&& M.maskOf t ≠ 0) := by
  have key : ∀ h : SelfTest, M.maskOf h = M.ST_HUMIDITY →
      (testStep run testMap M.ST_FLASH SelfTest.extFlashTest
        (testStep run testMap M.ST_MAG SelfTest.sensorMpu9250MagTest
          (testStep run testMap M.ST_MPU SelfTest.sensorMpu9250Test
            (testStep run testMap M.ST_LIGHT SelfTest.sensorOpt3001Test
              (testStep run testMap M.ST_PRESSURE SelfTest.sensorBmp280Test
                (testStep run testMap M.ST_HUMIDITY h
                  (testStep run testMap M.ST_IRTEMP SelfTest.sensorTmp007Test
                    { s with selfTestResult := 0 }))))))).calls
        = s.calls ++ [SelfTest.sensorTmp007Test, h, SelfTest.sensorBmp280Test,
            SelfTest.sensorOpt3001Test, SelfTest.sensorMpu9250Test,
            SelfTest.sensorMpu9250MagTest, SelfTest.extFlashTest].filter
              (fun t => testMap &&& M.maskOf t ≠ 0) := by
    intro h hh
    have m0 : M.maskOf SelfTest.sensorTmp007Test = M.ST_IRTEMP := rfl
    have m2 : M.maskOf SelfTest.sensorBmp280Test = M.ST_PRESSURE := rfl
    have m3 : M.maskOf SelfTest.sensorOpt3001Test = M.ST_LIGHT := rfl
    have m4 : M.maskOf SelfTest.sensorMpu9250Test = M.ST_MPU := rfl
    have m5 : M.maskOf SelfTest.sensorMpu9250MagTest = M.ST_MAG := rfl
    have m6 : M.maskOf SelfTest.extFlashTest = M.ST_FLASH := rfl
    simp only [testStep_calls, List.filter_cons, List.filter_nil, hh, m0, m2, m3, m4, m5, m6]
    by_cases c0 : testMap &&& M.ST_IRTEMP ≠ 0 <;>
      by_cases c1 : testMap &&& M.ST_HUMIDITY ≠ 0 <;>
      by_cases c2 : testMap &&& M.ST_PRESSURE ≠ 0 <;>
      by_cases c3 : testMap &&& M.ST_LIGHT ≠ 0 <;>
      by_cases c4 : testMap &&& M.ST_MPU ≠ 0 <;>
      by_cases c5 : testMap &&& M.ST_MAG ≠ 0 <;>
      by_cases c6 : testMap &&& M.ST_FLASH ≠ 0 <;>
      simp [c0, c1, c2, c3, c4, c5, c6]
  have hh : M.maskOf (humidityTest cc2650st_0120) = M.ST_HUMIDITY := by
    cases cc2650st_0120 <;> rfl
  exact key (humidityTest cc2650st_0120) hh

theorem afterQueries_eq (n : ℕ) (s : SensorState) : afterQueries n s = s := by
  induction n with
  | zero => rfl
  | succ n ih => exact ih

theorem testStep_result_congr (run : SelfTest → Bool) (testMap mask : ℕ) (test : SelfTest)
    (s t : SensorState) (h : s.selfTestResult = t.selfTestResult) :
    (testStep run testMap mask test s).selfTestResult
      = (testStep run testMap mask test t).selfTestResult := by
  unfold testStep
  by_cases c : testMap &&& mask ≠ 0
  · by_cases hr : run test = true <;> simp [c, hr, h]
  · simp [c, h]

/-- C8. After `sensorTestExecute` has returned `r`, every following call of
`sensorTestResult` returns `r` (and leaves the state as it is); and `r` is the same
whatever the stored result and call record were on entry. -/
theorem sensorTestResult_cached (M : SensorMasks) (cc2650st_0120 : Bool)
    (run : SelfTest → Bool) (testMap : ℕ) (s s' : SensorState) (n : ℕ) :
    (sensorTestResult (afterQueries n (sensorTestExecute M cc2650st_0120 run testMap s).2)).1
        = (sensorTestExecute M cc2650st_0120 run testMap s).1 ∧
      (sensorTestExecute M cc2650st_0120 run testMap s').1
        = (sensorTestExecute M cc2650st_0120 run testMap s).1 := by
  constructor
  · rw [afterQueries_eq]
    rfl
  · unfold sensorTestExecute
    simp only
    repeat apply testStep_result_congr
    rfl


/-! ## Theorems: I2C bus arbiter -/

/-- The model of `bspI2cSelect` run on a concrete input: interface 1 selected after
interface 0 was last used. -/
theorem bspI2cSelect_eval :
    bspI2cSelect exampleOpen 1 0x44 exampleBus =
      (true,
        { slaveAddr := 0x44, interface := 1, i2cHandle := some 2,
          i2cParams := { bitRate := I2C_BitRate.I2C_100kHz, custom := some PinCfg.pinCfg1 },
          mutex := 0,
          driverCalls := [DriverCall.I2C_close (some 1),
            DriverCall.I2C_open
              { bitRate := I2C_BitRate.I2C_100kHz, custom := some PinCfg.pinCfg1 }] }) := by
  decide

/-- C9. If the pend inside `bspI2cSelect` times out, `bspI2cSelect` returns false and the
whole state (slave address, interface, transport handle and parameters, record of driver
calls) is unchanged, so no close or open of the transport takes place. -/
theorem bspI2cSelect_timeout (I2C_open : I2C_Params → Option ℕ) (newInterface address : ℕ)
    (s : BspI2c) (h : (Semaphore_pend s.mutex).1 = false) :
    bspI2cSelect I2C_open newInterface address s = (false, s) := by
  unfold bspI2cSelect
  rw [if_pos h]

theorem bspI2cSelect_timeout_witness :
    (Semaphore_pend (bspI2cSelect exampleOpen 1 0x44 exampleBus).2.mutex).1 = false ∧
      bspI2cSelect exampleOpen 0 0x40 (bspI2cSelect exampleOpen 1 0x44 exampleBus).2
        = (false, (bspI2cSelect exampleOpen 1 0x44 exampleBus).2) :=
  ⟨by decide, bspI2cSelect_timeout exampleOpen 0 0x40 _ (by decide)⟩

/-- C10. If the pend succeeds, `bspI2cSelect i a` returns true with `slaveAddr = a` and
`interface = i`.  When `i` differs from the recorded interface it closes the transport once
and then opens it once, with the interface-1 pin mapping iff `i = BSP_I2C_INTERFACE_1`, and
stores the handle returned by the open; when `i` equals the recorded interface it makes no
driver call and keeps handle and parameters. -/
theorem bspI2cSelect_success (I2C_open : I2C_Params → Option ℕ) (i a : ℕ) (s : BspI2c)
    (h : (Semaphore_pend s.mutex).1 = true) :
    (bspI2cSelect I2C_open i a s).1 = true ∧
      (bspI2cSelect I2C_open i a s).2.slaveAddr = a ∧
      (bspI2cSelect I2C_open i a s).2.interface = i ∧
      (i ≠ s.interface →
        (bspI2cSelect I2C_open i a s).2.driverCalls = s.driverCalls ++
            [DriverCall.I2C_close s.i2cHandle, DriverCall.I2C_open (reconfigParams i)] ∧
          (bspI2cSelect I2C_open i a s).2.i2cParams = reconfigParams i ∧
          (bspI2cSelect I2C_open i a s).2.i2cHandle = I2C_open (reconfigParams i)) ∧
      (i = s.interface →
        (bspI2cSelect I2C_open i a s).2.driverCalls = s.driverCalls ∧
          (bspI2cSelect I2C_open i a s).2.i2cParams = s.i2cParams ∧
          (bspI2cSelect I2C_open i a s).2.i2cHandle = s.i2cHandle) := by
  have h1 : ¬ (Semaphore_pend s.mutex).1 = false := by simp [h]
  unfold bspI2cSelect
  rw [if_neg h1]
  by_cases hi : i = s.interface
  · simp [hi]
  · by_cases h2 : i = BSP_I2C_INTERFACE_1
    · subst h2
      simp [hi, reconfigParams, I2C_Params_init]
    · simp [hi, h2, reconfigParams, I2C_Params_init]

/-- C10 (instance). Selecting interface 1 after interface 0 was last used: one close followed
by one open with the interface-1 pin mapping. -/
theorem bspI2cSelect_success_witness :
    (Semaphore_pend exampleBus.mutex).1 = true ∧
      ((bspI2cSelect exampleOpen 1 0x44 exampleBus).1 = true ∧
      (bspI2cSelect exampleOpen 1 0x44 exampleBus).2.slaveAddr = 0x44 ∧
      (bspI2cSelect exampleOpen 1 0x44 exampleBus).2.interface = 1 ∧
      (1 ≠ exampleBus.interface →
        (bspI2cSelect exampleOpen 1 0x44 exampleBus).2.driverCalls = exampleBus.driverCalls ++
            [DriverCall.I2C_close exampleBus.i2cHandle, DriverCall.I2C_open (reconfigParams 1)] ∧
          (bspI2cSelect exampleOpen 1 0x44 exampleBus).2.i2cParams = reconfigParams 1 ∧
          (bspI2cSelect exampleOpen 1 0x44 exampleBus).2.i2cHandle
            = exampleOpen (reconfigParams 1)) ∧
      (1 = exampleBus.interface →
        (bspI2cSelect exampleOpen 1 0x44 exampleBus).2.driverCalls = exampleBus.driverCalls ∧
          (bspI2cSelect exampleOpen 1 0x44 exampleBus).2.i2cParams = exampleBus.i2cParams ∧
          (bspI2cSelect exampleOpen 1 0x44 exampleBus).2.i2cHandle = exampleBus.i2cHandle)) :=
  ⟨by decide, bspI2cSelect_success exampleOpen 1 0x44 exampleBus (by decide)⟩

/-! ## Theorems: bus initialisation and mutual exclusion -/

/-- C14. `bspI2cInit` ends the calling task iff `I2C_open` returns `NULL`; when the open
succeeds it returns with `slaveAddr = 0xFF`, `interface = BSP_I2C_INTERFACE_0` and the
mutex count 1. -/
theorem bspI2cInit_outcome (I2C_open : I2C_Params → Option ℕ) (s : BspI2c) :
    ((∃ s', bspI2cInit I2C_open s = CallEnd.taskExit s') ↔ I2C_open initParams = none) ∧
      (I2C_open initParams ≠ none →
        ∃ s', bspI2cInit I2C_open s = CallEnd.returned s' ∧ s'.slaveAddr = 0xFF ∧
          s'.interface = BSP_I2C_INTERFACE_0 ∧ s'.mutex = 1 ∧
          s'.i2cHandle = I2C_open initParams) := by
  unfold bspI2cInit initParams I2C_Params_init
  by_cases h : I2C_open { bitRate := I2C_BitRate.I2C_400kHz, custom := none } = none
  · simp [h]
  · simp [h]

/-- The model of `bspI2cInit` run with a driver whose open succeeds and with one whose open
fails. -/
theorem bspI2cInit_eval :
    bspI2cInit exampleOpen exampleBus = CallEnd.returned
        { exampleBus with
          i2cHandle := some 2
          driverCalls := [DriverCall.I2C_open initParams] } ∧
      bspI2cInit (fun _ => none) exampleBus = CallEnd.taskExit
        { exampleBus with
          i2cHandle := none
          driverCalls := [DriverCall.I2C_open initParams] } := by
  decide

/-- The two ways `bspI2cSelect` ends: the pend times out and nothing changes, or the pend
succeeds, the call returns true and the count is the one the pend leaves. -/
theorem bspI2cSelect_cases (I2C_open : I2C_Params → Option ℕ) (i a : ℕ) (s : BspI2c) :
    (s.mutex = 0 ∧ bspI2cSelect I2C_open i a s = (false, s)) ∨
      (s.mutex ≠ 0 ∧ (bspI2cSelect I2C_open i a s).1 = true ∧
        (bspI2cSelect I2C_open i a s).2.mutex = s.mutex - 1) := by
  by_cases hm : s.mutex = 0
  · left
    refine ⟨hm, ?_⟩
    unfold bspI2cSelect
    rw [if_pos (by simp [Semaphore_pend, hm])]
  · right
    refine ⟨hm, ?_⟩
    have hp : ¬ (Semaphore_pend s.mutex).1 = false := by simp [Semaphore_pend, hm]
    unfold bspI2cSelect
    rw [if_neg hp]
    by_cases hi : i = s.interface
    · simp [hi, Semaphore_pend, hm]
    · by_cases h1 : i = BSP_I2C_INTERFACE_1
      · subst h1
        simp [hi, Semaphore_pend, hm]
      · simp [hi, h1, Semaphore_pend, hm]

/-- The invariant behind mutual exclusion: the semaphore count plus the number of holders
is one. -/
theorem busStep_invariant (I2C_open : I2C_Params → Option ℕ) (sys : BusSys) (e : BusEvent)
    (hinv : sys.bus.mutex + sys.holders = 1)
    (hd : ∀ c, e = BusEvent.deselect c → sys.holds c = true) :
    (busStep I2C_open sys e).bus.mutex + (busStep I2C_open sys e).holders = 1 := by
  obtain ⟨bus, h0, h1⟩ := sys
  cases e with
  | select c i a =>
    rcases bspI2cSelect_cases I2C_open i a bus with ⟨_, hsel⟩ | ⟨hm, hfst, hmut⟩
    · simp only [busStep, hsel]
      simpa using hinv
    · have hm1 : bus.mutex = 1 := by
        simp only [BusSys.holders] at hinv
        omega
      have hh : h0 = false ∧ h1 = false := by
        simp only [BusSys.holders, hm1] at hinv
        cases h0 <;> cases h1 <;> simp_all
      obtain ⟨rfl, rfl⟩ := hh
      rw [hm1] at hmut
      simp only [busStep, hfst, if_true, BusSys.setHolds]
      by_cases hc : c = 0 <;> simp [hc, BusSys.holders, hmut]
  | deselect c =>
    have hc := hd c rfl
    simp only [busStep, BusSys.setHolds, bspI2cDeselect, Semaphore_post]
    by_cases hc0 : c = 0
    · simp only [hc0, BusSys.holds, if_true] at hc
      simp only [hc0, if_true, BusSys.holders]
      simp only [BusSys.holders, hc] at hinv
      cases h1 <;> simp_all
    · simp only [hc0, BusSys.holds, if_false] at hc
      simp only [hc0, if_false, BusSys.holders]
      simp only [BusSys.holders, hc] at hinv
      cases h0 <;> simp_all

theorem busRun_append (I2C_open : I2C_Params → Option ℕ) (pre post : List BusEvent) :
    ∀ sys, busRun I2C_open sys (pre ++ post) = busRun I2C_open (busRun I2C_open sys pre) post := by
  induction pre with
  | nil => intro sys; rfl
  | cons e rest ih => intro sys; exact ih (busStep I2C_open sys e)

theorem busRun_invariant (I2C_open : I2C_Params → Option ℕ) (pre post : List BusEvent) :
    ∀ sys, sys.bus.mutex + sys.holders = 1 → Disciplined I2C_open sys (pre ++ post) = true →
      (busRun I2C_open sys pre).bus.mutex + (busRun I2C_open sys pre).holders = 1 := by
  induction pre with
  | nil => intro sys hinv _; exact hinv
  | cons e rest ih =>
    intro sys hinv hd
    cases e with
    | select c i a =>
      exact ih _ (busStep_invariant I2C_open sys _ hinv (fun c h => by cases h)) hd
    | deselect c =>
      simp only [List.cons_append, Disciplined, Bool.and_eq_true] at hd
      obtain ⟨hc, hrest⟩ := hd
      refine ih _ (busStep_invariant I2C_open sys _ hinv ?_) hrest
      intro c' h
      cases h
      exact hc

/-- C11 (as stated, refuted). Context 0 acquires the bus, context 1 calls `bspI2cDeselect`
without holding it and then acquires the bus as well: both contexts hold the bus, and the
second `bspI2cSelect` succeeded although the first holder never released. -/
theorem bus_exclusion_needs_discipline :
    (busRun exampleOpen (busStart exampleBus)
        [BusEvent.select 0 0 0x43, BusEvent.deselect 1, BusEvent.select 1 0 0x45]).holds0 = true ∧
      (busRun exampleOpen (busStart exampleBus)
        [BusEvent.select 0 0 0x43, BusEvent.deselect 1, BusEvent.select 1 0 0x45]).holds1 = true ∧
      (bspI2cSelect exampleOpen 0 0x45
        (busRun exampleOpen (busStart exampleBus)
          [BusEvent.select 0 0 0x43, BusEvent.deselect 1]).bus).1 = true := by
  decide

/-- C11 (amended). Start right after `bspI2cInit` (count 1, nobody holds the bus) and take
any interleaving of `bspI2cSelect` and `bspI2cDeselect` calls of two contexts in which a
context calls `bspI2cDeselect` only while it holds the bus.  Then at every point of the
interleaving at most one context holds the bus, the count is at most 1 and is 0 while the
bus is held, and while the bus is held every `bspI2cSelect` fails. -/
theorem bus_mutual_exclusion (I2C_open : I2C_Params → Option ℕ) (bus : BspI2c)
    (pre post : List BusEvent) (hinit : bus.mutex = 1)
    (hd : Disciplined I2C_open (busStart bus) (pre ++ post) = true) :
    ¬ ((busRun I2C_open (busStart bus) pre).holds0 = true ∧
        (busRun I2C_open (busStart bus) pre).holds1 = true) ∧
      (busRun I2C_open (busStart bus) pre).bus.mutex ≤ 1 ∧
      (∀ c, (busRun I2C_open (busStart bus) pre).holds c = true →
        (busRun I2C_open (busStart bus) pre).bus.mutex = 0 ∧
        ∀ i a, (bspI2cSelect I2C_open i a (busRun I2C_open (busStart bus) pre).bus).1
          = false) := by
  have hinv := busRun_invariant I2C_open pre post (busStart bus)
    (by simp [busStart, BusSys.holders, hinit]) hd
  generalize busRun I2C_open (busStart bus) pre = sys at hinv
  obtain ⟨b, h0, h1⟩ := sys
  simp only [BusSys.holders] at hinv
  refine ⟨?_, ?_, ?_⟩
  · rintro ⟨rfl, rfl⟩
    simp at hinv
  · simp only
    omega
  · intro c hc
    have hm : b.mutex = 0 := by
      by_cases hc0 : c = 0
      · simp only [BusSys.holds, hc0, if_true] at hc
        simp only [hc, if_true] at hinv
        omega
      · simp only [BusSys.holds, hc0, if_false] at hc
        simp only [hc, if_true] at hinv
        omega
    refine ⟨hm, fun i a => ?_⟩
    rcases bspI2cSelect_cases I2C_open i a b with ⟨_, hsel⟩ | ⟨hne, _, _⟩
    · rw [hsel]
    · exact absurd hm hne

theorem bus_mutual_exclusion_witness :
    exampleBus.mutex = 1 ∧
      Disciplined exampleOpen (busStart exampleBus)
        ([BusEvent.select 0 0 0x43, BusEvent.select 1 0 0x45]
          ++ [BusEvent.deselect 0, BusEvent.select 1 0 0x45]) = true ∧
      (¬ ((busRun exampleOpen (busStart exampleBus)
            [BusEvent.select 0 0 0x43, BusEvent.select 1 0 0x45]).holds0 = true ∧
          (busRun exampleOpen (busStart exampleBus)
            [BusEvent.select 0 0 0x43, BusEvent.select 1 0 0x45]).holds1 = true) ∧
        (busRun exampleOpen (busStart exampleBus)
          [BusEvent.select 0 0 0x43, BusEvent.select 1 0 0x45]).bus.mutex ≤ 1 ∧
        (∀ c, (busRun exampleOpen (busStart exampleBus)
            [BusEvent.select 0 0 0x43, BusEvent.select 1 0 0x45]).holds c = true →
          (busRun exampleOpen (busStart exampleBus)
            [BusEvent.select 0 0 0x43, BusEvent.select 1 0 0x45]).bus.mutex = 0 ∧
          ∀ i a, (bspI2cSelect exampleOpen i a (busRun exampleOpen (busStart exampleBus)
            [BusEvent.select 0 0 0x43, BusEvent.select 1 0 0x45]).bus).1 = false)) :=
  ⟨by decide, by decide,
    bus_mutual_exclusion exampleOpen exampleBus
      [BusEvent.select 0 0 0x43, BusEvent.select 1 0 0x45]
      [BusEvent.deselect 0, BusEvent.select 1 0 0x45] (by decide) (by decide)⟩

/-! ## Theorems: application task -/

theorem msgCalls_append (a b : List AppCall) : msgCalls (a ++ b) = msgCalls a ++ msgCalls b := by
  unfold msgCalls
  exact List.filter_append a b

/-- `SensorTag_processStateChangeEvt` leaves the queue and the event flags alone and makes
no call of `SensorTag_processAppMsg` or `ICall_free`. -/
theorem processStateChangeEvt_frame (C : AppCfg) (newState : ℕ) (s : AppState) :
    (SensorTag_processStateChangeEvt C newState s).appMsgQueue = s.appMsgQueue ∧
      (SensorTag_processStateChangeEvt C newState s).events = s.events ∧
      msgCalls (SensorTag_processStateChangeEvt C newState s).calls = msgCalls s.calls := by
  unfold SensorTag_processStateChangeEvt
  simp only [AppState.call, Util_startClock_periodicClock]
  split_ifs <;> simp [msgCalls]

theorem processAppMsg_frame (C : AppCfg) (pMsg : stEvt_t) (s : AppState) :
    (SensorTag_processAppMsg C pMsg s).appMsgQueue = s.appMsgQueue ∧
      (SensorTag_processAppMsg C pMsg s).events = s.events ∧
      msgCalls (SensorTag_processAppMsg C pMsg s).calls
        = msgCalls s.calls ++ [AppCall.SensorTag_processAppMsg pMsg] := by
  unfold SensorTag_processAppMsg
  split_ifs with h1 h2
  · obtain ⟨hq, he, hc⟩ := processStateChangeEvt_frame C pMsg.serviceID
      (s.call [AppCall.SensorTag_processAppMsg pMsg])
    refine ⟨by rw [hq]; rfl, by rw [he]; rfl, ?_⟩
    rw [hc]
    simp [AppState.call, msgCalls]
  · simp [AppState.call, msgCalls]
  · simp [AppState.call, msgCalls]

theorem drainStep_frame (C : AppCfg) (pMsg : stEvt_t) (rest : List stEvt_t) (s : AppState) :
    (drainStep C pMsg rest s).appMsgQueue = rest ∧
      (drainStep C pMsg rest s).events = s.events ∧
      msgCalls (drainStep C pMsg rest s).calls
        = msgCalls s.calls ++ [AppCall.SensorTag_processAppMsg pMsg, AppCall.ICall_free pMsg] := by
  unfold drainStep
  obtain ⟨hq, he, hc⟩ := processAppMsg_frame C pMsg { s with appMsgQueue := rest }
  refine ⟨?_, ?_, ?_⟩
  · simp only [AppState.call]
    exact hq
  · simp only [AppState.call]
    exact he
  · simp only [AppState.call, msgCalls_append, hc]
    simp [msgCalls]

/-- The drain loop, given more iterations than there are queued messages, ends with an empty
queue after processing and freeing every queued message once, in queue order. -/
theorem drainAppMsgQueue_spec (C : AppCfg) (fuel : ℕ) : ∀ s : AppState,
    s.appMsgQueue.length < fuel →
    ∃ s', drainAppMsgQueue C fuel s = some s' ∧ s'.appMsgQueue = [] ∧ s'.events = s.events ∧
      msgCalls s'.calls = msgCalls s.calls ++ s.appMsgQueue.flatMap
        (fun m => [AppCall.SensorTag_processAppMsg m, AppCall.ICall_free m]) := by
  induction fuel with
  | zero => intro s h; exact absurd h (Nat.not_lt_zero _)
  | succ fuel ih =>
    intro s h
    cases hq : s.appMsgQueue with
    | nil =>
      refine ⟨s, ?_, hq, rfl, ?_⟩
      · simp [drainAppMsgQueue, hq]
      · simp
    | cons m rest =>
      obtain ⟨hq1, he1, hc1⟩ := drainStep_frame C m rest s
      have hlen : (drainStep C m rest s).appMsgQueue.length < fuel := by
        rw [hq1]
        rw [hq] at h
        simpa using h
      obtain ⟨s', hs', hq', he', hc'⟩ := ih (drainStep C m rest s) hlen
      refine ⟨s', ?_, hq', by rw [he', he1], ?_⟩
      · simp [drainAppMsgQueue, hq, hs']
      · rw [hc', hc1, hq1]
        simp

theorem taskEvents_frame (C : AppCfg) (s : AppState) :
    (taskEvents C s).appMsgQueue = s.appMsgQueue ∧
      msgCalls (taskEvents C s).calls = msgCalls s.calls := by
  unfold taskEvents
  simp only [AppState.call, Util_startClock_periodicClock]
  split_ifs <;> simp [msgCalls]

/-- C15. In a wake cycle in which `ICall_wait` succeeded, every message that was in the
application queue at the start of the cycle is passed to `SensorTag_processAppMsg` exactly
once, in queue order, and freed right after, and the queue is empty at the end of the
cycle.  The loop needs one more iteration check than there are queued messages. -/
theorem taskCycle_drains_queue (C : AppCfg) (fuel : ℕ) (fetched : Option FetchedMsg)
    (s : AppState) (hfuel : s.appMsgQueue.length < fuel) :
    ∃ s', taskCycle C fuel true fetched s = some s' ∧ s'.appMsgQueue = [] ∧
      msgCalls s'.calls = msgCalls s.calls ++ s.appMsgQueue.flatMap
        (fun m => [AppCall.SensorTag_processAppMsg m, AppCall.ICall_free m]) := by
  have key : ∀ s1 : AppState, s1.appMsgQueue = s.appMsgQueue →
      msgCalls s1.calls = msgCalls s.calls →
      ∃ s', (match drainAppMsgQueue C fuel s1 with
          | none => none
          | some s2 => some (s2.call [AppCall.SensorTagKeys_processEvent,
              AppCall.SensorTagOpt_processSensorEvent,
              AppCall.SensorTagMov_processSensorEvent])) = some s' ∧
        s'.appMsgQueue = [] ∧
        msgCalls s'.calls = msgCalls s.calls ++ s.appMsgQueue.flatMap
          (fun m => [AppCall.SensorTag_processAppMsg m, AppCall.ICall_free m]) := by
    intro s1 hq hc
    obtain ⟨s2, hs2, hq2, -, hc2⟩ := drainAppMsgQueue_spec C fuel s1 (by rw [hq]; exact hfuel)
    refine ⟨_, by rw [hs2], ?_, ?_⟩
    · simpa [AppState.call] using hq2
    · simp only [AppState.call, msgCalls_append, hc2, hq, hc]
      simp [msgCalls]
  have hm : ∃ s1, taskMessages C fuel fetched s = some s1 ∧ s1.appMsgQueue = [] ∧
      msgCalls s1.calls = msgCalls s.calls ++ s.appMsgQueue.flatMap
        (fun m => [AppCall.SensorTag_processAppMsg m, AppCall.ICall_free m]) := by
    unfold taskMessages
    cases fetched with
    | none => exact key s rfl rfl
    | some f =>
      apply key
      · simp only [AppState.call]
        split_ifs <;> rfl
      · simp only [AppState.call]
        split_ifs <;> simp [msgCalls]
  obtain ⟨s1, hs1, hq1, hc1⟩ := hm
  obtain ⟨hqe, hce⟩ := taskEvents_frame C s1
  refine ⟨taskEvents C s1, ?_, by rw [hqe, hq1], by rw [hce, hc1]⟩
  simp [taskCycle, hs1]

/-- The model of one task cycle run on a concrete state: a state notification `Advertising`
and a characteristic change are queued and both periodic events are pending. -/
theorem taskCycle_eval :
    taskCycle exampleCfg 3 true none exampleApp = some
      { gapProfileState := 2, events := 0x0010, appMsgQueue := [],
        periodicClockActive := true, firstConnFlag := false,
        calls := [AppCall.SensorTag_processAppMsg { event := 1, serviceID := 2, paramID := 0 },
          AppCall.Util_startClock_periodicClock,
          AppCall.sensorTag_updateAdvertisingData 0,
          AppCall.LCD_WRITES_STATUS LcdStatus.Advertising,
          AppCall.ICall_free { event := 1, serviceID := 2, paramID := 0 },
          AppCall.SensorTag_processAppMsg { event := 2, serviceID := 3, paramID := 1 },
          AppCall.SensorTag_processCharValueChangeEvt 3 1,
          AppCall.ICall_free { event := 2, serviceID := 3, paramID := 1 },
          AppCall.SensorTagKeys_processEvent, AppCall.SensorTagOpt_processSensorEvent,
          AppCall.SensorTagMov_processSensorEvent,
          AppCall.Util_startClock_periodicClock,
          AppCall.SensorTag_blinkLed Pin.Board_LED2 1,
          AppCall.SensorTag_blinkLed Pin.Board_LED1 10,
          AppCall.MysensorTag_updateAdvertisingData] } := by
  decide

theorem taskCycle_drains_queue_witness :
    exampleApp.appMsgQueue.length < 3 ∧
      ∃ s', taskCycle exampleCfg 3 true none exampleApp = some s' ∧ s'.appMsgQueue = [] ∧
        msgCalls s'.calls = msgCalls exampleApp.calls ++ exampleApp.appMsgQueue.flatMap
          (fun m => [AppCall.SensorTag_processAppMsg m, AppCall.ICall_free m]) :=
  ⟨by decide, taskCycle_drains_queue exampleCfg 3 none exampleApp (by decide)⟩

/-- Bit `i` of `events` after `events &= ~2 ^ k`, for a 16-bit `events` and `k < 16`. -/
theorem clearEvent_testBit (events k i : ℕ) (hev : events < 65536) (hk : k < 16) :
    (clearEvent events (2 ^ k)).testBit i = (events.testBit i && !decide (k = i)) := by
  unfold clearEvent
  have h16 : (65536 : ℕ) = 2 ^ 16 := by norm_num
  have hlt : 2 ^ k < 2 ^ 32 := Nat.pow_lt_pow_right (by norm_num) (by omega)
  rw [h16, Nat.testBit_mod_two_pow, Nat.testBit_and, Nat.testBit_two_pow_sub_succ hlt,
    Nat.testBit_two_pow]
  by_cases hi : i < 16
  · have hi32 : i < 32 := by omega
    simp [hi, hi32]
  · have hb : events.testBit i = false := by
      apply Nat.testBit_lt_two_pow
      calc events < 2 ^ 16 := by rw [← h16]; exact hev
        _ ≤ 2 ^ i := Nat.pow_le_pow_right (by norm_num) (by omega)
    simp [hi, hb]

/-- C16. When `ST_PERIODIC_EVT` is set, the event part of the cycle clears exactly that bit,
starts the periodic clock iff `gapProfileState` is Connected or Advertising, calls the
periodic task iff it is Connected, calls the two LED blinks and the advertising-data update
iff it is Advertising, and in any other state makes no call and leaves the clock as it is. -/
theorem taskEvents_periodic (C : AppCfg) (s : AppState) (hev : s.events < 65536)
    (hset : s.events &&& ST_PERIODIC_EVT ≠ 0) :
    (taskEvents C s).events.testBit 2 = false ∧
      (∀ i, i ≠ 2 → (taskEvents C s).events.testBit i = s.events.testBit i) ∧
      (taskEvents C s).gapProfileState = s.gapProfileState ∧
      ∃ new, (taskEvents C s).calls = s.calls ++ new ∧
        (AppCall.Util_startClock_periodicClock ∈ new ↔
          (s.gapProfileState = C.G.GAPROLE_CONNECTED ∨
            s.gapProfileState = C.G.GAPROLE_ADVERTISING)) ∧
        (AppCall.SensorTag_performPeriodicTask ∈ new ↔
          s.gapProfileState = C.G.GAPROLE_CONNECTED) ∧
        (AppCall.SensorTag_blinkLed Pin.Board_LED2 1 ∈ new ↔
          s.gapProfileState = C.G.GAPROLE_ADVERTISING) ∧
        (AppCall.SensorTag_blinkLed Pin.Board_LED1 10 ∈ new ↔
          s.gapProfileState = C.G.GAPROLE_ADVERTISING) ∧
        (AppCall.MysensorTag_updateAdvertisingData ∈ new ↔
          s.gapProfileState = C.G.GAPROLE_ADVERTISING) ∧
        (¬ s.gapProfileState = C.G.GAPROLE_CONNECTED →
          ¬ s.gapProfileState = C.G.GAPROLE_ADVERTISING →
          new = [] ∧ (taskEvents C s).periodicClockActive = s.periodicClockActive) := by
  have hbit : ∀ i, (clearEvent s.events (2 ^ 2)).testBit i
      = (s.events.testBit i && !decide (2 = i)) :=
    fun i => clearEvent_testBit s.events 2 i hev (by norm_num)
  have hev' : (taskEvents C s).events = clearEvent s.events (2 ^ 2) := by
    unfold taskEvents
    rw [if_pos hset]
    simp only [AppState.call, Util_startClock_periodicClock]
    split_ifs <;> rfl
  refine ⟨?_, ?_, ?_, ?_⟩
  · rw [hev', hbit]
    simp
  · intro i hi
    rw [hev', hbit]
    have : ¬ 2 = i := fun h => hi h.symm
    simp [this]
  · unfold taskEvents
    rw [if_pos hset]
    simp only [AppState.call, Util_startClock_periodicClock]
    split_ifs <;> rfl
  · have hcalls : (taskEvents C s).calls = s.calls ++
        ((if s.gapProfileState = C.G.GAPROLE_CONNECTED ∨
            s.gapProfileState = C.G.GAPROLE_ADVERTISING
          then [AppCall.Util_startClock_periodicClock] else []) ++
        ((if s.gapProfileState = C.G.GAPROLE_CONNECTED
          then [AppCall.SensorTag_performPeriodicTask] else []) ++
        (if s.gapProfileState = C.G.GAPROLE_ADVERTISING
          then [AppCall.SensorTag_blinkLed Pin.Board_LED2 1,
            AppCall.SensorTag_blinkLed Pin.Board_LED1 10,
            AppCall.MysensorTag_updateAdvertisingData] ++
            (if C.FEATURE_LCD = true then [AppCall.SensorTag_displayBatteryVoltage] else [])
          else []))) := by
      unfold taskEvents
      rw [if_pos hset]
      simp only [AppState.call, Util_startClock_periodicClock]
      generalize s.gapProfileState = g
      by_cases hc : g = C.G.GAPROLE_CONNECTED
      · subst hc
        by_cases ha : C.G.GAPROLE_CONNECTED = C.G.GAPROLE_ADVERTISING <;>
          by_cases hl : C.FEATURE_LCD = true <;> simp [ha, hl]
      · by_cases ha : g = C.G.GAPROLE_ADVERTISING
        · subst ha
          by_cases hl : C.FEATURE_LCD = true <;> simp [hc, hl]
        · by_cases hl : C.FEATURE_LCD = true <;> simp [hc, ha, hl]
    have hclock : ¬ s.gapProfileState = C.G.GAPROLE_CONNECTED →
        ¬ s.gapProfileState = C.G.GAPROLE_ADVERTISING →
        (taskEvents C s).periodicClockActive = s.periodicClockActive := by
      intro hc ha
      unfold taskEvents
      rw [if_pos hset]
      simp [AppState.call, hc, ha]
    refine ⟨_, hcalls, ?_⟩
    clear hcalls
    generalize s.gapProfileState = g at hclock ⊢
    by_cases hc : g = C.G.GAPROLE_CONNECTED
    · subst hc
      by_cases ha : C.G.GAPROLE_CONNECTED = C.G.GAPROLE_ADVERTISING <;>
        by_cases hl : C.FEATURE_LCD = true <;> simp [ha, hl]
    · by_cases ha : g = C.G.GAPROLE_ADVERTISING
      · subst ha
        by_cases hl : C.FEATURE_LCD = true <;> simp [hc, hl]
      · by_cases hl : C.FEATURE_LCD = true <;> simp [hc, ha, hl, hclock hc ha]

theorem taskEvents_periodic_witness :
    exampleApp.events < 65536 ∧ exampleApp.events &&& ST_PERIODIC_EVT ≠ 0 ∧
      ((taskEvents exampleCfg exampleApp).events.testBit 2 = false ∧
      (∀ i, i ≠ 2 →
        (taskEvents exampleCfg exampleApp).events.testBit i = exampleApp.events.testBit i) ∧
      (taskEvents exampleCfg exampleApp).gapProfileState = exampleApp.gapProfileState ∧
      ∃ new, (taskEvents exampleCfg exampleApp).calls = exampleApp.calls ++ new ∧
        (AppCall.Util_startClock_periodicClock ∈ new ↔
          (exampleApp.gapProfileState = exampleCfg.G.GAPROLE_CONNECTED ∨
            exampleApp.gapProfileState = exampleCfg.G.GAPROLE_ADVERTISING)) ∧
        (AppCall.SensorTag_performPeriodicTask ∈ new ↔
          exampleApp.gapProfileState = exampleCfg.G.GAPROLE_CONNECTED) ∧
        (AppCall.SensorTag_blinkLed Pin.Board_LED2 1 ∈ new ↔
          exampleApp.gapProfileState = exampleCfg.G.GAPROLE_ADVERTISING) ∧
        (AppCall.SensorTag_blinkLed Pin.Board_LED1 10 ∈ new ↔
          exampleApp.gapProfileState = exampleCfg.G.GAPROLE_ADVERTISING) ∧
        (AppCall.MysensorTag_updateAdvertisingData ∈ new ↔
          exampleApp.gapProfileState = exampleCfg.G.GAPROLE_ADVERTISING) ∧
        (¬ exampleApp.gapProfileState = exampleCfg.G.GAPROLE_CONNECTED →
          ¬ exampleApp.gapProfileState = exampleCfg.G.GAPROLE_ADVERTISING →
          new = [] ∧
            (taskEvents exampleCfg exampleApp).periodicClockActive
              = exampleApp.periodicClockActive)) :=
  ⟨by decide, by decide, taskEvents_periodic exampleCfg exampleApp (by decide) (by decide)⟩

/-- C17 (as stated, refuted). With both `ST_PERIODIC_EVT` and `ST_USER_DEFINED_PERIODIC_EVT`
set, the event part of the cycle clears only `ST_PERIODIC_EVT`: the user-defined bit is still
set at the end of the cycle. -/
theorem taskEvents_user_bit_not_cleared :
    exampleApp.events &&& ST_USER_DEFINED_PERIODIC_EVT ≠ 0 ∧
      exampleApp.events &&& ST_PERIODIC_EVT ≠ 0 ∧
      (taskEvents exampleCfg exampleApp).events &&& ST_USER_DEFINED_PERIODIC_EVT ≠ 0 ∧
      (taskCycle exampleCfg 3 true none exampleApp).map
        (fun s' => s'.events &&& ST_USER_DEFINED_PERIODIC_EVT) = some 0x0010 := by
  decide

/-- C17 (amended). When `ST_USER_DEFINED_PERIODIC_EVT` is set at the event part of a cycle, it
is cleared by that cycle iff `ST_PERIODIC_EVT` is not set; if both are set, the user-defined
bit stays set and only `ST_PERIODIC_EVT` is cleared.  No other bit changes either way. -/
theorem taskEvents_user_bit (C : AppCfg) (s : AppState) (hev : s.events < 65536)
    (huser : s.events &&& ST_USER_DEFINED_PERIODIC_EVT ≠ 0) :
    ((taskEvents C s).events &&& ST_USER_DEFINED_PERIODIC_EVT = 0 ↔
        s.events &&& ST_PERIODIC_EVT = 0) ∧
      (s.events &&& ST_PERIODIC_EVT = 0 →
        ∀ i, i ≠ 4 → (taskEvents C s).events.testBit i = s.events.testBit i) ∧
      (s.events &&& ST_PERIODIC_EVT ≠ 0 →
        (taskEvents C s).events &&& ST_PERIODIC_EVT = 0 ∧
        ∀ i, i ≠ 2 → (taskEvents C s).events.testBit i = s.events.testBit i) := by
  have h4 : ST_USER_DEFINED_PERIODIC_EVT = 2 ^ 4 := by decide
  have h2 : ST_PERIODIC_EVT = 2 ^ 2 := by decide
  have hu : s.events.testBit 4 = true := by
    rw [h4] at huser
    exact (and_two_pow_ne_zero_iff _ _).mp huser
  have hz : ∀ n p : ℕ, n &&& 2 ^ p = 0 ↔ n.testBit p = false := by
    intro n p
    have := and_two_pow_ne_zero_iff n p
    constructor
    · intro h
      by_contra hc
      exact (this.mpr (by simpa using hc)) h
    · intro h
      by_contra hc
      rw [this.mp hc] at h
      exact Bool.noConfusion h
  by_cases hp : s.events &&& ST_PERIODIC_EVT = 0
  · have hev' : (taskEvents C s).events = clearEvent s.events (2 ^ 4) := by
      unfold taskEvents
      rw [if_neg (by simpa using hp), if_pos huser, h4]
    refine ⟨?_, ?_, fun h => absurd hp h⟩
    · simp only [hp, iff_true]
      rw [h4, hz, hev', clearEvent_testBit _ _ _ hev (by norm_num)]
      simp
    · intro _ i hi
      rw [hev', clearEvent_testBit _ _ _ hev (by norm_num)]
      have : ¬ 4 = i := fun h => hi h.symm
      simp [this]
  · have hev' : (taskEvents C s).events = clearEvent s.events (2 ^ 2) := by
      unfold taskEvents
      rw [if_pos hp, h2]
      simp only [AppState.call, Util_startClock_periodicClock]
      split_ifs <;> rfl
    refine ⟨?_, fun h => absurd h hp, ?_⟩
    · simp only [hp, iff_false]
      rw [h4, hz, hev', clearEvent_testBit _ _ _ hev (by norm_num), hu]
      simp
    · intro _
      refine ⟨?_, ?_⟩
      · rw [h2, hz, hev', clearEvent_testBit _ _ _ hev (by norm_num)]
        simp
      · intro i hi
        rw [hev', clearEvent_testBit _ _ _ hev (by norm_num)]
        have : ¬ 2 = i := fun h => hi h.symm
        simp [this]

theorem taskEvents_user_bit_witness :
    exampleApp.events < 65536 ∧ exampleApp.events &&& ST_USER_DEFINED_PERIODIC_EVT ≠ 0 ∧
      (((taskEvents exampleCfg exampleApp).events &&& ST_USER_DEFINED_PERIODIC_EVT = 0 ↔
        exampleApp.events &&& ST_PERIODIC_EVT = 0) ∧
      (exampleApp.events &&& ST_PERIODIC_EVT = 0 →
        ∀ i, i ≠ 4 →
          (taskEvents exampleCfg exampleApp).events.testBit i = exampleApp.events.testBit i) ∧
      (exampleApp.events &&& ST_PERIODIC_EVT ≠ 0 →
        (taskEvents exampleCfg exampleApp).events &&& ST_PERIODIC_EVT = 0 ∧
        ∀ i, i ≠ 2 →
          (taskEvents exampleCfg exampleApp).events.testBit i = exampleApp.events.testBit i)) :=
  ⟨by decide, by decide, taskEvents_user_bit exampleCfg exampleApp (by decide) (by decide)⟩

/-- The case labels of the state switch are pairwise different. -/
theorem GapRole.distinct_ne (G : GapRole) (h : G.Distinct) :
    G.GAPROLE_STARTED ≠ G.GAPROLE_ADVERTISING ∧ G.GAPROLE_STARTED ≠ G.GAPROLE_CONNECTED ∧
      G.GAPROLE_STARTED ≠ G.GAPROLE_CONNECTED_ADV ∧ G.GAPROLE_STARTED ≠ G.GAPROLE_WAITING ∧
      G.GAPROLE_STARTED ≠ G.GAPROLE_WAITING_AFTER_TIMEOUT ∧
      G.GAPROLE_STARTED ≠ G.GAPROLE_ERROR ∧
      G.GAPROLE_ADVERTISING ≠ G.GAPROLE_CONNECTED ∧
      G.GAPROLE_ADVERTISING ≠ G.GAPROLE_CONNECTED_ADV ∧
      G.GAPROLE_ADVERTISING ≠ G.GAPROLE_WAITING ∧
      G.GAPROLE_ADVERTISING ≠ G.GAPROLE_WAITING_AFTER_TIMEOUT ∧
      G.GAPROLE_ADVERTISING ≠ G.GAPROLE_ERROR ∧
      G.GAPROLE_CONNECTED ≠ G.GAPROLE_CONNECTED_ADV ∧
      G.GAPROLE_CONNECTED ≠ G.GAPROLE_WAITING ∧
      G.GAPROLE_CONNECTED ≠ G.GAPROLE_WAITING_AFTER_TIMEOUT ∧
      G.GAPROLE_CONNECTED ≠ G.GAPROLE_ERROR ∧
      G.GAPROLE_CONNECTED_ADV ≠ G.GAPROLE_WAITING ∧
      G.GAPROLE_CONNECTED_ADV ≠ G.GAPROLE_WAITING_AFTER_TIMEOUT ∧
      G.GAPROLE_CONNECTED_ADV ≠ G.GAPROLE_ERROR ∧
      G.GAPROLE_WAITING ≠ G.GAPROLE_WAITING_AFTER_TIMEOUT ∧
      G.GAPROLE_WAITING ≠ G.GAPROLE_ERROR ∧
      G.GAPROLE_WAITING_AFTER_TIMEOUT ≠ G.GAPROLE_ERROR := by
  simp only [GapRole.Distinct, List.nodup_cons, List.mem_cons, List.mem_singleton, not_or,
    List.not_mem_nil, not_false_eq_true, List.nodup_nil, and_true] at h
  tauto

/-- What `SensorTag_processStateChangeEvt` does, case by case: the new state is stored, the
clock flag and the first-connection flag are updated, calls are only added, and the numbers
of the calls of interest grow as given. -/
theorem processStateChangeEvt_cases (C : AppCfg) (hd : C.G.Distinct) (newState : ℕ)
    (s : AppState) :
    (SensorTag_processStateChangeEvt C newState s).gapProfileState = newState ∧
    (SensorTag_processStateChangeEvt C newState s).periodicClockActive =
      (s.periodicClockActive || decide (newState = C.G.GAPROLE_ADVERTISING ∨
        newState = C.G.GAPROLE_CONNECTED)) ∧
    (SensorTag_processStateChangeEvt C newState s).firstConnFlag =
      (s.firstConnFlag || (decide (newState = C.G.GAPROLE_CONNECTED) && C.PLUS_BROADCASTER)) ∧
    s.calls <+: (SensorTag_processStateChangeEvt C newState s).calls ∧
    (SensorTag_processStateChangeEvt C newState s).calls.count AppCall.SensorTag_resetAllSensors =
      s.calls.count AppCall.SensorTag_resetAllSensors +
        (if newState = C.G.GAPROLE_WAITING ∨ newState = C.G.GAPROLE_WAITING_AFTER_TIMEOUT ∨
          newState = C.G.GAPROLE_ERROR then 1 else 0) ∧
    (SensorTag_processStateChangeEvt C newState s).calls.count
        (AppCall.PIN_setOutputValue Pin.Board_LED1 PinValue.Board_LED_ON) =
      s.calls.count (AppCall.PIN_setOutputValue Pin.Board_LED1 PinValue.Board_LED_ON) +
        (if newState = C.G.GAPROLE_ERROR then 1 else 0) ∧
    (SensorTag_processStateChangeEvt C newState s).calls.count
        AppCall.Util_startClock_periodicClock =
      s.calls.count AppCall.Util_startClock_periodicClock +
        (if (newState = C.G.GAPROLE_ADVERTISING ∨ newState = C.G.GAPROLE_CONNECTED) ∧
          s.periodicClockActive = false then 1 else 0) ∧
    (SensorTag_processStateChangeEvt C newState s).calls.count
        (AppCall.GAPRole_SetParameter_ADVERT_ENABLED true) =
      s.calls.count (AppCall.GAPRole_SetParameter_ADVERT_ENABLED true) +
        (if newState = C.G.GAPROLE_CONNECTED ∧ C.PLUS_BROADCASTER = true ∧
          s.firstConnFlag = false then 1 else 0) := by
  obtain ⟨n1, n2, n3, n4, n5, n6, n7, n8, n9, n10, n11, n12, n13, n14, n15, n16, n17, n18,
    n19, n20, n21⟩ := GapRole.distinct_ne C.G hd
  unfold SensorTag_processStateChangeEvt
  simp only [AppState.call, Util_startClock_periodicClock]
  by_cases h1 : newState = C.G.GAPROLE_STARTED
  · subst h1
    simp [n1, n2, n3, n4, n5, n6, n7, n8, n9, n10, n11, n12, n13, n14, n15, n16, n17, n18, n19, n20, n21, Ne.symm n1, Ne.symm n2, Ne.symm n3, Ne.symm n4, Ne.symm n5, Ne.symm n6, Ne.symm n7, Ne.symm n8, Ne.symm n9, Ne.symm n10, Ne.symm n11, Ne.symm n12, Ne.symm n13, Ne.symm n14, Ne.symm n15, Ne.symm n16, Ne.symm n17, Ne.symm n18, Ne.symm n19, Ne.symm n20, Ne.symm n21]
  by_cases h2 : newState = C.G.GAPROLE_ADVERTISING
  · subst h2
    cases hclk : s.periodicClockActive <;>
      simp [n1, n2, n3, n4, n5, n6, n7, n8, n9, n10, n11, n12, n13, n14, n15, n16, n17, n18, n19, n20, n21, Ne.symm n1, Ne.symm n2, Ne.symm n3, Ne.symm n4, Ne.symm n5, Ne.symm n6, Ne.symm n7, Ne.symm n8, Ne.symm n9, Ne.symm n10, Ne.symm n11, Ne.symm n12, Ne.symm n13, Ne.symm n14, Ne.symm n15, Ne.symm n16, Ne.symm n17, Ne.symm n18, Ne.symm n19, Ne.symm n20, Ne.symm n21, hclk]
  by_cases h3 : newState = C.G.GAPROLE_CONNECTED
  · subst h3
    cases hclk : s.periodicClockActive <;> cases hpb : C.PLUS_BROADCASTER <;>
      cases hf : s.firstConnFlag <;>
      simp [n1, n2, n3, n4, n5, n6, n7, n8, n9, n10, n11, n12, n13, n14, n15, n16, n17, n18, n19, n20, n21, Ne.symm n1, Ne.symm n2, Ne.symm n3, Ne.symm n4, Ne.symm n5, Ne.symm n6, Ne.symm n7, Ne.symm n8, Ne.symm n9, Ne.symm n10, Ne.symm n11, Ne.symm n12, Ne.symm n13, Ne.symm n14, Ne.symm n15, Ne.symm n16, Ne.symm n17, Ne.symm n18, Ne.symm n19, Ne.symm n20, Ne.symm n21, hclk, hpb, hf]
  by_cases h4 : newState = C.G.GAPROLE_CONNECTED_ADV
  · subst h4
    simp [n1, n2, n3, n4, n5, n6, n7, n8, n9, n10, n11, n12, n13, n14, n15, n16, n17, n18, n19, n20, n21, Ne.symm n1, Ne.symm n2, Ne.symm n3, Ne.symm n4, Ne.symm n5, Ne.symm n6, Ne.symm n7, Ne.symm n8, Ne.symm n9, Ne.symm n10, Ne.symm n11, Ne.symm n12, Ne.symm n13, Ne.symm n14, Ne.symm n15, Ne.symm n16, Ne.symm n17, Ne.symm n18, Ne.symm n19, Ne.symm n20, Ne.symm n21]
  by_cases h5 : newState = C.G.GAPROLE_WAITING
  · subst h5
    simp [n1, n2, n3, n4, n5, n6, n7, n8, n9, n10, n11, n12, n13, n14, n15, n16, n17, n18, n19, n20, n21, Ne.symm n1, Ne.symm n2, Ne.symm n3, Ne.symm n4, Ne.symm n5, Ne.symm n6, Ne.symm n7, Ne.symm n8, Ne.symm n9, Ne.symm n10, Ne.symm n11, Ne.symm n12, Ne.symm n13, Ne.symm n14, Ne.symm n15, Ne.symm n16, Ne.symm n17, Ne.symm n18, Ne.symm n19, Ne.symm n20, Ne.symm n21]
  by_cases h6 : newState = C.G.GAPROLE_WAITING_AFTER_TIMEOUT
  · subst h6
    simp [n1, n2, n3, n4, n5, n6, n7, n8, n9, n10, n11, n12, n13, n14, n15, n16, n17, n18, n19, n20, n21, Ne.symm n1, Ne.symm n2, Ne.symm n3, Ne.symm n4, Ne.symm n5, Ne.symm n6, Ne.symm n7, Ne.symm n8, Ne.symm n9, Ne.symm n10, Ne.symm n11, Ne.symm n12, Ne.symm n13, Ne.symm n14, Ne.symm n15, Ne.symm n16, Ne.symm n17, Ne.symm n18, Ne.symm n19, Ne.symm n20, Ne.symm n21]
  by_cases h7 : newState = C.G.GAPROLE_ERROR
  · subst h7
    simp [n1, n2, n3, n4, n5, n6, n7, n8, n9, n10, n11, n12, n13, n14, n15, n16, n17, n18, n19, n20, n21, Ne.symm n1, Ne.symm n2, Ne.symm n3, Ne.symm n4, Ne.symm n5, Ne.symm n6, Ne.symm n7, Ne.symm n8, Ne.symm n9, Ne.symm n10, Ne.symm n11, Ne.symm n12, Ne.symm n13, Ne.symm n14, Ne.symm n15, Ne.symm n16, Ne.symm n17, Ne.symm n18, Ne.symm n19, Ne.symm n20, Ne.symm n21]
  simp [h1, h2, h3, h4, h5, h6, h7]

theorem exampleGapRole_distinct : exampleCfg.G.Distinct := by
  unfold GapRole.Distinct
  decide

/-- C18. For every notified state, named or not, `SensorTag_processStateChangeEvt` ends with
`gapProfileState` equal to it; it only adds calls; it calls `SensorTag_resetAllSensors` once
if the state is Waiting, WaitingAfterTimeout or Error and not at all otherwise; and it
switches LED1 on once if the state is Error and not at all otherwise. -/
theorem processStateChangeEvt_resets (C : AppCfg) (hd : C.G.Distinct) (newState : ℕ)
    (s : AppState) :
    (SensorTag_processStateChangeEvt C newState s).gapProfileState = newState ∧
      s.calls <+: (SensorTag_processStateChangeEvt C newState s).calls ∧
      (SensorTag_processStateChangeEvt C newState s).calls.count
          AppCall.SensorTag_resetAllSensors =
        s.calls.count AppCall.SensorTag_resetAllSensors +
          (if newState = C.G.GAPROLE_WAITING ∨ newState = C.G.GAPROLE_WAITING_AFTER_TIMEOUT ∨
            newState = C.G.GAPROLE_ERROR then 1 else 0) ∧
      (SensorTag_processStateChangeEvt C newState s).calls.count
          (AppCall.PIN_setOutputValue Pin.Board_LED1 PinValue.Board_LED_ON) =
        s.calls.count (AppCall.PIN_setOutputValue Pin.Board_LED1 PinValue.Board_LED_ON) +
          (if newState = C.G.GAPROLE_ERROR then 1 else 0) := by
  obtain ⟨h1, -, -, h4, h5, h6, -, -⟩ := processStateChangeEvt_cases C hd newState s
  exact ⟨h1, h4, h5, h6⟩

theorem processStateChangeEvt_resets_witness :
    exampleCfg.G.Distinct ∧
      ((SensorTag_processStateChangeEvt exampleCfg 8 exampleApp).gapProfileState = 8 ∧
      exampleApp.calls <+: (SensorTag_processStateChangeEvt exampleCfg 8 exampleApp).calls ∧
      (SensorTag_processStateChangeEvt exampleCfg 8 exampleApp).calls.count
          AppCall.SensorTag_resetAllSensors =
        exampleApp.calls.count AppCall.SensorTag_resetAllSensors +
          (if 8 = exampleCfg.G.GAPROLE_WAITING ∨
            8 = exampleCfg.G.GAPROLE_WAITING_AFTER_TIMEOUT ∨
            8 = exampleCfg.G.GAPROLE_ERROR then 1 else 0) ∧
      (SensorTag_processStateChangeEvt exampleCfg 8 exampleApp).calls.count
          (AppCall.PIN_setOutputValue Pin.Board_LED1 PinValue.Board_LED_ON) =
        exampleApp.calls.count
            (AppCall.PIN_setOutputValue Pin.Board_LED1 PinValue.Board_LED_ON) +
          (if 8 = exampleCfg.G.GAPROLE_ERROR then 1 else 0)) :=
  ⟨exampleGapRole_distinct,
    processStateChangeEvt_resets exampleCfg exampleGapRole_distinct 8 exampleApp⟩

/-- C19. On a notification of Advertising or Connected, `SensorTag_processStateChangeEvt`
starts the periodic clock once if the clock was not active and not at all if it was, and
the clock is active afterwards; on a notification of any other state it does not start the
clock and leaves the clock as it is. -/
theorem processStateChangeEvt_clock (C : AppCfg) (hd : C.G.Distinct) (newState : ℕ)
    (s : AppState) :
    s.calls <+: (SensorTag_processStateChangeEvt C newState s).calls ∧
      ((newState = C.G.GAPROLE_ADVERTISING ∨ newState = C.G.GAPROLE_CONNECTED) →
        (SensorTag_processStateChangeEvt C newState s).periodicClockActive = true ∧
        (SensorTag_processStateChangeEvt C newState s).calls.count
            AppCall.Util_startClock_periodicClock =
          s.calls.count AppCall.Util_startClock_periodicClock +
            (if s.periodicClockActive = false then 1 else 0)) ∧
      (¬ (newState = C.G.GAPROLE_ADVERTISING ∨ newState = C.G.GAPROLE_CONNECTED) →
        (SensorTag_processStateChangeEvt C newState s).periodicClockActive
          = s.periodicClockActive ∧
        (SensorTag_processStateChangeEvt C newState s).calls.count
            AppCall.Util_startClock_periodicClock =
          s.calls.count AppCall.Util_startClock_periodicClock) := by
  obtain ⟨-, h2, -, h4, -, -, h7, -⟩ := processStateChangeEvt_cases C hd newState s
  refine ⟨h4, ?_, ?_⟩
  · intro h
    rw [h2, h7]
    simp [h]
  · intro h
    rw [h2, h7]
    simp [h]

theorem processStateChangeEvt_clock_witness :
    exampleCfg.G.Distinct ∧
      (exampleApp.calls <+: (SensorTag_processStateChangeEvt exampleCfg 6 exampleApp).calls ∧
      ((6 = exampleCfg.G.GAPROLE_ADVERTISING ∨ 6 = exampleCfg.G.GAPROLE_CONNECTED) →
        (SensorTag_processStateChangeEvt exampleCfg 6 exampleApp).periodicClockActive = true ∧
        (SensorTag_processStateChangeEvt exampleCfg 6 exampleApp).calls.count
            AppCall.Util_startClock_periodicClock =
          exampleApp.calls.count AppCall.Util_startClock_periodicClock +
            (if exampleApp.periodicClockActive = false then 1 else 0)) ∧
      (¬ (6 = exampleCfg.G.GAPROLE_ADVERTISING ∨ 6 = exampleCfg.G.GAPROLE_CONNECTED) →
        (SensorTag_processStateChangeEvt exampleCfg 6 exampleApp).periodicClockActive
          = exampleApp.periodicClockActive ∧
        (SensorTag_processStateChangeEvt exampleCfg 6 exampleApp).calls.count
            AppCall.Util_startClock_periodicClock =
          exampleApp.calls.count AppCall.Util_startClock_periodicClock)) :=
  ⟨exampleGapRole_distinct,
    processStateChangeEvt_clock exampleCfg exampleGapRole_distinct 6 exampleApp⟩

theorem notifyAll_append (C : AppCfg) (pre post : List ℕ) :
    ∀ s, notifyAll C (pre ++ post) s = notifyAll C post (notifyAll C pre s) := by
  induction pre with
  | nil => intro s; rfl
  | cons n rest ih => intro s; exact ih _

/-- Notifications other than Connected issue no enable-advertising call and keep the
first-connection flag. -/
theorem notifyAll_no_connected (C : AppCfg) (hd : C.G.Distinct) (l : List ℕ)
    (hl : C.G.GAPROLE_CONNECTED ∉ l) : ∀ s,
    (notifyAll C l s).firstConnFlag = s.firstConnFlag ∧
      (notifyAll C l s).calls.count (AppCall.GAPRole_SetParameter_ADVERT_ENABLED true)
        = s.calls.count (AppCall.GAPRole_SetParameter_ADVERT_ENABLED true) := by
  induction l with
  | nil => intro s; exact ⟨rfl, rfl⟩
  | cons n rest ih =>
    intro s
    have hn : ¬ n = C.G.GAPROLE_CONNECTED := fun h => hl (by simp [h])
    have hrest : C.G.GAPROLE_CONNECTED ∉ rest := fun h => hl (List.mem_cons_of_mem _ h)
    obtain ⟨-, -, h3, -, -, -, -, h8⟩ := processStateChangeEvt_cases C hd n s
    obtain ⟨i1, i2⟩ := ih hrest (SensorTag_processStateChangeEvt C n s)
    simp only [notifyAll]
    rw [i1, i2, h3, h8]
    simp [hn]

/-- Once the first-connection flag is set, no notification issues the enable-advertising
call. -/
theorem notifyAll_flag_set (C : AppCfg) (hd : C.G.Distinct) (l : List ℕ) : ∀ s,
    s.firstConnFlag = true →
    (notifyAll C l s).firstConnFlag = true ∧
      (notifyAll C l s).calls.count (AppCall.GAPRole_SetParameter_ADVERT_ENABLED true)
        = s.calls.count (AppCall.GAPRole_SetParameter_ADVERT_ENABLED true) := by
  induction l with
  | nil => intro s h; exact ⟨h, rfl⟩
  | cons n rest ih =>
    intro s h
    obtain ⟨-, -, h3, -, -, -, -, h8⟩ := processStateChangeEvt_cases C hd n s
    have hf : (SensorTag_processStateChangeEvt C n s).firstConnFlag = true := by
      rw [h3, h]
      simp
    obtain ⟨i1, i2⟩ := ih (SensorTag_processStateChangeEvt C n s) hf
    simp only [notifyAll]
    rw [i1, i2, h8]
    simp [h]

/-- C20. With `PLUS_BROADCASTER` defined and starting with `firstConnFlag = false`, take any
sequence of state notifications whose first Connected notification comes after the
notifications `pre` and before the notifications `post`.  No enable-advertising call
(`GAPRole_SetParameter(GAPROLE_ADVERT_ENABLED, TRUE)`) is issued during `pre`, exactly one is
issued by the first Connected notification, and none during `post`, however many Connected
notifications `post` contains. -/
theorem advert_enable_once (C : AppCfg) (hd : C.G.Distinct)
    (hpb : C.PLUS_BROADCASTER = true) (s : AppState) (hflag : s.firstConnFlag = false)
    (pre post : List ℕ) (hpre : C.G.GAPROLE_CONNECTED ∉ pre) :
    (notifyAll C pre s).calls.count (AppCall.GAPRole_SetParameter_ADVERT_ENABLED true)
        = s.calls.count (AppCall.GAPRole_SetParameter_ADVERT_ENABLED true) ∧
      (notifyAll C (pre ++ [C.G.GAPROLE_CONNECTED]) s).calls.count
          (AppCall.GAPRole_SetParameter_ADVERT_ENABLED true)
        = s.calls.count (AppCall.GAPRole_SetParameter_ADVERT_ENABLED true) + 1 ∧
      (notifyAll C (pre ++ C.G.GAPROLE_CONNECTED :: post) s).calls.count
          (AppCall.GAPRole_SetParameter_ADVERT_ENABLED true)
        = s.calls.count (AppCall.GAPRole_SetParameter_ADVERT_ENABLED true) + 1 := by
  obtain ⟨p1, p2⟩ := notifyAll_no_connected C hd pre hpre s
  obtain ⟨-, -, h3, -, -, -, -, h8⟩ :=
    processStateChangeEvt_cases C hd C.G.GAPROLE_CONNECTED (notifyAll C pre s)
  have hcount : (SensorTag_processStateChangeEvt C C.G.GAPROLE_CONNECTED
      (notifyAll C pre s)).calls.count (AppCall.GAPRole_SetParameter_ADVERT_ENABLED true)
      = s.calls.count (AppCall.GAPRole_SetParameter_ADVERT_ENABLED true) + 1 := by
    rw [h8, p1, p2]
    simp [hpb, hflag]
  have hset : (SensorTag_processStateChangeEvt C C.G.GAPROLE_CONNECTED
      (notifyAll C pre s)).firstConnFlag = true := by
    rw [h3]
    simp [hpb]
  refine ⟨p2, ?_, ?_⟩
  · rw [notifyAll_append]
    exact hcount
  · rw [notifyAll_append]
    simp only [notifyAll]
    rw [(notifyAll_flag_set C hd post _ hset).2]
    exact hcount

theorem advert_enable_once_witness :
    exampleCfg.G.Distinct ∧ exampleCfg.PLUS_BROADCASTER = true ∧
      exampleApp.firstConnFlag = false ∧ exampleCfg.G.GAPROLE_CONNECTED ∉ [1, 2] ∧
      ((notifyAll exampleCfg [1, 2] exampleApp).calls.count
          (AppCall.GAPRole_SetParameter_ADVERT_ENABLED true)
        = exampleApp.calls.count (AppCall.GAPRole_SetParameter_ADVERT_ENABLED true) ∧
      (notifyAll exampleCfg ([1, 2] ++ [exampleCfg.G.GAPROLE_CONNECTED]) exampleApp).calls.count
          (AppCall.GAPRole_SetParameter_ADVERT_ENABLED true)
        = exampleApp.calls.count (AppCall.GAPRole_SetParameter_ADVERT_ENABLED true) + 1 ∧
      (notifyAll exampleCfg ([1, 2] ++ exampleCfg.G.GAPROLE_CONNECTED :: [7, 6, 4, 2, 6])
          exampleApp).calls.count (AppCall.GAPRole_SetParameter_ADVERT_ENABLED true)
        = exampleApp.calls.count (AppCall.GAPRole_SetParameter_ADVERT_ENABLED true) + 1) :=
  ⟨exampleGapRole_distinct, rfl, rfl, by decide,
    advert_enable_once exampleCfg exampleGapRole_distinct rfl exampleApp rfl [1, 2]
      [7, 6, 4, 2, 6] (by decide)⟩

/-- The model of the notification sequence Started, Advertising, Connected, ConnectedAdv,
Connected, Waiting, Advertising, Connected: the enable-advertising call occurs once. -/
theorem notifyAll_eval :
    (notifyAll exampleCfg [1, 2, 6, 7, 6, 4, 2, 6] exampleApp).calls.count
        (AppCall.GAPRole_SetParameter_ADVERT_ENABLED true) = 1 ∧
      (notifyAll exampleCfg [1, 2, 6, 7, 6, 4, 2, 6] exampleApp).gapProfileState = 6 := by
  decide

/-! ## Theorems: sensor drivers and the bus lock -/

/-- A select while the count of the mutex is zero fails and only records the call. -/
theorem selectBus_of_mutex_zero (E : DriverEnv) (i a : ℕ) (w : World) (hm : w.bus.mutex = 0) :
    selectBus E i a w =
      (false, { w with lockCalls := w.lockCalls ++ [LockCall.bspI2cSelect false] }) := by
  rcases bspI2cSelect_cases E.I2C_open i a w.bus with ⟨_, h⟩ | ⟨h, _⟩
  · simp [selectBus, h]
  · exact absurd hm h

/-- With the count of the mutex at zero and the MPU powered, `sensorMpu9250WakeUp` only
records its failed select. -/
theorem sensorMpu9250WakeUp_of_mutex_zero (H : SensorH) (E : DriverEnv) (w : World)
    (hp : w.mpuPower = true) (hm : w.bus.mutex = 0) :
    sensorMpu9250WakeUp H E w =
      { w with lockCalls := w.lockCalls ++ [LockCall.bspI2cSelect false] } := by
  simp [sensorMpu9250WakeUp, sensorMpu9250PowerIsOn, Mpu9250.SENSOR_SELECT,
    selectBus_of_mutex_zero, hm, hp]

/-- With the count of the mutex at zero and the MPU powered, `sensorMpuSleep` only records
its failed select. -/
theorem sensorMpuSleep_of_mutex_zero (H : SensorH) (E : DriverEnv) (w : World)
    (hp : w.mpuPower = true) (hm : w.bus.mutex = 0) :
    sensorMpuSleep H E w =
      { w with lockCalls := w.lockCalls ++ [LockCall.bspI2cSelect false] } := by
  simp [sensorMpuSleep, sensorMpu9250PowerIsOn, Mpu9250.SENSOR_SELECT,
    selectBus_of_mutex_zero, hm, hp]

/-- With the count of the mutex at zero, `sensorMpu9250SelectAxes` only sets `val` and
records its failed select. -/
theorem sensorMpu9250SelectAxes_of_mutex_zero (H : SensorH) (M : Mpu9250H) (E : DriverEnv)
    (w : World) (hm : w.bus.mutex = 0) :
    sensorMpu9250SelectAxes H M E w =
      { w with
        mpu := { w.mpu with val := 255 - w.mpu.mpuConfig % 256 },
        lockCalls := w.lockCalls ++ [LockCall.bspI2cSelect false] } := by
  simp [sensorMpu9250SelectAxes, Mpu9250.SENSOR_SELECT, selectBus_of_mutex_zero, hm]

/-- With the count of the mutex at zero, `sensorMpu9250Enable` issues no transfer. -/
theorem sensorMpu9250Enable_of_mutex_zero (H : SensorH) (M : Mpu9250H) (E : DriverEnv)
    (axes : ℕ) (w : World) (hm : w.bus.mutex = 0) :
    (sensorMpu9250Enable H M E axes w).transfers = w.transfers := by
  unfold sensorMpu9250Enable
  by_cases hp : w.mpuPower = true
  · have hp1 : ¬ sensorMpu9250PowerIsOn w = false := by simp [sensorMpu9250PowerIsOn, hp]
    rw [if_neg hp1]
    by_cases hw : w.mpu.mpuConfig = 0 ∧ axes % 65536 ≠ 0
    · simp only [if_pos hw, sensorMpu9250WakeUp_of_mutex_zero H E w hp hm]
      split_ifs
      · rw [sensorMpu9250SelectAxes_of_mutex_zero _ _ _ _ (by simpa using hm)]
      · rw [sensorMpuSleep_of_mutex_zero _ _ _ (by simpa using hp) (by simpa using hm)]
      · rfl
    · simp only [if_neg hw]
      split_ifs
      · rw [sensorMpu9250SelectAxes_of_mutex_zero _ _ _ _ (by simpa using hm)]
      · rw [sensorMpuSleep_of_mutex_zero _ _ _ (by simpa using hp) (by simpa using hm)]
      · rfl
  · have hp1 : sensorMpu9250PowerIsOn w = false := by simpa [sensorMpu9250PowerIsOn] using hp
    rw [if_pos hp1]
    unfold stAssertFail deselectBus
    split_ifs <;> rfl

/-- Claim C12 does not hold as stated: with the bus held by another context,
`sensorOpt3001Init` calls `bspI2cSelect`, which fails, and still returns `true`; and
`sensorHdc1000Test`, whose select fails as well, goes on to issue two transfers. -/
theorem driver_select_failure_not_reported :
    exampleWorld.bus.mutex = 0 ∧
      newLockCalls exampleWorld
          (runOp exampleSensorH exampleMpu9250H exampleDriverEnv DriverOp.sensorOpt3001Init
            exampleWorld).2 = [LockCall.bspI2cSelect false] ∧
      (runOp exampleSensorH exampleMpu9250H exampleDriverEnv DriverOp.sensorOpt3001Init
          exampleWorld).1 = some 1 ∧
      LockCall.bspI2cSelect false ∈
        newLockCalls exampleWorld
          (runOp exampleSensorH exampleMpu9250H exampleDriverEnv DriverOp.sensorHdc1000Test
            exampleWorld).2 ∧
      (runOp exampleSensorH exampleMpu9250H exampleDriverEnv DriverOp.sensorHdc1000Test
          exampleWorld).2.transfers.length = 2 := by
  decide

/-- Claim C12, as the code has it: a public function of the three drivers other than
`sensorHdc1000Test`, `sensorMpu9250MagTest` and `sensorMpu9250MagRead`, called while another
context holds the bus (the count of the mutex is zero, so every `bspI2cSelect` times out),
issues no I2C transfer; and when it has called `bspI2cSelect`, what its caller gets is
`false` (or 0), except that `sensorOpt3001Init` returns `true` and that the `void`
functions return nothing. -/
theorem driver_select_failure (H : SensorH) (M : Mpu9250H) (E : DriverEnv) (op : DriverOp)
    (w : World) (hc : op.checksSelect = true) (hm : w.bus.mutex = 0) :
    (runOp H M E op w).2.transfers = w.transfers ∧
      (LockCall.bspI2cSelect false ∈ newLockCalls w (runOp H M E op w).2 →
        (runOp H M E op w).1 = op.selectFailureValue) := by
  cases op <;> (try simp [DriverOp.checksSelect] at hc)
  case sensorMpu9250Enable axes =>
    exact ⟨sensorMpu9250Enable_of_mutex_zero H M E axes w hm, fun _ => rfl⟩
  all_goals
    by_cases hp : w.mpuPower = true <;> by_cases hd : H.ST_ASSERT_deselects = true <;>
    simp [runOp, sensorHdc1000Init, sensorHdc1000Start, sensorHdc1000Read, sensorOpt3001Init,
      sensorOpt3001Enable, sensorOpt3001Read, sensorOpt3001Test, sensorMpu9250Init,
      sensorMpu9250Reset, sensorMpu9250PowerOn, sensorMpu9250PowerOff, sensorMpu9250WomEnable,
      sensorMpu9250IntStatus, sensorMpu9250AccSetRange,
      sensorMpu9250AccReadRange, sensorMpu9250AccRead, sensorMpu9250GyroRead,
      Mpu9250.burstRead, sensorMpu9250Test, sensorMpu9250MagReset,
      sensorMpu9250SetBypass, sensorMpu9250PowerIsOn,
      Hdc1000.SENSOR_SELECT, Opt3001.SENSOR_SELECT, Mpu9250.SENSOR_SELECT,
      Mpu9250.SENSOR_SELECT_MAG, selectBus_of_mutex_zero, hm, hp, hd, newLockCalls,
      deselectBus, stAssertFail, DriverOp.selectFailureValue, boolValue] <;>
    (split_ifs <;> simp_all)

/-- Claim C12 at a concrete input: `sensorOpt3001Read` with the bus held elsewhere issues no
transfer and returns `false`. -/
theorem driver_select_failure_witness :
    (DriverOp.sensorOpt3001Read 7).checksSelect = true ∧ exampleWorld.bus.mutex = 0 ∧
      (runOp exampleSensorH exampleMpu9250H exampleDriverEnv (DriverOp.sensorOpt3001Read 7)
          exampleWorld).2.transfers = exampleWorld.transfers ∧
      (LockCall.bspI2cSelect false ∈
          newLockCalls exampleWorld
            (runOp exampleSensorH exampleMpu9250H exampleDriverEnv (DriverOp.sensorOpt3001Read 7)
              exampleWorld).2 →
        (runOp exampleSensorH exampleMpu9250H exampleDriverEnv (DriverOp.sensorOpt3001Read 7)
            exampleWorld).1 = (DriverOp.sensorOpt3001Read 7).selectFailureValue) :=
  ⟨rfl, rfl,
    driver_select_failure exampleSensorH exampleMpu9250H exampleDriverEnv
      (DriverOp.sensorOpt3001Read 7) exampleWorld rfl rfl⟩

/-- The run of the witness of claim C12 worked out: the select fails, nothing is
transferred, the caller gets `false` and its buffer is unchanged. -/
theorem sensorOpt3001Read_eval :
    (sensorOpt3001Read exampleSensorH exampleDriverEnv 7 exampleWorld).1 = (false, 7) ∧
      (sensorOpt3001Read exampleSensorH exampleDriverEnv 7 exampleWorld).2.transfers = [] ∧
      (sensorOpt3001Read exampleSensorH exampleDriverEnv 7 exampleWorld).2.lockCalls =
        [LockCall.bspI2cSelect false] := by
  decide

/-- Claim C13, where the code departs from it: `sensorHdc1000Test` does not test the result
of `bspI2cSelect`.  Called while another context holds the bus (the count of the mutex is
zero), on every path on which it calls `bspI2cDeselect` (the path that returns `true`, and
every path when the assertion macros deselect) its arbiter calls are one failed select
followed by one deselect, and the count of the mutex, zero on entry, is one on return. -/
theorem sensorHdc1000Test_lock_unbalanced (H : SensorH) (E : DriverEnv) (w : World)
    (hm : w.bus.mutex = 0)
    (h : (sensorHdc1000Test H E w).1 = true ∨ H.ST_ASSERT_deselects = true) :
    newLockCalls w (sensorHdc1000Test H E w).2 =
        [LockCall.bspI2cSelect false, LockCall.bspI2cDeselect] ∧
      lockBalanced false (newLockCalls w (sensorHdc1000Test H E w).2) = false ∧
      (sensorHdc1000Test H E w).2.bus.mutex = 1 ∧
      (sensorHdc1000Test H E w).2.bus.mutex ≠ w.bus.mutex := by
  have key : newLockCalls w (sensorHdc1000Test H E w).2 =
        [LockCall.bspI2cSelect false, LockCall.bspI2cDeselect] ∧
      (sensorHdc1000Test H E w).2.bus.mutex = 1 := by
    revert h
    unfold sensorHdc1000Test
    simp only [Hdc1000.SENSOR_SELECT, selectBus_of_mutex_zero E _ _ w hm]
    by_cases hd : H.ST_ASSERT_deselects = true <;> split_ifs <;>
      simp [stAssertFail, deselectBus, newLockCalls, sensorReadReg, bspI2cWriteRead,
        I2C_transfer, bspI2cDeselect, Semaphore_post, hd]
  refine ⟨key.1, ?_, key.2, ?_⟩
  · rw [key.1]; rfl
  · rw [key.2, hm]; decide

/-- Claim C13 at a concrete input: the bus is held elsewhere and the device answers both
identification reads correctly, so `sensorHdc1000Test` returns `true`. -/
theorem sensorHdc1000Test_lock_unbalanced_witness :
    exampleWorld.bus.mutex = 0 ∧
      (sensorHdc1000Test exampleSensorHPlain exampleDriverEnv exampleWorld).1 = true ∧
      newLockCalls exampleWorld
          (sensorHdc1000Test exampleSensorHPlain exampleDriverEnv exampleWorld).2 =
        [LockCall.bspI2cSelect false, LockCall.bspI2cDeselect] ∧
      (sensorHdc1000Test exampleSensorHPlain exampleDriverEnv exampleWorld).2.bus.mutex = 1 :=
  have h := sensorHdc1000Test_lock_unbalanced exampleSensorHPlain exampleDriverEnv exampleWorld
    rfl (Or.inl (by decide))
  ⟨rfl, by decide, h.1, h.2.2.1⟩

/-- After `bspI2cDeselect` the count of the mutex is one. -/
theorem deselectBus_mutex (w : World) : (deselectBus w).bus.mutex = 1 := rfl

/-- A conditional result leaves the count at one when both branches do. -/
theorem ite_bus_mutex {α : Type} (c : Prop) [Decidable c] (a b : α × World)
    (ha : a.2.bus.mutex = 1) (hb : b.2.bus.mutex = 1) :
    (if c then a else b).2.bus.mutex = 1 := by
  split <;> assumption

/-- The same defect in `sensorMpu9250MagRead`, which does not test the result of
`SENSOR_SELECT()` or of `SENSOR_SELECT_MAG()`: called with the MPU powered while another
context holds the bus, it returns with the count of the mutex at one. -/
theorem sensorMpu9250MagRead_lock_unbalanced (H : SensorH) (M : Mpu9250H) (E : DriverEnv)
    (data : List ℤ) (w : World) (hp : w.mpuPower = true) :
    (sensorMpu9250MagRead H M E data w).2.bus.mutex = 1 := by
  unfold sensorMpu9250MagRead
  simp only [sensorMpu9250PowerIsOn, hp, Bool.true_eq_false, if_false]
  apply ite_bus_mutex <;> exact deselectBus_mutex _

/-! ## Theorems: message queue of the application task -/

/-- Claim C21. When `ICall_malloc` fails, `SensorTag_enqueueMsg` leaves the queue and the
record of calls as they were (the semaphore is not posted); when it succeeds, the queue is
the old queue followed by one message carrying the event, the service and the parameter,
and the semaphore is posted once. -/
theorem SensorTag_enqueueMsg_outcome (event serviceID paramID : ℕ) (s : AppState)
    (he : event < 256) (hs : serviceID < 256) (hp : paramID < 256) :
    (SensorTag_enqueueMsg false event serviceID paramID s).appMsgQueue = s.appMsgQueue ∧
      (SensorTag_enqueueMsg false event serviceID paramID s).calls = s.calls ∧
      SensorTag_enqueueMsg false event serviceID paramID s = s ∧
      (SensorTag_enqueueMsg true event serviceID paramID s).appMsgQueue =
        s.appMsgQueue ++ [{ event := event, serviceID := serviceID, paramID := paramID }] ∧
      (SensorTag_enqueueMsg true event serviceID paramID s).calls =
        s.calls ++ [AppCall.Semaphore_post_sem] := by
  have h1 : event % 256 = event := Nat.mod_eq_of_lt he
  have h2 : serviceID % 256 = serviceID := Nat.mod_eq_of_lt hs
  have h3 : paramID % 256 = paramID := Nat.mod_eq_of_lt hp
  simp [SensorTag_enqueueMsg, Util_enqueueMsg, h1, h2, h3]

/-- Claim C21 at a concrete input: a characteristic-change message enqueued behind the two
messages of the example. -/
theorem SensorTag_enqueueMsg_outcome_witness :
    (SensorTag_enqueueMsg false ST_CHAR_CHANGE_EVT 3 1 exampleApp).appMsgQueue =
        exampleApp.appMsgQueue ∧
      (SensorTag_enqueueMsg false ST_CHAR_CHANGE_EVT 3 1 exampleApp).calls = exampleApp.calls ∧
      SensorTag_enqueueMsg false ST_CHAR_CHANGE_EVT 3 1 exampleApp = exampleApp ∧
      (SensorTag_enqueueMsg true ST_CHAR_CHANGE_EVT 3 1 exampleApp).appMsgQueue =
        exampleApp.appMsgQueue ++
          [{ event := ST_CHAR_CHANGE_EVT, serviceID := 3, paramID := 1 }] ∧
      (SensorTag_enqueueMsg true ST_CHAR_CHANGE_EVT 3 1 exampleApp).calls =
        exampleApp.calls ++ [AppCall.Semaphore_post_sem] :=
  SensorTag_enqueueMsg_outcome ST_CHAR_CHANGE_EVT 3 1 exampleApp (by decide) (by decide)
    (by decide)

/-! ## Theorems: HDC1000 start and read cycle -/

/-- A select with a positive count of the mutex succeeds, stores the address and leaves the
records of the drivers above it alone. -/
theorem selectBus_of_mutex_pos (E : DriverEnv) (i a : ℕ) (w : World) (hm : w.bus.mutex ≠ 0) :
    (selectBus E i a w).1 = true ∧ (selectBus E i a w).2.bus.slaveAddr = a ∧
      (selectBus E i a w).2.transfers = w.transfers ∧ (selectBus E i a w).2.hdc = w.hdc ∧
      (selectBus E i a w).2.mpu = w.mpu ∧ (selectBus E i a w).2.mpuPower = w.mpuPower := by
  have hp : ¬ (Semaphore_pend w.bus.mutex).1 = false := by simp [Semaphore_pend, hm]
  have hsel : (bspI2cSelect E.I2C_open i a w.bus).1 = true ∧
      (bspI2cSelect E.I2C_open i a w.bus).2.slaveAddr = a := by
    unfold bspI2cSelect
    rw [if_neg hp]
    by_cases hi : i = w.bus.interface
    · simp [hi]
    · by_cases h1 : i = BSP_I2C_INTERFACE_1
      · subst h1
        simp [hi]
      · simp [hi, h1]
  exact ⟨hsel.1, hsel.2, rfl, rfl, rfl, rfl⟩

/-- After every return of `sensorHdc1000Read` the flag `success` is true. -/
theorem sensorHdc1000Read_success_flag (H : SensorH) (E : DriverEnv) (rawTemp rawHum : ℕ)
    (w : World) : (sensorHdc1000Read H E rawTemp rawHum w).2.hdc.success = true := by
  unfold sensorHdc1000Read
  by_cases hs : w.hdc.success = true
  · rcases Nat.eq_zero_or_pos w.bus.mutex with hm | hm
    · simp [hs, Hdc1000.SENSOR_SELECT, selectBus_of_mutex_zero, hm]
    · have h := selectBus_of_mutex_pos E BSP_I2C_INTERFACE_0 Hdc1000.SENSOR_I2C_ADDRESS w
        (by omega)
      simp [hs, Hdc1000.SENSOR_SELECT, h.1, h.2.2.2.1]
  · simp [hs]

/-- Claim C22. When `sensorHdc1000Start` reaches its transfer (the flag is set and the bus is
free) and the transfer fails, the next `sensorHdc1000Read` returns `false`, calls neither
`bspI2cSelect` nor `bspI2cDeselect`, issues no transfer and leaves the values behind
`rawTemp` and `rawHum` as they were; and after every return of `sensorHdc1000Read`, from any
state, the flag `success` is true. -/
theorem sensorHdc1000Read_after_failed_start (H : SensorH) (E : DriverEnv)
    (rawTemp rawHum : ℕ) (w : World) (hs : w.hdc.success = true) (hm : w.bus.mutex ≠ 0)
    (hf : (E.I2C_transfer w.transfers.length
      { writeBuf := [Hdc1000.HDC1000_REG_TEMP], readCount := 0,
        slaveAddress := Hdc1000.SENSOR_I2C_ADDRESS }).1 = false) :
    (sensorHdc1000Start E w).hdc.success = false ∧
      (sensorHdc1000Read H E rawTemp rawHum (sensorHdc1000Start E w)).1 =
        (false, rawTemp, rawHum) ∧
      (sensorHdc1000Read H E rawTemp rawHum (sensorHdc1000Start E w)).2.lockCalls =
        (sensorHdc1000Start E w).lockCalls ∧
      (sensorHdc1000Read H E rawTemp rawHum (sensorHdc1000Start E w)).2.transfers =
        (sensorHdc1000Start E w).transfers ∧
      (sensorHdc1000Read H E rawTemp rawHum (sensorHdc1000Start E w)).2.bus =
        (sensorHdc1000Start E w).bus ∧
      ∀ (w2 : World) (rt rh : ℕ), (sensorHdc1000Read H E rt rh w2).2.hdc.success = true := by
  have hsel := selectBus_of_mutex_pos E BSP_I2C_INTERFACE_0 Hdc1000.SENSOR_I2C_ADDRESS w hm
  have hstart : (sensorHdc1000Start E w).hdc.success = false := by
    unfold sensorHdc1000Start
    simp only [hs, if_true, Hdc1000.SENSOR_SELECT, hsel.1, Bool.true_eq_false, if_false]
    simp only [deselectBus, bspI2cWriteSingle, bspI2cWrite, I2C_transfer, hsel.2.1, hsel.2.2.1]
    exact hf
  have hread : ∀ v : World, v.hdc.success = false →
      sensorHdc1000Read H E rawTemp rawHum v =
        ((false, rawTemp, rawHum), { v with hdc := { v.hdc with success := true } }) := by
    intro v hv
    simp [sensorHdc1000Read, hv]
  rw [hread _ hstart]
  exact ⟨hstart, rfl, rfl, rfl, rfl, fun w2 rt rh => sensorHdc1000Read_success_flag H E rt rh w2⟩

/-- Claim C22 at a concrete input: a free bus on which every transfer fails. -/
theorem sensorHdc1000Read_after_failed_start_witness :
    (sensorHdc1000Start failingDriverEnv exampleWorldFree).hdc.success = false ∧
      (sensorHdc1000Read exampleSensorH failingDriverEnv 7 9
        (sensorHdc1000Start failingDriverEnv exampleWorldFree)).1 = (false, 7, 9) ∧
      (sensorHdc1000Read exampleSensorH failingDriverEnv 7 9
        (sensorHdc1000Start failingDriverEnv exampleWorldFree)).2.lockCalls =
        [LockCall.bspI2cSelect true, LockCall.bspI2cDeselect] :=
  have h := sensorHdc1000Read_after_failed_start exampleSensorH failingDriverEnv 7 9
    exampleWorldFree rfl (by decide) rfl
  ⟨h.1, h.2.1, by rw [h.2.2.1]; decide⟩

/-! ## Theorems: unit conversions -/

/-- The divisor `65536 / 500` of `sensorMpu9250GyroConvert` is the integer `131`. -/
theorem gyro_divisor_eq : (65536 : ℤ).tdiv 500 = 131 := by decide

/-- The value of `sensorMpu9250GyroConvert` is the raw value divided by `131`. -/
theorem sensorMpu9250GyroConvert_eq (data : ℤ) :
    sensorMpu9250GyroConvert data = (data : ℚ) / 131 := by
  unfold sensorMpu9250GyroConvert
  rw [gyro_divisor_eq]
  norm_num

/-- Claim C24, where the code departs from it: the divisor is the integer quotient
`65536 / 500 = 131`, not `65536 / 500` taken exactly.  At the raw value `-32768` the code
gives `-32768 / 131`, which is not `-32768 * 500 / 65536 = -250` and lies below `-250`; at
`32767` it gives a value above `250`. -/
theorem sensorMpu9250GyroConvert_out_of_range :
    sensorMpu9250GyroConvert (-32768) = -32768 / 131 ∧
      sensorMpu9250GyroConvert (-32768) ≠ (-32768 : ℚ) * 500 / 65536 ∧
      sensorMpu9250GyroConvert (-32768) < -250 ∧
      250 < sensorMpu9250GyroConvert 32767 := by
  rw [sensorMpu9250GyroConvert_eq, sensorMpu9250GyroConvert_eq]
  norm_num

/-- For a raw temperature below `0x8000` the cast to `int16_t` changes nothing, and the
humidity has no cast: there `sensorHdc1000Convert` gives `rawTemp * 165 / 65536 - 40` in
`[-40, 125)` and `rawHum * 100 / 65536` in `[0, 100)`. -/
theorem sensorHdc1000Convert_low_half (rawTemp rawHum : ℕ) (ht : rawTemp < 32768)
    (hh : rawHum < 65536) :
    (sensorHdc1000Convert rawTemp rawHum).1 = (rawTemp : ℚ) * 165 / 65536 - 40 ∧
      -40 ≤ (sensorHdc1000Convert rawTemp rawHum).1 ∧
      (sensorHdc1000Convert rawTemp rawHum).1 < 125 ∧
      (sensorHdc1000Convert rawTemp rawHum).2 = (rawHum : ℚ) * 100 / 65536 ∧
      0 ≤ (sensorHdc1000Convert rawTemp rawHum).2 ∧
      (sensorHdc1000Convert rawTemp rawHum).2 < 100 := by
  have h16 : toInt16 (rawTemp : ℤ) = (rawTemp : ℤ) := by
    unfold toInt16
    omega
  have ht0 : (0 : ℚ) ≤ rawTemp := Nat.cast_nonneg _
  have ht1 : (rawTemp : ℚ) < 32768 := by exact_mod_cast ht
  have hh0 : (0 : ℚ) ≤ rawHum := Nat.cast_nonneg _
  have hh1 : (rawHum : ℚ) < 65536 := by exact_mod_cast hh
  simp only [sensorHdc1000Convert, h16, Int.cast_natCast]
  refine ⟨by ring, ?_, ?_, by ring, ?_, ?_⟩
  · have : (0 : ℚ) ≤ (rawTemp : ℚ) / 65536 * 165 := by positivity
    linarith
  · have : (rawTemp : ℚ) / 65536 * 165 < 165 := by
      rw [div_mul_eq_mul_div, div_lt_iff₀ (by norm_num)]
      linarith
    linarith
  · positivity
  · rw [div_mul_eq_mul_div, div_lt_iff₀ (by norm_num)]
    linarith

/-- For a raw temperature from `0x8000` on, the cast to `int16_t` makes the value negative:
`sensorHdc1000Convert` gives `(rawTemp - 65536) * 165 / 65536 - 40`, which is below `-40`. -/
theorem sensorHdc1000Convert_high_half (rawTemp rawHum : ℕ) (ht : 32768 ≤ rawTemp)
    (ht2 : rawTemp < 65536) :
    (sensorHdc1000Convert rawTemp rawHum).1 = ((rawTemp : ℚ) - 65536) * 165 / 65536 - 40 ∧
      (sensorHdc1000Convert rawTemp rawHum).1 < -40 := by
  have h16 : toInt16 (rawTemp : ℤ) = (rawTemp : ℤ) - 65536 := by
    unfold toInt16
    omega
  have ht1 : (rawTemp : ℚ) < 65536 := by exact_mod_cast ht2
  simp only [sensorHdc1000Convert, h16, Int.cast_sub, Int.cast_natCast, Int.cast_ofNat]
  refine ⟨by ring, ?_⟩
  have : ((rawTemp : ℚ) - 65536) / 65536 * 165 < 0 := by
    have h1 : ((rawTemp : ℚ) - 65536) / 65536 < 0 := div_neg_of_neg_of_pos (by linarith) (by norm_num)
    linarith
  linarith

/-- Claim C30, where the code departs from it: the temperature is computed from
`(int16_t)rawTemp`.  At `rawTemp = 0x8000` the code gives `-122.5`, not
`32768 * 165 / 65536 - 40 = 42.5`; the value lies below `-40`, and it is smaller than the
value at `rawTemp = 0x7FFF`, so the temperature is not monotone in the raw value. -/
theorem sensorHdc1000Convert_temperature_cast :
    (sensorHdc1000Convert 0x8000 0).1 = -245 / 2 ∧
      (sensorHdc1000Convert 0x8000 0).1 ≠ (0x8000 : ℚ) * 165 / 65536 - 40 ∧
      (sensorHdc1000Convert 0x8000 0).1 < -40 ∧
      (sensorHdc1000Convert 0x8000 0).1 < (sensorHdc1000Convert 0x7FFF 0).1 := by
  have h1 : toInt16 ((0x8000 : ℕ) : ℤ) = -32768 := by decide
  have h2 : toInt16 ((0x7FFF : ℕ) : ℤ) = 32767 := by decide
  simp only [sensorHdc1000Convert, h1, h2]
  norm_num

/-! ## Theorems: termination of the endianness conversion -/

/-- With `len = 255` the loop of `convertToLe` never exits: from every even counter value
below 256 the condition `i < len` holds and the next counter value is even and below 256
again (254 is followed by 0). -/
theorem convertToLeLoop_255 (fuel : ℕ) : ∀ (data : Bytes) (i : ℕ), i % 2 = 0 → i < 256 →
    convertToLeLoop fuel data 255 i = none := by
  induction fuel with
  | zero =>
    intro data i _ _
    rfl
  | succ fuel ih =>
    intro data i hi hlt
    have h255 : i < 255 := by omega
    rw [convertToLeLoop, if_pos h255]
    exact ih _ _ (by omega) (Nat.mod_lt _ (by norm_num))

/-- The loop of `convertToLe` for `len ≤ 254`, entered with an even counter value
`i ≤ len + 1`: it returns exactly when the bound exceeds `(len + 1 - i) / 2`, the number of
iterations left, and then every byte pair from `i` up to `len` rounded up to an even number
is swapped. -/
theorem convertToLeLoop_spec (fuel : ℕ) : ∀ (data : Bytes) (len i : ℕ), len ≤ 254 →
    i % 2 = 0 → i ≤ len + 1 →
    convertToLeLoop fuel data len i =
      if (len + 1 - i) / 2 < fuel then
        some (fun j => if i ≤ j ∧ j < 2 * ((len + 1) / 2) then
          (if j % 2 = 0 then data (j + 1) else data (j - 1)) else data j)
      else none := by
  induction fuel with
  | zero =>
    intro data len i _ _ _
    rw [if_neg (Nat.not_lt_zero _)]
    rfl
  | succ fuel ih =>
    intro data len i hlen hi hle
    by_cases hlt : i < len
    · have hwrap : (i + 2) % 256 = i + 2 := Nat.mod_eq_of_lt (by omega)
      rw [convertToLeLoop, if_pos hlt]
      simp only [hwrap]
      rw [ih _ len (i + 2) hlen (by omega) (by omega)]
      by_cases hf : (len + 1 - i) / 2 < fuel + 1
      · rw [if_pos hf, if_pos (by omega)]
        congr 1
        funext j
        simp only [Function.update_apply]
        split_ifs <;> first | rfl | omega | (congr 1; omega)
      · rw [if_neg hf, if_neg (by omega)]
    · rw [convertToLeLoop, if_neg hlt, if_pos (by omega)]
      congr 1
      funext j
      rw [if_neg (by omega)]

/-- C29 (as stated, refuted). With `len = 255` the 8-bit counter goes `0, 2, ..., 254, 0, ...`
and never reaches a value `≥ len`: `convertToLe` does not return, whatever the bound on the
number of iterations. -/
theorem convertToLe_len_255_never_returns :
    (255 : ℕ) < 256 ∧ ∀ (fuel : ℕ) (data : Bytes), convertToLe fuel data 255 = none :=
  ⟨by norm_num, fun fuel data => convertToLeLoop_255 fuel data 0 rfl (by norm_num)⟩

/-- C29 (amended). For every `len` from 0 to 254 `convertToLe` returns after exactly
`⌈len / 2⌉` executions of the loop body: it returns for a bound on the evaluations of the
loop condition exactly when the bound exceeds `(len + 1) / 2`.  The result has the byte
pairs `k < ⌈len / 2⌉` swapped and every byte from `2 * ⌈len / 2⌉` on unchanged. -/
theorem convertToLe_terminates (data : Bytes) (len : ℕ) (hlen : len ≤ 254) :
    ∃ out, (∀ fuel, convertToLe fuel data len =
        if (len + 1) / 2 < fuel then some out else none) ∧
      (∀ k, k < (len + 1) / 2 →
        out (2 * k) = data (2 * k + 1) ∧ out (2 * k + 1) = data (2 * k)) ∧
      ∀ j, 2 * ((len + 1) / 2) ≤ j → out j = data j := by
  refine ⟨fun j => if 0 ≤ j ∧ j < 2 * ((len + 1) / 2) then
      (if j % 2 = 0 then data (j + 1) else data (j - 1)) else data j, ?_, ?_, ?_⟩
  · intro fuel
    have h := convertToLeLoop_spec fuel data len 0 hlen rfl (Nat.zero_le _)
    rw [convertToLe, h]
    rfl
  · intro k hk
    constructor
    · simp only []
      rw [if_pos (by omega), if_pos (by omega)]
    · simp only []
      rw [if_pos (by omega), if_neg (by omega)]
      congr 1
  · intro j hj
    simp only []
    rw [if_neg (by omega)]

/-- C29 (amended) at `len = 7`: four pair swaps. -/
theorem convertToLe_terminates_witness :
    (7 : ℕ) ≤ 254 ∧
      ∃ out, (∀ fuel, convertToLe fuel exampleBytes 7 =
          if (7 + 1) / 2 < fuel then some out else none) ∧
        (∀ k, k < (7 + 1) / 2 →
          out (2 * k) = exampleBytes (2 * k + 1) ∧ out (2 * k + 1) = exampleBytes (2 * k)) ∧
        ∀ j, 2 * ((7 + 1) / 2) ≤ j → out j = exampleBytes j :=
  ⟨by norm_num, convertToLe_terminates exampleBytes 7 (by norm_num)⟩


/-! ## Theorems: advertising data -/

/-- The low byte of `lo | (hi << 8)` is `lo`, for a byte `lo`. -/
theorem or_shift_low_byte (lo hi : ℕ) (h : lo < 256) :
    (lo ||| (hi <<< 8)) % 65536 % 256 = lo := by
  have h1 : 2 ^ 8 * hi + lo = 2 ^ 8 * hi ||| lo := Nat.mul_add_lt_is_or (by omega) hi
  rw [Nat.lor_comm, Nat.shiftLeft_eq, Nat.mul_comm hi, ← h1]
  omega

/-- Claim C23, where the code departs from it: after `MysensorTag_updateAdvertisingData` the
bytes `KEY_STATE_OFFSET + 1 .. + 4` of `advertData` are `MovRawData[6..9]`, but the byte at
`KEY_STATE_OFFSET + 5` is the incremented repetition counter `i` and the byte at
`KEY_STATE_OFFSET + 6` is the low byte of the raw humidity (`HumRawData[2]`), not
`MovRawData[10]` and `MovRawData[11]`; every other byte is unchanged. -/
theorem updateAdvertisingData_bytes (H : SensorH) (E : DriverEnv) (humData movData : List ℕ)
    (a : AdvertState) (w : World) (hlen : a.advertData.length = 20) :
    (MysensorTag_updateAdvertisingData H E humData movData a w).1.advertData.length = 20 ∧
      (∀ k, k < 4 →
        (MysensorTag_updateAdvertisingData H E humData movData a w).1.advertData.getD
          (KEY_STATE_OFFSET + 1 + k) 0 = movData.getD (6 + k) 0 % 256) ∧
      (MysensorTag_updateAdvertisingData H E humData movData a w).1.advertData.getD
          (KEY_STATE_OFFSET + 5) 0 = (a.i + 1) % 256 ∧
      (MysensorTag_updateAdvertisingData H E humData movData a w).1.advertData.getD
          (KEY_STATE_OFFSET + 6) 0 = humData.getD 2 0 % 256 ∧
      ∀ j, j ≤ KEY_STATE_OFFSET →
        (MysensorTag_updateAdvertisingData H E humData movData a w).1.advertData.getD j 0 =
          a.advertData.getD j 0 := by
  have hb := or_shift_low_byte (humData.getD 2 0 % 256) (humData.getD 3 0 % 256)
    (Nat.mod_lt _ (by norm_num))
  simp only [MysensorTag_updateAdvertisingData, KEY_STATE_OFFSET, hb]
  refine ⟨by simp [hlen], ?_, ?_, ?_, ?_⟩
  · intro k hk
    interval_cases k <;> simp [List.getD_eq_getElem?_getD, List.getElem?_set, hlen]
  · simp [List.getD_eq_getElem?_getD, List.getElem?_set, hlen]
  · simp [List.getD_eq_getElem?_getD, List.getElem?_set, hlen]
  · intro j hj
    have h1 : ¬ 14 = j := by omega
    have h2 : ¬ 15 = j := by omega
    have h3 : ¬ 16 = j := by omega
    have h4 : ¬ 17 = j := by omega
    have h5 : ¬ 18 = j := by omega
    have h6 : ¬ 19 = j := by omega
    simp [List.getD_eq_getElem?_getD, List.getElem?_set, h1, h2, h3, h4, h5, h6]

/-- Claim C23 at a concrete input: the movement data has `0x4A`, `0x4B` at offsets 10 and
11, the counter is 0 and the humidity bytes are `0x33 0x44`; the payload gets `0x01` and
`0x33` in the two places documented as the low and high byte of `accZ`. -/
theorem updateAdvertisingData_bytes_witness :
    exampleAdvert.advertData.length = 20 ∧
      exampleMovData.getD 10 0 = 0x4A ∧ exampleMovData.getD 11 0 = 0x4B ∧
      (MysensorTag_updateAdvertisingData exampleSensorH exampleDriverEnv exampleHumData
          exampleMovData exampleAdvert exampleWorldFree).1.advertData.getD
        (KEY_STATE_OFFSET + 5) 0 = 0x01 ∧
      (MysensorTag_updateAdvertisingData exampleSensorH exampleDriverEnv exampleHumData
          exampleMovData exampleAdvert exampleWorldFree).1.advertData.getD
        (KEY_STATE_OFFSET + 6) 0 = 0x33 :=
  have h := updateAdvertisingData_bytes exampleSensorH exampleDriverEnv exampleHumData
    exampleMovData exampleAdvert exampleWorldFree rfl
  ⟨rfl, by decide, by decide, h.2.2.1, h.2.2.2.1⟩

/-- The payload of the example after the call, worked out. -/
theorem updateAdvertisingData_eval :
    (MysensorTag_updateAdvertisingData exampleSensorH exampleDriverEnv exampleHumData
        exampleMovData exampleAdvert exampleWorldFree).1.advertData =
      [0x02, 0x01, 0x05, 0x03, 0x02, 0x80, 0xAA, 0x0C, 0xFF, 0x0D, 0x00, 0x03, 0x00, 0x00,
        0x46, 0x47, 0x48, 0x49, 0x01, 0x33] := by
  decide

/-! ## Theorems: magnetometer status -/

/-- Claim C25, where the code departs from it: when the MPU is powered and the write that
enables the bypass fails, `sensorMpu9250MagRead` records `MAG_BYPASS_FAIL` and leaves through
`return false`: the returned value is 0, while `sensorMpu9250MagStatus` gives
`MAG_BYPASS_FAIL` right afterwards, and the values behind `data` are untouched. -/
theorem sensorMpu9250MagRead_bypass_failure (H : SensorH) (M : Mpu9250H) (E : DriverEnv)
    (data : List ℤ) (w : World) (hp : w.mpuPower = true)
    (hf : ∀ t, (E.I2C_transfer w.transfers.length t).1 = false)
    (hne : M.MAG_BYPASS_FAIL % 256 ≠ M.MAG_STATUS_OK) :
    (sensorMpu9250MagRead H M E data w).1 = (0, data) ∧
      sensorMpu9250MagStatus (sensorMpu9250MagRead H M E data w).2 =
        M.MAG_BYPASS_FAIL % 256 := by
  unfold sensorMpu9250MagRead sensorMpu9250MagStatus
  simp only [sensorMpu9250PowerIsOn, hp, Bool.true_eq_false, if_false, sensorWriteReg,
    bspI2cWrite, I2C_transfer, Mpu9250.SENSOR_SELECT, selectBus, hf, if_true, deselectBus,
    ne_eq, hne, not_false_eq_true]
  exact ⟨trivial, trivial⟩

/-- Claim C25 at a concrete input: the MPU is powered, every transfer fails, and the status
codes are 0 for `MAG_STATUS_OK` and 5 for `MAG_BYPASS_FAIL`; the call returns 0, which is
`MAG_STATUS_OK`, and the recorded status is 5. -/
theorem sensorMpu9250MagRead_bypass_failure_witness :
    (sensorMpu9250MagRead exampleSensorH exampleMpu9250H failingDriverEnv [1, 2, 3]
        exampleWorldFree).1 = (exampleMpu9250H.MAG_STATUS_OK, [1, 2, 3]) ∧
      sensorMpu9250MagStatus
        (sensorMpu9250MagRead exampleSensorH exampleMpu9250H failingDriverEnv [1, 2, 3]
          exampleWorldFree).2 = 5 :=
  sensorMpu9250MagRead_bypass_failure exampleSensorH exampleMpu9250H failingDriverEnv [1, 2, 3]
    exampleWorldFree rfl (fun _ => rfl) (by decide)

/-! ## Theorems: interface and pin mapping of the bus arbiter -/

/-- The state that `bspI2cInit` leaves has the recorded interface and the pin mapping in
agreement. -/
theorem bspI2cInit_pinsMatch (I2C_open : I2C_Params → Option ℕ) (s s1 : BspI2c)
    (h : bspI2cInit I2C_open s = CallEnd.returned s1 ∨
      bspI2cInit I2C_open s = CallEnd.taskExit s1) : s1.PinsMatch = true := by
  unfold bspI2cInit at h
  simp only [] at h
  split_ifs at h <;> rcases h with h | h <;> first
    | (injection h with h; subst h; simp [BspI2c.PinsMatch, I2C_Params_init,
        BSP_I2C_INTERFACE_0, BSP_I2C_INTERFACE_1])
    | (exact absurd h (by simp))

/-- Every `bspI2cSelect` keeps the recorded interface and the pin mapping in agreement. -/
theorem bspI2cSelect_pinsMatch (I2C_open : I2C_Params → Option ℕ) (i a : ℕ) (s : BspI2c)
    (h : s.PinsMatch = true) : (bspI2cSelect I2C_open i a s).2.PinsMatch = true := by
  unfold BspI2c.PinsMatch at h ⊢
  simp only [decide_eq_true_eq] at h ⊢
  unfold bspI2cSelect
  by_cases hp : (Semaphore_pend s.mutex).1 = false
  · rw [if_pos hp]
    exact h
  · rw [if_neg hp]
    by_cases hi : i = s.interface
    · simp [hi, h]
    · by_cases h1 : i = BSP_I2C_INTERFACE_1
      · subst h1
        simp [hi]
      · simp [hi, h1, I2C_Params_init]

/-- Claim C26, where the code departs from it: `bspI2cReset` sets `interface` to
`BSP_I2C_INTERFACE_0` and opens the driver again with the old `i2cParams`.  Called with the
bus free after interface 1 was in use, it leaves `interface = BSP_I2C_INTERFACE_0` while the
transport is open with the interface-1 pin mapping, and the next
`bspI2cSelect(BSP_I2C_INTERFACE_0, a)` succeeds without any reconfiguration. -/
theorem bspI2cReset_breaks_pinsMatch (I2C_open : I2C_Params → Option ℕ) (a : ℕ) (s : BspI2c)
    (hi : s.interface = BSP_I2C_INTERFACE_1)
    (hc : s.i2cParams.custom = some PinCfg.pinCfg1) (hm : s.mutex ≠ 0) :
    s.PinsMatch = true ∧
      (bspI2cReset I2C_open s).interface = BSP_I2C_INTERFACE_0 ∧
      (bspI2cReset I2C_open s).i2cParams.custom = some PinCfg.pinCfg1 ∧
      (bspI2cReset I2C_open s).driverCalls =
        s.driverCalls ++ [DriverCall.I2C_close s.i2cHandle, DriverCall.I2C_open s.i2cParams] ∧
      (bspI2cReset I2C_open s).PinsMatch = false ∧
      (bspI2cSelect I2C_open BSP_I2C_INTERFACE_0 a (bspI2cReset I2C_open s)).1 = true ∧
      (bspI2cSelect I2C_open BSP_I2C_INTERFACE_0 a (bspI2cReset I2C_open s)).2.i2cParams.custom =
        some PinCfg.pinCfg1 ∧
      (bspI2cSelect I2C_open BSP_I2C_INTERFACE_0 a (bspI2cReset I2C_open s)).2.driverCalls =
        (bspI2cReset I2C_open s).driverCalls := by
  have hp : ¬ (Semaphore_pend s.mutex).1 = false := by simp [Semaphore_pend, hm]
  have hr : bspI2cReset I2C_open s =
      { s with
        mutex := 1, slaveAddr := 0xFF, interface := BSP_I2C_INTERFACE_0,
        i2cHandle := I2C_open s.i2cParams,
        driverCalls := s.driverCalls ++
          [DriverCall.I2C_close s.i2cHandle, DriverCall.I2C_open s.i2cParams] } := by
    unfold bspI2cReset
    rw [if_neg hp]
    simp [Semaphore_post]
  rw [hr]
  refine ⟨by simp [BspI2c.PinsMatch, hi, hc], rfl, hc, rfl, ?_, ?_, ?_, ?_⟩
  · simp [BspI2c.PinsMatch, hc, BSP_I2C_INTERFACE_0, BSP_I2C_INTERFACE_1]
  · simp [bspI2cSelect, Semaphore_pend]
  · simp [bspI2cSelect, Semaphore_pend, hc]
  · simp [bspI2cSelect, Semaphore_pend]

/-- Claim C26 at a concrete input: the bus as `bspI2cSelect(BSP_I2C_INTERFACE_1, 0x68)` and
`bspI2cDeselect()` leave it, then `bspI2cReset()`, then a select of the HDC1000 on
interface 0. -/
theorem bspI2cReset_breaks_pinsMatch_witness :
    exampleBusOne.PinsMatch = true ∧
      (bspI2cReset exampleOpen exampleBusOne).interface = BSP_I2C_INTERFACE_0 ∧
      (bspI2cReset exampleOpen exampleBusOne).i2cParams.custom = some PinCfg.pinCfg1 ∧
      (bspI2cReset exampleOpen exampleBusOne).PinsMatch = false ∧
      (bspI2cSelect exampleOpen BSP_I2C_INTERFACE_0 0x43
        (bspI2cReset exampleOpen exampleBusOne)).2.driverCalls =
        (bspI2cReset exampleOpen exampleBusOne).driverCalls :=
  have h := bspI2cReset_breaks_pinsMatch exampleOpen 0x43 exampleBusOne rfl rfl (by decide)
  ⟨h.1, h.2.1, h.2.2.1, h.2.2.2.2.1, h.2.2.2.2.2.2.2⟩

/-! ## Theorems: accelerometer range and its register image -/

/-- After `sensorMpu9250AccReadRange` the range is the one in the register image, or nothing
has changed: the function keeps the agreement of `accRange` and `accRangeReg`. -/
theorem sensorMpu9250AccReadRange_image (H : SensorH) (E : DriverEnv) (w : World) :
    ((sensorMpu9250AccReadRange H E w).2.mpu.accRangeReg >>> 3) &&& 3 =
        (sensorMpu9250AccReadRange H E w).2.mpu.accRange ∨
      (sensorMpu9250AccReadRange H E w).2.mpu = w.mpu := by
  unfold sensorMpu9250AccReadRange
  by_cases hp : w.mpuPower = true
  · rcases Nat.eq_zero_or_pos w.bus.mutex with hm | hm
    · right
      simp [sensorMpu9250PowerIsOn, hp, Mpu9250.SENSOR_SELECT, selectBus_of_mutex_zero, hm]
    · left
      have hsel := selectBus_of_mutex_pos E BSP_I2C_INTERFACE_1 Mpu9250.SENSOR_I2C_ADDRESS w
        (by omega)
      simp [sensorMpu9250PowerIsOn, hp, Mpu9250.SENSOR_SELECT, hsel.1, deselectBus]
  · right
    simp only [sensorMpu9250PowerIsOn, hp, stAssertFail, deselectBus]
    split_ifs <;> simp_all

/-- Claim C27, where the code departs from it: `sensorMpu9250AccSetRange` stores the new
register image before the write and the new range only after a successful write.  When the
MPU is powered, the bus is free, the new range differs from the current one and the write
fails, the call returns `false` with `accRange` unchanged and `accRangeReg = newRange << 3`. -/
theorem sensorMpu9250AccSetRange_failed_write (H : SensorH) (E : DriverEnv) (newRange : ℕ)
    (w : World) (hp : w.mpuPower = true) (hm : w.bus.mutex ≠ 0)
    (hne : newRange ≠ w.mpu.accRange)
    (hf : ∀ t, (E.I2C_transfer w.transfers.length t).1 = false) :
    (sensorMpu9250AccSetRange H E newRange w).1 = false ∧
      (sensorMpu9250AccSetRange H E newRange w).2.mpu.accRange = w.mpu.accRange ∧
      (sensorMpu9250AccSetRange H E newRange w).2.mpu.accRangeReg = (newRange <<< 3) % 256 := by
  have hsel := selectBus_of_mutex_pos E BSP_I2C_INTERFACE_1 Mpu9250.SENSOR_I2C_ADDRESS w hm
  unfold sensorMpu9250AccSetRange
  simp only [hne, if_false, sensorMpu9250PowerIsOn, hp, Bool.true_eq_false,
    Mpu9250.SENSOR_SELECT, hsel.1, sensorWriteReg, bspI2cWrite, I2C_transfer, hsel.2.2.1, hf,
    deselectBus, hsel.2.2.2.2.1]
  simp

/-- Claim C27 at a concrete input: range 1 with register image `1 << 3`, a request for
range 2, and a failing write.  Afterwards `accRange` is the valid range 1 and
`(accRangeReg >> 3) & 3` is 2. -/
theorem sensorMpu9250AccSetRange_failed_write_witness :
    (exampleWorldFree.mpu.accRangeReg >>> 3) &&& 3 = exampleWorldFree.mpu.accRange ∧
      (sensorMpu9250AccSetRange exampleSensorH failingDriverEnv 2 exampleWorldFree).2.mpu.accRange
        = 1 ∧
      ((sensorMpu9250AccSetRange exampleSensorH failingDriverEnv 2
        exampleWorldFree).2.mpu.accRangeReg >>> 3) &&& 3 = 2 :=
  have h := sensorMpu9250AccSetRange_failed_write exampleSensorH failingDriverEnv 2
    exampleWorldFree rfl (by decide) (by decide) (fun _ => rfl)
  ⟨by decide, h.2.1, by rw [h.2.2]; decide⟩

/-! ## Theorems: integer encoder against float encoder -/

/-- Claim C28 does not hold as stated: for `n = 2621` the product `262100` halved six times
is `4095.3125`, which the integer loop truncates to `4095` and accepts, while the float loop
halves once more.  The exponent fields are 6 and 7. -/
theorem intToSfloat_exponent_differs :
    (0 : ℤ) ≤ 2621 ∧ 100 * (2621 : ℤ) ≤ 0xFFF * 2 ^ 15 ∧
      exponentField (intToSfloat 2621) = 6 ∧ exponentField (floatToSfloat 2621) = 7 ∧
      exponentField (intToSfloat 2621) ≠ exponentField (floatToSfloat 2621) := by
  have hf : exponentField (floatToSfloat 2621) = 7 % 16 := by
    refine (floatToSfloat_fields 2621 (by norm_num) 7 (by norm_num) ?_).1
    intro j hj
    interval_cases j <;> norm_num
  have hi : intToSfloat 2621 = 28671 := by
    rw [intToSfloat_value 2621 (by norm_num) (by norm_num) 6 (by norm_num) ?_]
    · norm_num
      rfl
    · intro j hj
      interval_cases j <;> norm_num
  have hi6 : exponentField (intToSfloat 2621) = 6 := by
    rw [hi]
    decide
  have hf7 : exponentField (floatToSfloat 2621) = 7 := by
    rw [hf]
  refine ⟨by norm_num, by norm_num, hi6, hf7, ?_⟩
  rw [hi6, hf7]
  decide

/-- Claim C28, as the code has it: for every integer `n ≥ 0` with `100 * n ≤ 0xFFF * 2 ^ 15`,
either `intToSfloat n` and `floatToSfloat n` have the same exponent field and the mantissa
of the float encoder is the mantissa of the integer encoder or one more; or the scaled
product lies strictly between `0xFFF` and `0x1000` at the exponent `e` of the integer
encoder, and then the exponent of the float encoder is `e + 1`, the integer mantissa is
`0xFFF` and the float mantissa is `0x800`. -/
theorem intToSfloat_vs_floatToSfloat (n : ℤ) (h0 : 0 ≤ n) (h : 100 * n ≤ 0xFFF * 2 ^ 15) :
    (exponentField (intToSfloat n) = exponentField (floatToSfloat (n : ℚ)) ∧
        (mantissaField (floatToSfloat (n : ℚ)) = mantissaField (intToSfloat n) ∨
          mantissaField (floatToSfloat (n : ℚ)) = mantissaField (intToSfloat n) + 1)) ∨
      (0xFFF * 2 ^ exponentField (intToSfloat n) < 100 * n ∧
        100 * n < 0x1000 * 2 ^ exponentField (intToSfloat n) ∧
        exponentField (floatToSfloat (n : ℚ)) = exponentField (intToSfloat n) + 1 ∧
        mantissaField (intToSfloat n) = 0xFFF ∧ mantissaField (floatToSfloat (n : ℚ)) = 0x800) := by
  have hq0 : (0 : ℚ) ≤ (n : ℚ) := by exact_mod_cast h0
  have hqmax : 100 * (n : ℚ) ≤ 4095 * 2 ^ 15 := by
    have h1 : ((100 * n : ℤ) : ℚ) ≤ ((0xFFF * 2 ^ 15 : ℤ) : ℚ) := by exact_mod_cast h
    push_cast at h1
    linarith
  obtain ⟨ki, hki15, hki, hkilt⟩ :=
    exists_halvings_int 15 (100 * n) (by omega) (by norm_num at h ⊢; omega)
  obtain ⟨kf, hkf15, hkf, hkflt⟩ := exists_halvings 15 (100 * (n : ℚ)) hqmax
  have hv := intToSfloat_value n h0 (by norm_num at h; omega) ki hki hkilt
  obtain ⟨hfe, hfm⟩ := floatToSfloat_fields (n : ℚ) hq0 kf hkf hkflt
  have hfl : ∀ j : ℕ, ⌊100 * (n : ℚ) / 2 ^ j⌋ = 100 * n / 2 ^ j := by
    intro j
    have h1 := floor_div_two_pow (100 * n) j
    push_cast at h1
    exact h1
  have hmi0 : 0 ≤ 100 * n / 2 ^ ki := Int.ediv_nonneg (by omega) (by positivity)
  have hie : exponentField (intToSfloat n) = ki := by
    rw [exponentField_eq, hv]
    omega
  have him : ((mantissaField (intToSfloat n) : ℕ) : ℤ) = 100 * n / 2 ^ ki := by
    rw [mantissaField_eq, hv]
    omega
  have hfe1 : exponentField (floatToSfloat (n : ℚ)) = kf := by
    rw [hfe]
    omega
  have hle : ki ≤ kf := by
    by_contra hc
    push_neg at hc
    have h1 := hkilt kf hc
    rw [← hfl kf] at h1
    have h2 : ((⌊100 * (n : ℚ) / 2 ^ kf⌋ : ℤ) : ℚ) ≤ 100 * (n : ℚ) / 2 ^ kf := Int.floor_le _
    have h3 : ((4095 : ℤ) : ℚ) < ((⌊100 * (n : ℚ) / 2 ^ kf⌋ : ℤ) : ℚ) := by exact_mod_cast h1
    push_cast at h3
    linarith
  have hle2 : kf ≤ ki + 1 := by
    by_contra hc
    push_neg at hc
    have h1 := hkflt (ki + 1) hc
    rw [pow_succ, ← div_div] at h1
    have h3 : (8190 : ℤ) ≤ ⌊100 * (n : ℚ) / 2 ^ ki⌋ := by
      rw [Int.le_floor]
      push_cast
      linarith
    rw [hfl] at h3
    omega
  have hq : (0 : ℚ) ≤ 100 * (n : ℚ) / 2 ^ kf := by positivity
  have hcr : cRound (100 * (n : ℚ) / 2 ^ kf) = ⌊100 * (n : ℚ) / 2 ^ kf + 1 / 2⌋ := by
    unfold cRound
    rw [if_pos hq]
  rw [hcr] at hfm
  rcases (by omega : kf = ki ∨ kf = ki + 1) with hk | hk
  · left
    subst hk
    refine ⟨by rw [hie, hfe1], ?_⟩
    have h1 : ⌊100 * (n : ℚ) / 2 ^ kf⌋ ≤ ⌊100 * (n : ℚ) / 2 ^ kf + 1 / 2⌋ :=
      Int.floor_le_floor (by linarith)
    have h2 : ⌊100 * (n : ℚ) / 2 ^ kf + 1 / 2⌋ ≤ ⌊100 * (n : ℚ) / 2 ^ kf + 1⌋ :=
      Int.floor_le_floor (by linarith)
    rw [Int.floor_add_one, hfl] at h2
    rw [hfl] at h1
    omega
  · right
    subst hk
    have h1 : (4095 : ℚ) < 100 * (n : ℚ) / 2 ^ ki := hkflt ki (Nat.lt_succ_self ki)
    have h2 : 100 * (n : ℚ) / 2 ^ ki < 4096 := by
      have h3 : 100 * (n : ℚ) / 2 ^ ki < ((⌊100 * (n : ℚ) / 2 ^ ki⌋ : ℤ) : ℚ) + 1 :=
        Int.lt_floor_add_one _
      have h4 : ((⌊100 * (n : ℚ) / 2 ^ ki⌋ : ℤ) : ℚ) ≤ ((4095 : ℤ) : ℚ) := by
        rw [hfl]
        exact_mod_cast hki
      push_cast at h4
      linarith
    have hmi : 100 * n / 2 ^ ki = 4095 := by
      rw [← hfl]
      rw [Int.floor_eq_iff]
      push_cast
      constructor <;> linarith
    have hmf : ⌊100 * (n : ℚ) / 2 ^ (ki + 1) + 1 / 2⌋ = 2048 := by
      rw [Int.floor_eq_iff, pow_succ, ← div_div]
      push_cast
      constructor <;> linarith
    have hpos : (0 : ℚ) < 2 ^ ki := by positivity
    have hlo : (4095 : ℚ) * 2 ^ ki < 100 * (n : ℚ) := by
      rwa [lt_div_iff₀ hpos] at h1
    have hhi : 100 * (n : ℚ) < 4096 * 2 ^ ki := by
      rwa [div_lt_iff₀ hpos] at h2
    rw [hie, hfe1]
    refine ⟨?_, ?_, rfl, ?_, ?_⟩
    · have : ((4095 * 2 ^ ki : ℤ) : ℚ) < ((100 * n : ℤ) : ℚ) := by
        push_cast
        exact hlo
      exact_mod_cast this
    · have : ((100 * n : ℤ) : ℚ) < ((4096 * 2 ^ ki : ℤ) : ℚ) := by
        push_cast
        exact hhi
      exact_mod_cast this
    · omega
    · omega

/-- Claim C28 at a concrete input: `n = 2621`, where the exponent fields differ by one. -/
theorem intToSfloat_vs_floatToSfloat_witness :
    (0 : ℤ) ≤ 2621 ∧ 100 * (2621 : ℤ) ≤ 0xFFF * 2 ^ 15 ∧
      ((exponentField (intToSfloat 2621) = exponentField (floatToSfloat ((2621 : ℤ) : ℚ)) ∧
          (mantissaField (floatToSfloat ((2621 : ℤ) : ℚ)) = mantissaField (intToSfloat 2621) ∨
            mantissaField (floatToSfloat ((2621 : ℤ) : ℚ)) =
              mantissaField (intToSfloat 2621) + 1)) ∨
        (0xFFF * 2 ^ exponentField (intToSfloat 2621) < 100 * (2621 : ℤ) ∧
          100 * (2621 : ℤ) < 0x1000 * 2 ^ exponentField (intToSfloat 2621) ∧
          exponentField (floatToSfloat ((2621 : ℤ) : ℚ)) =
            exponentField (intToSfloat 2621) + 1 ∧
          mantissaField (intToSfloat 2621) = 0xFFF ∧
          mantissaField (floatToSfloat ((2621 : ℤ) : ℚ)) = 0x800)) :=
  ⟨by norm_num, by norm_num, intToSfloat_vs_floatToSfloat 2621 (by norm_num) (by norm_num)⟩

end CC2650
